import Mathlib

/-!
Nested-HV support of the sPAPR machine (`hw/ppc/spapr_nested.c`).

A shallow embedding of the hypercall handlers and of the L2 -> L1 exit path,
followed by theorems about them.

Conventions of the embedding.

* `target_ulong` and the other 64-bit quantities are natural numbers; where the
  C arithmetic can wrap the model reduces modulo `2 ^ 64` explicitly.
* A handler that can hit an `assert` or dereference a pointer that is not
  valid returns `Option`: `none` is the abort.
* Constants, enum values and structure sizes that live in headers outside this
  file are collected in the record `Consts` and passed as the parameter `K`.
  `qemu_consts` is one concrete instance, used for concrete evaluations.
* Results of calls into the memory subsystem (`address_space_map`), the
  allocator (`g_try_new`, `g_try_renew`) and the timebase (`cpu_ppc_load_tbl`)
  are inputs of the model.
-/

namespace SpaprNested

/-! ## Constants declared outside this file -/

/-- Header constants used by `spapr_nested.c`: hcall status codes, LPCR bits,
exception numbers, PVR classes, capability bits, limits and wire-structure
sizes. -/
structure Consts where
  H_SUCCESS : Nat
  H_FUNCTION : Nat
  H_PARAMETER : Nat
  H_NOT_AVAILABLE : Nat
  H_NO_MEM : Nat
  H_P2 : Nat
  H_P3 : Nat
  H_IN_USE : Nat
  H_STATE : Nat
  H_UNSUPPORTED_FLAG : Nat
  HV_GUEST_STATE_VERSION : Nat
  sizeof_hvstate : Nat
  sizeof_regs : Nat
  LPCR_DPFD : Nat
  LPCR_ILE : Nat
  LPCR_AIL : Nat
  LPCR_LD : Nat
  LPCR_MER : Nat
  LPCR_HR : Nat
  LPCR_UPRT : Nat
  LPCR_GTSE : Nat
  LPCR_HVICE : Nat
  LPCR_HDICE : Nat
  LPCR_LPES0 : Nat
  POWERPC_EXCP_MCHECK : Nat
  POWERPC_EXCP_RESET : Nat
  POWERPC_EXCP_SYSCALL : Nat
  POWERPC_EXCP_HDSI : Nat
  POWERPC_EXCP_HISI : Nat
  CPU_POWERPC_POWER_SERVER_MASK : Nat
  CPU_POWERPC_POWER9_BASE : Nat
  CPU_POWERPC_POWER10_BASE : Nat
  H_GUEST_CAPABILITIES_COPY_MEM : Nat
  H_GUEST_CAPABILITIES_P9_MODE : Nat
  H_GUEST_CAPABILITIES_P10_MODE : Nat
  NESTED_GUEST_MAX : Nat
  NESTED_GUEST_VCPU_MAX : Nat
  SPAPR_TIMEBASE_FREQ : Nat

/-- The target word size: `target_ulong` is 64 bits wide on this machine. -/
def WORD : Nat := 2 ^ 64

/-- Two's-complement encoding of a negative status code `-n` as a
`target_ulong`. -/
def neg64 (n : Nat) : Nat := WORD - n

/-- A concrete instance of `Consts` carrying the values of the QEMU headers
(`spapr.h`, `cpu.h`, `cpu-models.h`, `spapr_nested.h`). -/
def qemu_consts : Consts where
  H_SUCCESS := 0
  H_FUNCTION := neg64 2
  H_PARAMETER := neg64 4
  H_NOT_AVAILABLE := 3
  H_NO_MEM := neg64 9
  H_P2 := neg64 55
  H_P3 := neg64 56
  H_IN_USE := neg64 77
  H_STATE := neg64 75
  H_UNSUPPORTED_FLAG := neg64 256
  HV_GUEST_STATE_VERSION := 2
  sizeof_hvstate := 248
  sizeof_regs := 352
  LPCR_DPFD := 0x7 <<< 52
  LPCR_ILE := 1 <<< 25
  LPCR_AIL := 3 <<< 23
  LPCR_LD := 1 <<< 17
  LPCR_MER := 1 <<< 11
  LPCR_HR := 1 <<< 20
  LPCR_UPRT := 1 <<< 22
  LPCR_GTSE := 1 <<< 10
  LPCR_HVICE := 1 <<< 1
  LPCR_HDICE := 1 <<< 0
  LPCR_LPES0 := 1 <<< 3
  POWERPC_EXCP_MCHECK := 1
  POWERPC_EXCP_RESET := 64
  POWERPC_EXCP_SYSCALL := 8
  POWERPC_EXCP_HDSI := 69
  POWERPC_EXCP_HISI := 70
  CPU_POWERPC_POWER_SERVER_MASK := 0xFFFF0000
  CPU_POWERPC_POWER9_BASE := 0x004E0000
  CPU_POWERPC_POWER10_BASE := 0x00800000
  H_GUEST_CAPABILITIES_COPY_MEM := 0x8000000000000000
  H_GUEST_CAPABILITIES_P9_MODE := 0x4000000000000000
  H_GUEST_CAPABILITIES_P10_MODE := 0x2000000000000000
  NESTED_GUEST_MAX := 4096
  NESTED_GUEST_VCPU_MAX := 2048
  SPAPR_TIMEBASE_FREQ := 512000000

/-- The macro `PRTS_MASK`, defined in this file as `0x1f`. -/
def PRTS_MASK : Nat := 0x1f

/-- Bitwise complement of a `target_ulong` (the C operator `~`). -/
def not64 (x : Nat) : Nat := WORD - 1 - x % WORD

/-! ## Data model -/

/-- The special purpose registers that this file reads or writes through
`env->spr[...]`. The `SPR_*` indices are distinct architected register
numbers, so each is a constructor. -/
inductive Spr where
  | LPCR | LPIDR | PCR | DPDES | HFSCR | SRR0 | SRR1
  | SPRG0 | SPRG1 | SPRG2 | SPRG3 | BOOKS_PID | PPR
  | HSRR0 | HSRR1 | HDAR | HDSISR | ASDR | PVR
  deriving DecidableEq, Repr

/-- The register snapshot `struct nested_ppc_state`. -/
structure nested_ppc_state where
  gpr : Fin 32 → Nat
  lr : Nat
  ctr : Nat
  cfar : Nat
  msr : Nat
  nip : Nat
  cr : Nat
  xer : Nat
  lpcr : Nat
  lpidr : Nat
  pcr : Nat
  dpdes : Nat
  hfscr : Nat
  srr0 : Nat
  srr1 : Nat
  sprg0 : Nat
  sprg1 : Nat
  sprg2 : Nat
  sprg3 : Nat
  pidr : Nat
  ppr : Nat
  tb_offset : Nat

/-- The timebase facility `ppc_tb_t` behind `env->tb_env`: the timebase
offset, and the hypervisor decrementer (whether its timer exists and the
value last stored into it). -/
structure ppc_tb_t where
  tb_freq : Nat
  tb_offset : Nat
  hdecr_timer : Bool
  hdecr : Nat

/-- The fields of `CPUPPCState` that this file touches. `cr` and `xer` are
the architected registers behind `ppc_get_cr`/`ppc_set_cr` and
`cpu_read_xer`/`cpu_write_xer`; `hflags_msr`, `irq_msr` and `tlb` stand for the
derived state maintained by `hreg_compute_hflags`, `ppc_maybe_interrupt` and
`tlb_flush`. -/
structure CPUPPCState where
  gpr : Fin 32 → Nat
  lr : Nat
  ctr : Nat
  cfar : Nat
  msr : Nat
  nip : Nat
  cr : Nat
  xer : Nat
  spr : Spr → Nat
  tb_env : Option ppc_tb_t
  reserve_addr : Nat
  excp_vectors : Nat → Nat
  msr_mask : Nat
  hflags_msr : Nat
  irq_msr : Nat
  tlb : List Nat

/-- The value of `spapr_cpu->nested_host_state`: `NULL`, a pointer to a live
snapshot, or a dangling pointer whose target has been released with
`g_free`. -/
inductive HostStatePtr where
  | null
  | live (st : nested_ppc_state)
  | freed

/-- The per-CPU machine state `SpaprCpuState` (nesting part). -/
structure SpaprCpuState where
  in_nested : Bool
  nested_host_state : HostStatePtr

/-- A physical vCPU: its register context, the class constant
`pcc->lpcr_mask`, and the sPAPR per-CPU state. -/
structure PowerPCCPU where
  env : CPUPPCState
  lpcr_mask : Nat
  spapr_cpu : SpaprCpuState

/-- The wire structure `struct kvmppc_hv_guest_state` (fields used here, plus
the two the comments name as unused). -/
structure kvmppc_hv_guest_state where
  version : Nat
  lpid : Nat
  vcpu_token : Nat
  lpcr : Nat
  pcr : Nat
  amor : Nat
  dpdes : Nat
  hfscr : Nat
  tb_offset : Nat
  hdec_expiry : Nat
  hdar : Nat
  hdsisr : Nat
  asdr : Nat
  srr0 : Nat
  srr1 : Nat
  sprg : Fin 4 → Nat
  pidr : Nat
  cfar : Nat
  ppr : Nat

/-- The wire structure `struct kvmppc_pt_regs` (fields used here). -/
structure kvmppc_pt_regs where
  gpr : Fin 32 → Nat
  nip : Nat
  msr : Nat
  ctr : Nat
  link : Nat
  xer : Nat
  ccr : Nat

/-- What one call of `address_space_map` hands back: the pointer (`none` is
`NULL`, otherwise the current contents of the mapped structure) and the
length actually mapped. -/
structure Mapping (T : Type) where
  ptr : Option T
  len : Nat

/-- A mapping of the whole structure. -/
def Mapping.full {T : Type} (size : Nat) (v : T) : Mapping T := ⟨some v, size⟩

/-- One vCPU slot `struct SpaprMachineStateNestedGuestVcpu`. -/
structure SpaprMachineStateNestedGuestVcpu where
  enabled : Bool
  env : CPUPPCState
  runbufin_addr : Nat
  runbufout_addr : Nat

/-- One nested guest `struct SpaprMachineStateNestedGuest`: `vcpus` is the
count field and `vcpu` the heap array it owns. -/
structure SpaprMachineStateNestedGuest where
  pvr_logical : Nat
  vcpus : Nat
  vcpu : List SpaprMachineStateNestedGuestVcpu

/-- The `GHashTable` from partition id to guest, as an association list. -/
abbrev GuestTable := List (Nat × SpaprMachineStateNestedGuest)

/-- The member `spapr->nested`. `guests` is `none` while the pointer is
`NULL`. -/
structure SpaprMachineStateNested where
  ptcr : Nat
  capabilities_set : Bool
  pvr_base : Nat
  lpid_max : Nat
  guests : Option GuestTable

/-- The machine state `SpaprMachineState`: the two capability values read by
`spapr_get_cap` and the nested sub-state. -/
structure SpaprMachineState where
  cap_nested_kvm_hv : Nat
  cap_nested_papr : Nat
  nested : SpaprMachineStateNested

/-- What a hypercall handler leaves behind: the returned `target_ulong`, the
CPU and the machine. -/
structure HcallResult where
  ret : Nat
  cpu : PowerPCCPU
  spapr : SpaprMachineState

/-- The guest address space as seen through `address_space_map`: for each of
the two wire structures, the mapping obtained at a guest address, for reading
(`is_write = false`) or for writing. -/
structure AddressSpace where
  map_hv : (addr : Nat) → (is_write : Bool) → Mapping kvmppc_hv_guest_state
  map_regs : (addr : Nat) → (is_write : Bool) → Mapping kvmppc_pt_regs

/-- What `spapr_exit_nested` leaves behind: the CPU, and the final contents of
each guest-memory structure it wrote (`none` when that structure was not
written). -/
structure ExitResult where
  cpu : PowerPCCPU
  hvstate : Option kvmppc_hv_guest_state
  regs : Option kvmppc_pt_regs

/-! ## Helpers that live outside this file -/

/-- Modelled from the spec: `ppc_get_cr` is not in this file; the snapshot's
condition register is the machine word held by the live context. -/
def ppc_get_cr (env : CPUPPCState) : Nat := env.cr

/-- Modelled from the spec: `ppc_set_cr` is not in this file; loading a
snapshot makes its condition register the live one. -/
def ppc_set_cr (env : CPUPPCState) (cr : Nat) : CPUPPCState := { env with cr := cr }

/-- Modelled from the spec: `cpu_read_xer` is not in this file; the snapshot's
integer-exception register is the machine word held by the live context. -/
def cpu_read_xer (env : CPUPPCState) : Nat := env.xer

/-- Modelled from the spec: `cpu_write_xer` is not in this file; loading a
snapshot makes its integer-exception register the live one. -/
def cpu_write_xer (env : CPUPPCState) (xer : Nat) : CPUPPCState := { env with xer := xer }

/-- Modelled from the spec: `hreg_compute_hflags` is not in this file; it
recomputes the derived hardware-mode flags from the new machine-state
register. The model records the MSR value the flags reflect. -/
def hreg_compute_hflags (env : CPUPPCState) : CPUPPCState := { env with hflags_msr := env.msr }

/-- Modelled from the spec: `ppc_maybe_interrupt` is not in this file; it
checks for an interrupt newly unmasked by the machine-state register. The
model records the MSR value the check was made against. -/
def ppc_maybe_interrupt (env : CPUPPCState) : CPUPPCState := { env with irq_msr := env.msr }

/-- Modelled from the spec: `tlb_flush` is not in this file; it invalidates
all address-translation caches. -/
def tlb_flush (env : CPUPPCState) : CPUPPCState := { env with tlb := [] }

/-- Modelled from the spec: `cpu_ppc_hdecr_init` is not in this file; it
brings the hypervisor decrementer timer into existence. -/
def cpu_ppc_hdecr_init (env : CPUPPCState) : CPUPPCState :=
  { env with tb_env := env.tb_env.map fun tb => { tb with hdecr_timer := true } }

/-- Modelled from the spec: `cpu_ppc_store_hdecr` is not in this file; it arms
the hypervisor decrementer with the given value. -/
def cpu_ppc_store_hdecr (env : CPUPPCState) (value : Nat) : CPUPPCState :=
  { env with tb_env := env.tb_env.map fun tb => { tb with hdecr := value } }

/-- Modelled from the spec: `cpu_ppc_hdecr_exit` is not in this file; it
disarms the hypervisor decrementer. -/
def cpu_ppc_hdecr_exit (env : CPUPPCState) : CPUPPCState :=
  { env with tb_env := env.tb_env.map fun tb => { tb with hdecr_timer := false } }

/-- Modelled from the spec: `cpu_ppc_tb_init` is not in this file; it gives
the context its private timebase facility, running at `freq`. -/
def cpu_ppc_tb_init (env : CPUPPCState) (freq : Nat) : CPUPPCState :=
  { env with tb_env := some { tb_freq := freq, tb_offset := 0, hdecr_timer := false, hdecr := 0 } }

/-- The assignment `env->spr[r] = v`. -/
def set_spr (env : CPUPPCState) (r : Spr) (v : Nat) : CPUPPCState :=
  { env with spr := Function.update env.spr r v }

/-- The assignment `env->gpr[i] = v`. -/
def set_gpr (env : CPUPPCState) (i : Fin 32) (v : Nat) : CPUPPCState :=
  { env with gpr := Function.update env.gpr i v }

/-- The result of `return status;` in a hypercall handler. -/
def hret (ret : Nat) (cpu : PowerPCCPU) (spapr : SpaprMachineState) : Option HcallResult :=
  some ⟨ret, cpu, spapr⟩

/-! ## The raw KVM-style hypercalls -/

/-- The handler `h_set_ptbl`. -/
def h_set_ptbl (K : Consts) (cpu : PowerPCCPU) (spapr : SpaprMachineState)
    (_opcode : Nat) (args : Nat → Nat) : HcallResult :=
  let ptcr := args 0
  if spapr.cap_nested_kvm_hv = 0 then
    ⟨K.H_FUNCTION, cpu, spapr⟩
  else if (ptcr &&& PRTS_MASK) + 12 - 4 > 12 then
    ⟨K.H_PARAMETER, cpu, spapr⟩
  else
    ⟨K.H_SUCCESS, cpu, { spapr with nested := { spapr.nested with ptcr := ptcr } }⟩

/-- The handler `h_tlb_invalidate`. -/
def h_tlb_invalidate (K : Consts) (cpu : PowerPCCPU) (spapr : SpaprMachineState)
    (_opcode : Nat) (_args : Nat → Nat) : HcallResult :=
  ⟨K.H_SUCCESS, cpu, spapr⟩

/-- The handler `h_copy_tofrom_guest`. -/
def h_copy_tofrom_guest (K : Consts) (cpu : PowerPCCPU) (spapr : SpaprMachineState)
    (_opcode : Nat) (_args : Nat → Nat) : HcallResult :=
  ⟨K.H_FUNCTION, cpu, spapr⟩

/-- The function `nested_save_state`: the snapshot written through `save`.
Reading `env->tb_env->tb_offset` needs the timebase facility to exist. -/
def nested_save_state (env : CPUPPCState) : Option nested_ppc_state :=
  match env.tb_env with
  | none => none
  | some tb =>
    some
      { gpr := env.gpr
        lr := env.lr
        ctr := env.ctr
        cfar := env.cfar
        msr := env.msr
        nip := env.nip
        cr := ppc_get_cr env
        xer := cpu_read_xer env
        lpcr := env.spr Spr.LPCR
        lpidr := env.spr Spr.LPIDR
        pcr := env.spr Spr.PCR
        dpdes := env.spr Spr.DPDES
        hfscr := env.spr Spr.HFSCR
        srr0 := env.spr Spr.SRR0
        srr1 := env.spr Spr.SRR1
        sprg0 := env.spr Spr.SPRG0
        sprg1 := env.spr Spr.SPRG1
        sprg2 := env.spr Spr.SPRG2
        sprg3 := env.spr Spr.SPRG3
        pidr := env.spr Spr.BOOKS_PID
        ppr := env.spr Spr.PPR
        tb_offset := tb.tb_offset }

/-- The function `nested_load_state`. -/
def nested_load_state (env : CPUPPCState) (load : nested_ppc_state) : Option CPUPPCState :=
  let env := { env with gpr := load.gpr }
  let env := { env with lr := load.lr }
  let env := { env with ctr := load.ctr }
  let env := { env with cfar := load.cfar }
  let env := { env with msr := load.msr }
  let env := { env with nip := load.nip }
  let env := ppc_set_cr env load.cr
  let env := cpu_write_xer env load.xer
  let env := set_spr env Spr.LPCR load.lpcr
  let env := set_spr env Spr.LPIDR load.lpidr
  let env := set_spr env Spr.PCR load.pcr
  let env := set_spr env Spr.DPDES load.dpdes
  let env := set_spr env Spr.HFSCR load.hfscr
  let env := set_spr env Spr.SRR0 load.srr0
  let env := set_spr env Spr.SRR1 load.srr1
  let env := set_spr env Spr.SPRG0 load.sprg0
  let env := set_spr env Spr.SPRG1 load.sprg1
  let env := set_spr env Spr.SPRG2 load.sprg2
  let env := set_spr env Spr.SPRG3 load.sprg3
  let env := set_spr env Spr.BOOKS_PID load.pidr
  let env := set_spr env Spr.PPR load.ppr
  match env.tb_env with
  | none => none
  | some tb =>
    let env := { env with tb_env := some { tb with tb_offset := load.tb_offset } }
    let env := hreg_compute_hflags env
    let env := ppc_maybe_interrupt env
    let env := tlb_flush env
    some { env with reserve_addr := WORD - 1 }

/-- The snapshot `l2_state` that `h_enter_nested` assembles from the register
buffer `regs`, the descriptor `hv_state` and the live context of `cpu`.
`tb_offset` is the live `env->tb_env->tb_offset`. -/
def enter_l2_state (K : Consts) (cpu : PowerPCCPU) (tb_offset : Nat)
    (hv_state : kvmppc_hv_guest_state) (regs : kvmppc_pt_regs) : nested_ppc_state :=
  let env := cpu.env
  let lpcr_mask := K.LPCR_DPFD ||| K.LPCR_ILE ||| K.LPCR_AIL ||| K.LPCR_LD ||| K.LPCR_MER
  let lpcr := (env.spr Spr.LPCR &&& not64 lpcr_mask) ||| (hv_state.lpcr &&& lpcr_mask)
  let lpcr := lpcr ||| (K.LPCR_HR ||| K.LPCR_UPRT ||| K.LPCR_GTSE ||| K.LPCR_HVICE ||| K.LPCR_HDICE)
  let lpcr := lpcr &&& not64 K.LPCR_LPES0
  { gpr := regs.gpr
    lr := regs.link
    ctr := regs.ctr
    xer := regs.xer
    cr := regs.ccr
    msr := regs.msr
    nip := regs.nip
    cfar := hv_state.cfar
    lpidr := hv_state.lpid
    lpcr := lpcr &&& cpu.lpcr_mask
    pcr := hv_state.pcr
    dpdes := hv_state.dpdes
    hfscr := hv_state.hfscr
    srr0 := hv_state.srr0
    srr1 := hv_state.srr1
    sprg0 := hv_state.sprg 0
    sprg1 := hv_state.sprg 1
    sprg2 := hv_state.sprg 2
    sprg3 := hv_state.sprg 3
    pidr := hv_state.pidr
    ppr := hv_state.ppr
    tb_offset := (tb_offset + hv_state.tb_offset) % WORD }

/-- The handler `h_enter_nested`. `now` is the value read by
`cpu_ppc_load_tbl`, `mem` the guest address space and `alloc_ok` tells
whether `g_try_new` finds memory for the host snapshot. Once
`nested_save_state` has run, `host->tb_offset` is the live
`env->tb_env->tb_offset`. -/
def h_enter_nested (K : Consts) (cpu : PowerPCCPU) (spapr : SpaprMachineState)
    (_opcode : Nat) (args : Nat → Nat)
    (now : Nat) (mem : AddressSpace) (alloc_ok : Bool) : Option HcallResult :=
  let env := cpu.env
  let hv_ptr := args 0
  let regs_ptr := args 1
  if spapr.nested.ptcr = 0 then
    hret K.H_NOT_AVAILABLE cpu spapr
  else
  let hvstate := mem.map_hv hv_ptr false
  if hvstate.len ≠ K.sizeof_hvstate then
    hret K.H_PARAMETER cpu spapr
  else
  match hvstate.ptr with
  | none => none
  | some hv_state =>
  if hv_state.version > K.HV_GUEST_STATE_VERSION then
    hret K.H_PARAMETER cpu spapr
  else if hv_state.lpid = 0 then
    hret K.H_PARAMETER cpu spapr
  else if ¬ alloc_ok then
    hret K.H_NO_MEM { cpu with spapr_cpu := { cpu.spapr_cpu with nested_host_state := .null } }
      spapr
  else if env.spr Spr.LPIDR ≠ 0 then
    none
  else if env.spr Spr.DPDES ≠ 0 then
    none
  else
  match nested_save_state env with
  | none => none
  | some host =>
  let regs := mem.map_regs regs_ptr false
  if regs.ptr.isNone ∨ regs.len ≠ K.sizeof_regs then
    hret K.H_P2 { cpu with spapr_cpu := { cpu.spapr_cpu with nested_host_state := .freed } }
      spapr
  else
  match regs.ptr with
  | none => none
  | some regs =>
  let l2_state := enter_l2_state K cpu host.tb_offset hv_state regs
  match nested_load_state env l2_state with
  | none => none
  | some env =>
  let hdec := (hv_state.hdec_expiry % WORD + WORD - now % WORD) % WORD
  let env := cpu_ppc_hdecr_init env
  let env := cpu_ppc_store_hdecr env hdec
  hret (env.gpr 3)
    { cpu with env := env, spapr_cpu := { in_nested := true, nested_host_state := .live host } }
    spapr

/-- The write-back of `spapr_exit_nested` into the mapped descriptor. -/
def exit_write_hvstate (K : Consts) (excp : Nat) (l2_state : nested_ppc_state)
    (hdar hdsisr asdr : Nat) (hvstate : kvmppc_hv_guest_state) : kvmppc_hv_guest_state :=
  let hvstate := { hvstate with cfar := l2_state.cfar }
  let hvstate := { hvstate with lpcr := l2_state.lpcr }
  let hvstate := { hvstate with pcr := l2_state.pcr }
  let hvstate := { hvstate with dpdes := l2_state.dpdes }
  let hvstate := { hvstate with hfscr := l2_state.hfscr }
  let hvstate :=
    if excp = K.POWERPC_EXCP_HDSI then
      { hvstate with hdar := hdar, hdsisr := hdsisr, asdr := asdr }
    else if excp = K.POWERPC_EXCP_HISI then
      { hvstate with asdr := asdr }
    else hvstate
  let hvstate := { hvstate with srr0 := l2_state.srr0 }
  let hvstate := { hvstate with srr1 := l2_state.srr1 }
  let hvstate := { hvstate with sprg := Function.update hvstate.sprg 0 l2_state.sprg0 }
  let hvstate := { hvstate with sprg := Function.update hvstate.sprg 1 l2_state.sprg1 }
  let hvstate := { hvstate with sprg := Function.update hvstate.sprg 2 l2_state.sprg2 }
  let hvstate := { hvstate with sprg := Function.update hvstate.sprg 3 l2_state.sprg3 }
  let hvstate := { hvstate with pidr := l2_state.pidr }
  { hvstate with ppr := l2_state.ppr }

/-- The write-back of `spapr_exit_nested` into the mapped register buffer.
`msr_mask` is `env->msr_mask`. -/
def exit_write_regs (K : Consts) (excp : Nat) (l2_state : nested_ppc_state)
    (hsrr0 hsrr1 msr_mask : Nat) (regs : kvmppc_pt_regs) : kvmppc_pt_regs :=
  let regs := { regs with gpr := l2_state.gpr }
  let regs := { regs with link := l2_state.lr }
  let regs := { regs with ctr := l2_state.ctr }
  let regs := { regs with xer := l2_state.xer }
  let regs := { regs with ccr := l2_state.cr }
  if excp = K.POWERPC_EXCP_MCHECK ∨ excp = K.POWERPC_EXCP_RESET ∨
      excp = K.POWERPC_EXCP_SYSCALL then
    { regs with nip := l2_state.srr0, msr := l2_state.srr1 &&& msr_mask }
  else
    { regs with nip := hsrr0, msr := hsrr1 &&& msr_mask }

/-- The function `spapr_exit_nested`. -/
def spapr_exit_nested (K : Consts) (cpu : PowerPCCPU) (excp : Nat)
    (mem : AddressSpace) : Option ExitResult :=
  let env := cpu.env
  match cpu.spapr_cpu.nested_host_state with
  | .null => none
  | .freed => none
  | .live host =>
  let hv_ptr := host.gpr 4
  let regs_ptr := host.gpr 5
  if ¬ cpu.spapr_cpu.in_nested then
    none
  else
  match nested_save_state env with
  | none => none
  | some l2_state =>
  let hsrr0 := env.spr Spr.HSRR0
  let hsrr1 := env.spr Spr.HSRR1
  let hdar := env.spr Spr.HDAR
  let hdsisr := env.spr Spr.HDSISR
  let asdr := env.spr Spr.ASDR
  if env.spr Spr.LPIDR = 0 then
    none
  else
  match nested_load_state env host with
  | none => none
  | some env =>
  let env := set_gpr env 3 (env.excp_vectors excp)
  let env := cpu_ppc_hdecr_exit env
  let spapr_cpu : SpaprCpuState := { in_nested := false, nested_host_state := .null }
  let hvstate := mem.map_hv hv_ptr true
  if hvstate.len ≠ K.sizeof_hvstate then
    some ⟨{ cpu with env := set_gpr env 3 K.H_PARAMETER, spapr_cpu := spapr_cpu }, none, none⟩
  else
  match hvstate.ptr with
  | none => none
  | some hvstate =>
  let hvstate := exit_write_hvstate K excp l2_state hdar hdsisr asdr hvstate
  let regs := mem.map_regs regs_ptr true
  if regs.ptr.isNone ∨ regs.len ≠ K.sizeof_regs then
    some ⟨{ cpu with env := set_gpr env 3 K.H_P2, spapr_cpu := spapr_cpu }, some hvstate, none⟩
  else
  match regs.ptr with
  | none => none
  | some regs =>
  let regs := exit_write_regs K excp l2_state hsrr0 hsrr1 env.msr_mask regs
  some ⟨{ cpu with env := env, spapr_cpu := spapr_cpu }, some hvstate, some regs⟩

/-! ## The capability-negotiated (PAPR-style) hypercalls -/

/-- The lookup `g_hash_table_lookup`: the value stored under `key`, `none`
standing for `NULL`. -/
def g_hash_table_lookup : GuestTable → Nat → Option SpaprMachineStateNestedGuest
  | [], _ => none
  | (k, v) :: t, key => if k = key then some v else g_hash_table_lookup t key

/-- The insertion `g_hash_table_insert`: a value already stored under `key`
is replaced. -/
def g_hash_table_insert (t : GuestTable) (key : Nat) (v : SpaprMachineStateNestedGuest) :
    GuestTable :=
  (key, v) :: t.filter fun e => e.1 ≠ key

/-- The count `g_hash_table_size`. -/
def g_hash_table_size (t : GuestTable) : Nat := t.length

/-- A store through the pointer that `g_hash_table_lookup` returned for `key`:
the guest found there becomes `g`. -/
def guest_store : GuestTable → Nat → SpaprMachineStateNestedGuest → GuestTable
  | [], _, _ => []
  | (k, v) :: t, key, g => if k = key then (k, g) :: t else (k, v) :: guest_store t key g

/-- The function `spapr_get_nested_guest`. A lookup in a table that does not
exist yet finds nothing. -/
def spapr_get_nested_guest (spapr : SpaprMachineState) (lpid : Nat) :
    Option SpaprMachineStateNestedGuest :=
  match spapr.nested.guests with
  | none => none
  | some t => g_hash_table_lookup t lpid

/-- A `CPUPPCState` after `memset(..., 0, sizeof(CPUPPCState))`. -/
def CPUPPCState.zero : CPUPPCState where
  gpr := fun _ => 0
  lr := 0
  ctr := 0
  cfar := 0
  msr := 0
  nip := 0
  cr := 0
  xer := 0
  spr := fun _ => 0
  tb_env := none
  reserve_addr := 0
  excp_vectors := fun _ => 0
  msr_mask := 0
  hflags_msr := 0
  irq_msr := 0
  tlb := []

/-- A vCPU slot filled with zero bytes. -/
def SpaprMachineStateNestedGuestVcpu.zero : SpaprMachineStateNestedGuestVcpu where
  enabled := false
  env := CPUPPCState.zero
  runbufin_addr := 0
  runbufout_addr := 0

/-- A store into element `i` of a heap array; `none` when `i` lies outside
the allocation. -/
def array_modify {α : Type} : List α → Nat → (α → α) → Option (List α)
  | [], _, _ => none
  | x :: xs, 0, f => some (f x :: xs)
  | x :: xs, i + 1, f => (array_modify xs i f).map fun ys => x :: ys

/-- The allocator call `g_try_renew(T, mem, n)`: on success an array of `n`
elements that keeps the old elements below `n`. Elements past the old
length are fresh; the caller overwrites the only one it adds. -/
def g_try_renew (ok : Bool) (mem : List SpaprMachineStateNestedGuestVcpu) (n : Nat) :
    Option (List SpaprMachineStateNestedGuestVcpu) :=
  if ok then
    some (mem.take n ++ List.replicate (n - mem.length) SpaprMachineStateNestedGuestVcpu.zero)
  else none

/-- The function `vcpu_check`; `none` when `guest->vcpu[vcpuid]` lies outside
the allocation. -/
def vcpu_check (K : Consts) (guest : SpaprMachineStateNestedGuest) (vcpuid : Nat)
    (inoutbuf : Bool) : Option Bool :=
  if vcpuid ≥ K.NESTED_GUEST_VCPU_MAX then
    some false
  else if ¬ (vcpuid < guest.vcpus) then
    some false
  else
  match guest.vcpu[vcpuid]? with
  | none => none
  | some vcpu =>
  if ¬ vcpu.enabled then
    some false
  else if ¬ inoutbuf then
    some true
  else if vcpu.runbufin_addr ≠ 0 ∧ vcpu.runbufout_addr ≠ 0 then
    some true
  else
    some false

/-- The handler `h_guest_get_capabilities`. -/
def h_guest_get_capabilities (K : Consts) (cpu : PowerPCCPU) (spapr : SpaprMachineState)
    (_opcode : Nat) (args : Nat → Nat) : HcallResult :=
  let env := cpu.env
  let flags := args 0
  if flags ≠ 0 then
    ⟨K.H_PARAMETER, cpu, spapr⟩
  else
  let env :=
    if env.spr Spr.PVR &&& K.CPU_POWERPC_POWER_SERVER_MASK = K.CPU_POWERPC_POWER9_BASE then
      set_gpr env 4 K.H_GUEST_CAPABILITIES_P9_MODE
    else env
  let env :=
    if env.spr Spr.PVR &&& K.CPU_POWERPC_POWER_SERVER_MASK = K.CPU_POWERPC_POWER10_BASE then
      set_gpr env 4 K.H_GUEST_CAPABILITIES_P10_MODE
    else env
  ⟨K.H_SUCCESS, { cpu with env := env }, spapr⟩

/-- The handler `h_guest_set_capabilities`. -/
def h_guest_set_capabilities (K : Consts) (cpu : PowerPCCPU) (spapr : SpaprMachineState)
    (_opcode : Nat) (args : Nat → Nat) : HcallResult :=
  let env := cpu.env
  let flags := args 0
  let capabilities := args 1
  if flags ≠ 0 then
    ⟨K.H_PARAMETER, cpu, spapr⟩
  else if capabilities &&& K.H_GUEST_CAPABILITIES_COPY_MEM ≠ 0 then
    ⟨K.H_P2, { cpu with env := set_gpr env 4 0 }, spapr⟩
  else if env.spr Spr.PVR &&& K.CPU_POWERPC_POWER_SERVER_MASK = K.CPU_POWERPC_POWER9_BASE ∧
      ¬ (capabilities &&& K.H_GUEST_CAPABILITIES_P9_MODE ≠ 0) then
    ⟨K.H_P2, { cpu with env := set_gpr env 4 1 }, spapr⟩
  else if env.spr Spr.PVR &&& K.CPU_POWERPC_POWER_SERVER_MASK = K.CPU_POWERPC_POWER10_BASE ∧
      ¬ (capabilities &&& K.H_GUEST_CAPABILITIES_P10_MODE ≠ 0) then
    ⟨K.H_P2, { cpu with env := set_gpr env 4 2 }, spapr⟩
  else
    let nested := { spapr.nested with capabilities_set := true }
    let nested := { nested with pvr_base := env.spr Spr.PVR }
    ⟨K.H_SUCCESS, cpu, { spapr with nested := nested }⟩

/-- The lpid search loop of `h_guest_create`,
`for (...; lpid < lpid_max; lpid++) if (!lookup(lpid)) break;`,
returning the value of `lpid` after the loop. `fuel` bounds the number of
iterations; `lpid_max` of them always suffice because `lpid` only grows. -/
def lookup_lpid (guests : GuestTable) (lpid_max : Nat) : (fuel : Nat) → (lpid : Nat) → Nat
  | 0, lpid => lpid
  | fuel + 1, lpid =>
    if lpid < lpid_max then
      if (g_hash_table_lookup guests lpid).isNone then lpid
      else lookup_lpid guests lpid_max fuel (lpid + 1)
    else lpid

/-- The handler `h_guest_create`. `alloc_ok` tells whether `g_try_new0`
finds memory for the guest. -/
def h_guest_create (K : Consts) (cpu : PowerPCCPU) (spapr : SpaprMachineState)
    (_opcode : Nat) (args : Nat → Nat) (alloc_ok : Bool) : HcallResult :=
  let env := cpu.env
  let flags := args 0
  let continue_token := args 1
  if flags ≠ 0 then
    ⟨K.H_UNSUPPORTED_FLAG, cpu, spapr⟩
  else if continue_token ≠ WORD - 1 then
    ⟨K.H_P2, cpu, spapr⟩
  else if spapr.cap_nested_papr = 0 then
    ⟨K.H_FUNCTION, cpu, spapr⟩
  else if ¬ spapr.nested.capabilities_set then
    ⟨K.H_STATE, cpu, spapr⟩
  else
  let nested : SpaprMachineStateNested :=
    match spapr.nested.guests with
    | none => { spapr.nested with lpid_max := K.NESTED_GUEST_MAX, guests := some [] }
    | some _ => spapr.nested
  let guests := nested.guests.getD []
  let spapr := { spapr with nested := nested }
  let nguests := g_hash_table_size guests
  if nguests = nested.lpid_max then
    ⟨K.H_NO_MEM, cpu, spapr⟩
  else
  let lpid := lookup_lpid guests nested.lpid_max nested.lpid_max 1
  if lpid = nested.lpid_max then
    ⟨K.H_NO_MEM, cpu, spapr⟩
  else if ¬ alloc_ok then
    ⟨K.H_NO_MEM, cpu, spapr⟩
  else
  let guest : SpaprMachineStateNestedGuest :=
    { pvr_logical := nested.pvr_base, vcpus := 0, vcpu := [] }
  let guests := g_hash_table_insert guests lpid guest
  ⟨K.H_SUCCESS, { cpu with env := set_gpr env 4 lpid },
    { spapr with nested := { nested with guests := some guests } }⟩

/-- The handler `h_guest_create_vcpu`. `alloc_ok` tells whether the
allocator call (`g_try_renew` or `g_try_new0`) finds memory. The handler
works through the pointer to the guest, so `store` puts the modified guest
back into the table; `l2idx` is the index of the slot `l2env` points into. -/
def h_guest_create_vcpu (K : Consts) (cpu : PowerPCCPU) (spapr : SpaprMachineState)
    (_opcode : Nat) (args : Nat → Nat) (alloc_ok : Bool) : Option HcallResult :=
  let env := cpu.env
  let flags := args 0
  let lpid := args 1
  let vcpuid := args 2
  let store (guest : SpaprMachineStateNestedGuest) : SpaprMachineState :=
    { spapr with nested :=
        { spapr.nested with guests := spapr.nested.guests.map fun t => guest_store t lpid guest } }
  if flags ≠ 0 then
    hret K.H_UNSUPPORTED_FLAG cpu spapr
  else
  match spapr_get_nested_guest spapr lpid with
  | none => hret K.H_P2 cpu spapr
  | some guest =>
  if vcpuid < guest.vcpus then
    hret K.H_IN_USE cpu spapr
  else if guest.vcpus ≥ K.NESTED_GUEST_VCPU_MAX then
    hret K.H_P3 cpu spapr
  else
  let grown : Option SpaprMachineStateNestedGuest × Nat :=
    if guest.vcpus ≠ 0 then
      match g_try_renew alloc_ok guest.vcpu (guest.vcpus + 1) with
      | none => (none, 0)
      | some vcpus =>
        (some { guest with vcpu := vcpus.set guest.vcpus SpaprMachineStateNestedGuestVcpu.zero },
          guest.vcpus)
    else if alloc_ok then
      (some { guest with vcpu := [SpaprMachineStateNestedGuestVcpu.zero] }, 0)
    else (none, 0)
  match grown with
  | (none, _) =>
    if guest.vcpus ≠ 0 then
      hret K.H_NO_MEM cpu spapr
    else
      hret K.H_NO_MEM cpu (store { guest with vcpu := [] })
  | (some guest, l2idx) =>
  let l2env := CPUPPCState.zero
  let l2env := set_spr l2env Spr.PVR (env.spr Spr.PVR)
  let l2env := cpu_ppc_tb_init l2env K.SPAPR_TIMEBASE_FREQ
  match array_modify guest.vcpu l2idx fun v => { v with env := l2env } with
  | none => none
  | some vcpus =>
  let guest := { guest with vcpu := vcpus }
  let guest := { guest with vcpus := guest.vcpus + 1 }
  if ¬ (vcpuid < guest.vcpus) then
    none
  else
  match array_modify guest.vcpu vcpuid fun v => { v with enabled := true } with
  | none => none
  | some vcpus =>
  let guest := { guest with vcpu := vcpus }
  match vcpu_check K guest vcpuid false with
  | none => none
  | some true => hret K.H_SUCCESS cpu (store guest)
  | some false => hret K.H_PARAMETER cpu (store guest)

/-! ## Concrete data for evaluations -/

/-- A register context with recognisable values: `gpr[i] = 100 + i`, every
SPR zero, exception vectors `excp_vectors[e] = 0x100 * e`. -/
def demo_env : CPUPPCState where
  gpr := fun i => 100 + i.val
  lr := 11
  ctr := 12
  cfar := 13
  msr := 14
  nip := 15
  cr := 16
  xer := 17
  spr := fun _ => 0
  tb_env := some { tb_freq := 512000000, tb_offset := 5, hdecr_timer := false, hdecr := 0 }
  reserve_addr := 0
  excp_vectors := fun e => 0x100 * e
  msr_mask := 0xFF
  hflags_msr := 14
  irq_msr := 14
  tlb := [1, 2]

/-- A CPU that is not nested. -/
def demo_cpu : PowerPCCPU where
  env := demo_env
  lpcr_mask := WORD - 1
  spapr_cpu := { in_nested := false, nested_host_state := .null }

/-- A machine with both nested capabilities enabled and nothing negotiated
yet. -/
def demo_spapr : SpaprMachineState where
  cap_nested_kvm_hv := 1
  cap_nested_papr := 1
  nested := { ptcr := 0, capabilities_set := false, pvr_base := 0, lpid_max := 0, guests := none }

/-- An argument array holding `a0, a1, a2` and zeroes after them. -/
def mk_args (a0 a1 a2 : Nat) : Nat → Nat
  | 0 => a0
  | 1 => a1
  | 2 => a2
  | _ => 0

/-- The demo CPU with the processor version register of a POWER8 (`0x004D0200`),
which is neither in the POWER9 nor in the POWER10 class. -/
def power8_cpu : PowerPCCPU :=
  { demo_cpu with env := set_spr demo_env Spr.PVR 0x004D0200 }

/-- The demo CPU with the processor version register of a POWER9
(`0x004E1200`). -/
def power9_cpu : PowerPCCPU :=
  { demo_cpu with env := set_spr demo_env Spr.PVR 0x004E1200 }

/-- The host processor is in the POWER9 class, as tested by the handlers. -/
def is_power9 (K : Consts) (cpu : PowerPCCPU) : Prop :=
  cpu.env.spr Spr.PVR &&& K.CPU_POWERPC_POWER_SERVER_MASK = K.CPU_POWERPC_POWER9_BASE

/-- The host processor is in the POWER10 class, as tested by the handlers. -/
def is_power10 (K : Consts) (cpu : PowerPCCPU) : Prop :=
  cpu.env.spr Spr.PVR &&& K.CPU_POWERPC_POWER_SERVER_MASK = K.CPU_POWERPC_POWER10_BASE

instance (K : Consts) (cpu : PowerPCCPU) : Decidable (is_power9 K cpu) := by
  unfold is_power9; infer_instance

instance (K : Consts) (cpu : PowerPCCPU) : Decidable (is_power10 K cpu) := by
  unfold is_power10; infer_instance

/-- Exactly one of the two mode bits (P9 mode, P10 mode) is set in the
capability word `v`. -/
def exactly_one_mode_bit (K : Consts) (v : Nat) : Prop :=
  (v &&& K.H_GUEST_CAPABILITIES_P9_MODE ≠ 0 ∧ v &&& K.H_GUEST_CAPABILITIES_P10_MODE = 0) ∨
  (v &&& K.H_GUEST_CAPABILITIES_P9_MODE = 0 ∧ v &&& K.H_GUEST_CAPABILITIES_P10_MODE ≠ 0)

instance (K : Consts) (v : Nat) : Decidable (exactly_one_mode_bit K v) := by
  unfold exactly_one_mode_bit; infer_instance

/-- The mode bit matching the running processor's major version is present in
`capabilities`: the P9 mode bit on a POWER9, the P10 mode bit on a POWER10. -/
def matching_mode_bit_present (K : Consts) (cpu : PowerPCCPU) (capabilities : Nat) : Prop :=
  (is_power9 K cpu ∧ capabilities &&& K.H_GUEST_CAPABILITIES_P9_MODE ≠ 0) ∨
  (is_power10 K cpu ∧ capabilities &&& K.H_GUEST_CAPABILITIES_P10_MODE ≠ 0)

instance (K : Consts) (cpu : PowerPCCPU) (c : Nat) : Decidable (matching_mode_bit_present K cpu c) := by
  unfold matching_mode_bit_present; infer_instance

/-- The SPR file after `nested_load_state` has stored the thirteen SPRs of
`load` into `spr`, written as one case distinction. -/
def loaded_spr (spr : Spr → Nat) (load : nested_ppc_state) : Spr → Nat
  | .LPCR => load.lpcr
  | .LPIDR => load.lpidr
  | .PCR => load.pcr
  | .DPDES => load.dpdes
  | .HFSCR => load.hfscr
  | .SRR0 => load.srr0
  | .SRR1 => load.srr1
  | .SPRG0 => load.sprg0
  | .SPRG1 => load.sprg1
  | .SPRG2 => load.sprg2
  | .SPRG3 => load.sprg3
  | .BOOKS_PID => load.pidr
  | .PPR => load.ppr
  | r => spr r

/-- A descriptor with recognisable values: version 1, lpid 7. -/
def demo_hv : kvmppc_hv_guest_state where
  version := 1
  lpid := 7
  vcpu_token := 0
  lpcr := 0
  pcr := 21
  amor := 0
  dpdes := 22
  hfscr := 23
  tb_offset := 24
  hdec_expiry := 5000
  hdar := 0xAA
  hdsisr := 0xAB
  asdr := 0xAC
  srr0 := 25
  srr1 := 26
  sprg := fun i => 30 + i.val
  pidr := 27
  cfar := 28
  ppr := 29

/-- A register buffer with recognisable values: `gpr[i] = 200 + i`. -/
def demo_regs : kvmppc_pt_regs where
  gpr := fun i => 200 + i.val
  nip := 41
  msr := 42
  ctr := 43
  link := 44
  xer := 45
  ccr := 46

/-- A guest address space in which the descriptor lives at address 104 and the
register buffer at address 105 (the values of `gpr[4]` and `gpr[5]` of the
demo CPU), both mapped whole; nothing else maps. -/
def demo_mem : AddressSpace where
  map_hv := fun addr _ =>
    if addr = 104 then Mapping.full qemu_consts.sizeof_hvstate demo_hv else ⟨none, 0⟩
  map_regs := fun addr _ =>
    if addr = 105 then Mapping.full qemu_consts.sizeof_regs demo_regs else ⟨none, 0⟩

/-- The host snapshot of the demo CPU. -/
def demo_host : nested_ppc_state where
  gpr := demo_env.gpr
  lr := 11
  ctr := 12
  cfar := 13
  msr := 14
  nip := 15
  cr := 16
  xer := 17
  lpcr := 0
  lpidr := 0
  pcr := 0
  dpdes := 0
  hfscr := 0
  srr0 := 0
  srr1 := 0
  sprg0 := 0
  sprg1 := 0
  sprg2 := 0
  sprg3 := 0
  pidr := 0
  ppr := 0
  tb_offset := 5

/-- The SPR file of a running L2: LPIDR 7, SRR0/SRR1 `0x51`/`0x152`,
HSRR0/HSRR1 `0x61`/`0x162`, HDAR/HDSISR/ASDR `0xD1`/`0xD2`/`0xD3`. -/
def demo_l2_spr : Spr → Nat
  | .LPIDR => 7
  | .SRR0 => 0x51
  | .SRR1 => 0x152
  | .HSRR0 => 0x61
  | .HSRR1 => 0x162
  | .HDAR => 0xD1
  | .HDSISR => 0xD2
  | .ASDR => 0xD3
  | _ => 0

/-- The demo CPU while it runs an L2: the live context is the guest's, the
host snapshot is saved. -/
def demo_l2_cpu : PowerPCCPU where
  env := { demo_env with gpr := fun i => 300 + i.val, spr := demo_l2_spr }
  lpcr_mask := WORD - 1
  spapr_cpu := { in_nested := true, nested_host_state := .live demo_host }

/-- The demo machine after a successful `h_set_ptbl`. -/
def ready_spapr : SpaprMachineState :=
  { demo_spapr with nested := { demo_spapr.nested with ptcr := 0x1004 } }

/-- The vCPU slot that `h_guest_create_vcpu` builds for a caller `cpu`:
enabled, all zero except the caller's PVR and the fresh timebase. -/
def new_vcpu_slot (K : Consts) (cpu : PowerPCCPU) : SpaprMachineStateNestedGuestVcpu where
  enabled := true
  env := cpu_ppc_tb_init (set_spr CPUPPCState.zero Spr.PVR (cpu.env.spr Spr.PVR))
    K.SPAPR_TIMEBASE_FREQ
  runbufin_addr := 0
  runbufout_addr := 0

/-- The machine `spapr` with the guest stored under `lpid` replaced by
`guest`. -/
def with_guest (spapr : SpaprMachineState) (lpid : Nat)
    (guest : SpaprMachineStateNestedGuest) : SpaprMachineState :=
  { spapr with nested :=
      { spapr.nested with guests := spapr.nested.guests.map fun t => guest_store t lpid guest } }

/-- A guest that owns `n` vCPU slots created by `power9_cpu`. -/
def demo_guest (n : Nat) : SpaprMachineStateNestedGuest where
  pvr_logical := 0x004E1200
  vcpus := n
  vcpu := List.replicate n (new_vcpu_slot qemu_consts power9_cpu)

/-- A machine whose registry holds one guest, under lpid 1, with `n` vCPUs. -/
def guest_spapr (n : Nat) : SpaprMachineState where
  cap_nested_kvm_hv := 1
  cap_nested_papr := 1
  nested :=
    { ptcr := 0, capabilities_set := true, pvr_base := 0x004E1200, lpid_max := 4096,
      guests := some [(1, demo_guest n)] }

/-- The argument array of a plain `h_guest_create` call: flags = 0 and the
continue token -1. -/
def create_args : Nat → Nat := mk_args 0 (WORD - 1) 0

/-- The CPU and the machine after `n` consecutive plain `h_guest_create`
calls whose allocations succeed. -/
def after_creates (K : Consts) (cpu : PowerPCCPU) (spapr : SpaprMachineState) :
    Nat → PowerPCCPU × SpaprMachineState
  | 0 => (cpu, spapr)
  | n + 1 =>
    let r := h_guest_create K (after_creates K cpu spapr n).1 (after_creates K cpu spapr n).2
      0 create_args true
    (r.cpu, r.spapr)

/-- The result of call number `i` (counted from 1) in that sequence. -/
def nth_create (K : Consts) (cpu : PowerPCCPU) (spapr : SpaprMachineState) (i : Nat) :
    HcallResult :=
  h_guest_create K (after_creates K cpu spapr (i - 1)).1 (after_creates K cpu spapr (i - 1)).2
    0 create_args true

/-- The registry of `spapr` exists, has `lpid_max = NESTED_GUEST_MAX`, and
holds exactly the `m` guests with ids `1..m`. -/
def registry_filled (K : Consts) (spapr : SpaprMachineState) (m : Nat) : Prop :=
  ∃ t, spapr.nested.guests = some t ∧ spapr.nested.lpid_max = K.NESTED_GUEST_MAX ∧
    g_hash_table_size t = m ∧
    ∀ k, (g_hash_table_lookup t k).isSome = true ↔ (1 ≤ k ∧ k ≤ m)

/-- A machine as `h_guest_create` first meets it: the nested-PAPR capability
on, capabilities negotiated, no registry yet. -/
def fresh_spapr : SpaprMachineState :=
  { demo_spapr with nested := { demo_spapr.nested with capabilities_set := true,
                                                       pvr_base := 0x004E1200 } }

/-- The instance `qemu_consts` with `NESTED_GUEST_MAX` lowered to 3, so that
the registry fills up after two guests. -/
def small_consts : Consts := { qemu_consts with NESTED_GUEST_MAX := 3 }

/-- The conditions under which `h_enter_nested` runs to its end when the
allocation of the host snapshot succeeds: the partition table is set, the
descriptor `hv` maps whole and has an accepted version and a nonzero lpid, the
two assertions on the live LPIDR and DPDES hold, the timebase facility `tb`
exists, and the register buffer `regs` maps whole. -/
structure EntryRuns (K : Consts) (cpu : PowerPCCPU) (spapr : SpaprMachineState)
    (args : Nat → Nat) (mem : AddressSpace) (tb : ppc_tb_t)
    (hv : kvmppc_hv_guest_state) (regs : kvmppc_pt_regs) : Prop where
  ptcr_set : spapr.nested.ptcr ≠ 0
  hv_mapped : mem.map_hv (args 0) false = Mapping.full K.sizeof_hvstate hv
  version_ok : hv.version ≤ K.HV_GUEST_STATE_VERSION
  lpid_ok : hv.lpid ≠ 0
  lpidr_zero : cpu.env.spr Spr.LPIDR = 0
  dpdes_zero : cpu.env.spr Spr.DPDES = 0
  tb_present : cpu.env.tb_env = some tb
  regs_mapped : mem.map_regs (args 1) false = Mapping.full K.sizeof_regs regs

/-- The snapshot that `nested_save_state` takes of `env` when its timebase
facility is `tb`. -/
def saved_state (env : CPUPPCState) (tb : ppc_tb_t) : nested_ppc_state where
  gpr := env.gpr
  lr := env.lr
  ctr := env.ctr
  cfar := env.cfar
  msr := env.msr
  nip := env.nip
  cr := env.cr
  xer := env.xer
  lpcr := env.spr Spr.LPCR
  lpidr := env.spr Spr.LPIDR
  pcr := env.spr Spr.PCR
  dpdes := env.spr Spr.DPDES
  hfscr := env.spr Spr.HFSCR
  srr0 := env.spr Spr.SRR0
  srr1 := env.spr Spr.SRR1
  sprg0 := env.spr Spr.SPRG0
  sprg1 := env.spr Spr.SPRG1
  sprg2 := env.spr Spr.SPRG2
  sprg3 := env.spr Spr.SPRG3
  pidr := env.spr Spr.BOOKS_PID
  ppr := env.spr Spr.PPR
  tb_offset := tb.tb_offset

/-- The context that `nested_load_state` leaves when it loads `load` over
`env`, whose timebase facility is `tb`. -/
def loaded_env (env : CPUPPCState) (tb : ppc_tb_t) (load : nested_ppc_state) : CPUPPCState where
  gpr := load.gpr
  lr := load.lr
  ctr := load.ctr
  cfar := load.cfar
  msr := load.msr
  nip := load.nip
  cr := load.cr
  xer := load.xer
  spr := loaded_spr env.spr load
  tb_env := some { tb with tb_offset := load.tb_offset }
  reserve_addr := WORD - 1
  excp_vectors := env.excp_vectors
  msr_mask := env.msr_mask
  hflags_msr := load.msr
  irq_msr := load.msr
  tlb := []

/-- The value `hdec` that `h_enter_nested` stores into the hypervisor
decrementer: `hdec_expiry - now` in 64-bit arithmetic. -/
def enter_hdec (hv : kvmppc_hv_guest_state) (now : Nat) : Nat :=
  (hv.hdec_expiry % WORD + WORD - now % WORD) % WORD

/-- The mask `lpcr_mask` of `h_enter_nested`: the LPCR bits taken from the
descriptor. -/
def lpcr_from_descriptor (K : Consts) : Nat :=
  K.LPCR_DPFD ||| K.LPCR_ILE ||| K.LPCR_AIL ||| K.LPCR_LD ||| K.LPCR_MER

/-- The LPCR bits that `h_enter_nested` forces on. -/
def lpcr_forced (K : Consts) : Nat :=
  K.LPCR_HR ||| K.LPCR_UPRT ||| K.LPCR_GTSE ||| K.LPCR_HVICE ||| K.LPCR_HDICE

/-- The timebase facility of the demo CPU. -/
def demo_tb : ppc_tb_t :=
  { tb_freq := 512000000, tb_offset := 5, hdecr_timer := false, hdecr := 0 }

/-- A register buffer like `demo_regs` whose `gpr[3]` holds the bit pattern
of `H_PARAMETER` (-4). -/
def param_regs : kvmppc_pt_regs :=
  { demo_regs with gpr := Function.update demo_regs.gpr 3 (neg64 4) }

/-- The demo address space with `param_regs` as the register buffer. -/
def param_mem : AddressSpace where
  map_hv := demo_mem.map_hv
  map_regs := fun addr _ =>
    if addr = 105 then Mapping.full qemu_consts.sizeof_regs param_regs else ⟨none, 0⟩

/-- The pointer `nested_host_state` is `NULL`. -/
def HostStatePtr.is_null : HostStatePtr → Bool
  | .null => true
  | .live _ => false
  | .freed => false

/-- The per-CPU nesting invariant of the spec: `in_nested` is true iff
`nested_host_state` is present, that is, not `NULL`. -/
def nesting_invariant (c : SpaprCpuState) : Prop :=
  c.in_nested = true ↔ c.nested_host_state.is_null = false

instance (c : SpaprCpuState) : Decidable (nesting_invariant c) := by
  unfold nesting_invariant; infer_instance

/-- The CPU `cpu` with `p` stored in `spapr_cpu->nested_host_state`. -/
def with_host_state (cpu : PowerPCCPU) (p : HostStatePtr) : PowerPCCPU :=
  { cpu with spapr_cpu := { cpu.spapr_cpu with nested_host_state := p } }

/-- The result `r` of a hypercall on `cpu` and `spapr` has left alone the live
register context (every field `nested_load_state` writes, and with it the
hypervisor decrementer kept in `tb_env`), the flag `in_nested` and the
machine. -/
def entry_left_alone (cpu : PowerPCCPU) (spapr : SpaprMachineState) (r : HcallResult) : Prop :=
  r.cpu.env = cpu.env ∧ r.cpu.spapr_cpu.in_nested = cpu.spapr_cpu.in_nested ∧ r.spapr = spapr

/-- The live context that `spapr_exit_nested` has rebuilt when it turns to
guest memory: the host snapshot `host` loaded over the L2 context of `cpu`
(timebase facility `tb`), `gpr[3]` set to `excp_vectors[excp]`, the hypervisor
decrementer disarmed. -/
def exit_restored_env (cpu : PowerPCCPU) (tb : ppc_tb_t) (host : nested_ppc_state)
    (excp : Nat) : CPUPPCState :=
  cpu_ppc_hdecr_exit (set_gpr (loaded_env cpu.env tb host) 3 (cpu.env.excp_vectors excp))

/-- The registry as `h_guest_create` sees it after its lazy initialisation:
the empty table when none exists yet. -/
def registry_table (spapr : SpaprMachineState) : GuestTable :=
  spapr.nested.guests.getD []

/-- The value of `lpid_max` after the lazy initialisation of
`h_guest_create`. -/
def registry_max (K : Consts) (spapr : SpaprMachineState) : Nat :=
  match spapr.nested.guests with
  | none => K.NESTED_GUEST_MAX
  | some _ => spapr.nested.lpid_max

/-- The machine after the lazy initialisation of `h_guest_create`. -/
def registry_init (K : Consts) (spapr : SpaprMachineState) : SpaprMachineState :=
  match spapr.nested.guests with
  | none =>
    { spapr with nested :=
        { spapr.nested with lpid_max := K.NESTED_GUEST_MAX, guests := some [] } }
  | some _ => spapr

/-- The id that the search loop of `h_guest_create` ends with. -/
def found_lpid (K : Consts) (spapr : SpaprMachineState) : Nat :=
  lookup_lpid (registry_table spapr) (registry_max K spapr) (registry_max K spapr) 1

/-- A machine whose registry holds the guests 1 and 3, so that the used ids
are not a prefix. -/
def gap_spapr : SpaprMachineState where
  cap_nested_kvm_hv := 1
  cap_nested_papr := 1
  nested :=
    { ptcr := 0, capabilities_set := true, pvr_base := 0x004E1200, lpid_max := 4096,
      guests := some [(3, demo_guest 0), (1, demo_guest 2)] }

/-- A guest is well formed: its array holds exactly `vcpus` slots, the count
does not exceed `NESTED_GUEST_VCPU_MAX`, and every slot is enabled. -/
def guest_ok (K : Consts) (g : SpaprMachineStateNestedGuest) : Prop :=
  g.vcpu.length = g.vcpus ∧ g.vcpus ≤ K.NESTED_GUEST_VCPU_MAX ∧
    ∀ v, v ∈ g.vcpu → v.enabled = true

/-- Every guest of the registry is well formed. -/
def registry_ok (K : Consts) (spapr : SpaprMachineState) : Prop :=
  ∀ t, spapr.nested.guests = some t → ∀ e, e ∈ t → guest_ok K e.2

/-- The machine states reachable from a machine without registry through
`h_guest_set_capabilities`, `h_guest_create` and returning calls of
`h_guest_create_vcpu`, with arbitrary callers, arguments and allocator
outcomes. -/
inductive Reachable (K : Consts) : SpaprMachineState → Prop where
  | init (spapr : SpaprMachineState) :
      spapr.nested.guests = none → Reachable K spapr
  | set_capabilities (cpu : PowerPCCPU) (spapr : SpaprMachineState) (opcode : Nat)
      (args : Nat → Nat) :
      Reachable K spapr → Reachable K (h_guest_set_capabilities K cpu spapr opcode args).spapr
  | create (cpu : PowerPCCPU) (spapr : SpaprMachineState) (opcode : Nat) (args : Nat → Nat)
      (alloc_ok : Bool) :
      Reachable K spapr → Reachable K (h_guest_create K cpu spapr opcode args alloc_ok).spapr
  | create_vcpu (cpu : PowerPCCPU) (spapr : SpaprMachineState) (opcode : Nat)
      (args : Nat → Nat) (alloc_ok : Bool) (r : HcallResult) :
      Reachable K spapr → h_guest_create_vcpu K cpu spapr opcode args alloc_ok = some r →
      Reachable K r.spapr

/-- The instance `qemu_consts` with `NESTED_GUEST_VCPU_MAX` lowered to 2. -/
def two_vcpu_consts : Consts := { qemu_consts with NESTED_GUEST_VCPU_MAX := 2 }

/-- The ids under which the table holds guests. -/
def registry_keys (t : GuestTable) : List Nat := t.map Prod.fst

/-- The registry, once it exists, has `lpid_max = NESTED_GUEST_MAX`, holds
every id at most once, and every id it holds lies in
`[1, NESTED_GUEST_MAX - 1]`. -/
def registry_bounded (K : Consts) (spapr : SpaprMachineState) : Prop :=
  ∀ t, spapr.nested.guests = some t →
    spapr.nested.lpid_max = K.NESTED_GUEST_MAX ∧
    (∀ k, k ∈ registry_keys t → 1 ≤ k ∧ k < K.NESTED_GUEST_MAX) ∧
    (registry_keys t).Nodup

/-- The SPR file of a host with recognisable values in the saved registers:
LPCR `0x1234`, PCR `0x31`, HFSCR `0x32`, SRR0/SRR1 `0x33`/`0x34`, SPRG0-3
`0x35`-`0x38`, PID `0x39`, PPR `0x3A`; LPIDR and DPDES are 0 as
`h_enter_nested` asserts. -/
def busy_spr : Spr → Nat
  | .LPCR => 0x1234
  | .PCR => 0x31
  | .HFSCR => 0x32
  | .SRR0 => 0x33
  | .SRR1 => 0x34
  | .SPRG0 => 0x35
  | .SPRG1 => 0x36
  | .SPRG2 => 0x37
  | .SPRG3 => 0x38
  | .BOOKS_PID => 0x39
  | .PPR => 0x3A
  | _ => 0

/-- The demo CPU, not nested, with the SPR file `busy_spr`. -/
def busy_cpu : PowerPCCPU where
  env := { demo_env with spr := busy_spr }
  lpcr_mask := WORD - 1
  spapr_cpu := { in_nested := false, nested_host_state := .null }

/-- A guest address space in which the descriptor maps whole at address 104
and the register buffer never maps. -/
def hv_only_mem : AddressSpace where
  map_hv := fun addr _ =>
    if addr = 104 then Mapping.full qemu_consts.sizeof_hvstate demo_hv else ⟨none, 0⟩
  map_regs := fun _ _ => ⟨none, 0⟩

/-- The live context `env` holds the snapshot `host` in every register field
that `nested_load_state` loads, `gpr[3]` apart. -/
def holds_snapshot (env : CPUPPCState) (host : nested_ppc_state) : Prop :=
  (∀ i : Fin 32, i ≠ 3 → env.gpr i = host.gpr i) ∧
  env.lr = host.lr ∧ env.ctr = host.ctr ∧ env.cfar = host.cfar ∧ env.msr = host.msr ∧
  env.nip = host.nip ∧ env.cr = host.cr ∧ env.xer = host.xer ∧
  env.spr Spr.LPCR = host.lpcr ∧ env.spr Spr.LPIDR = host.lpidr ∧
  env.spr Spr.PCR = host.pcr ∧ env.spr Spr.DPDES = host.dpdes ∧
  env.spr Spr.HFSCR = host.hfscr ∧ env.spr Spr.SRR0 = host.srr0 ∧
  env.spr Spr.SRR1 = host.srr1 ∧ env.spr Spr.SPRG0 = host.sprg0 ∧
  env.spr Spr.SPRG1 = host.sprg1 ∧ env.spr Spr.SPRG2 = host.sprg2 ∧
  env.spr Spr.SPRG3 = host.sprg3 ∧ env.spr Spr.BOOKS_PID = host.pidr ∧
  env.spr Spr.PPR = host.ppr ∧
  env.tb_env.map ppc_tb_t.tb_offset = some host.tb_offset

/-! ## Theorems -/

/-- With a timebase facility, `nested_save_state` yields the snapshot of the
live registers. -/
theorem nested_save_state_eq (env : CPUPPCState) (tb : ppc_tb_t) (h : env.tb_env = some tb) :
    nested_save_state env = some
      { gpr := env.gpr, lr := env.lr, ctr := env.ctr, cfar := env.cfar, msr := env.msr,
        nip := env.nip, cr := env.cr, xer := env.xer,
        lpcr := env.spr Spr.LPCR, lpidr := env.spr Spr.LPIDR, pcr := env.spr Spr.PCR,
        dpdes := env.spr Spr.DPDES, hfscr := env.spr Spr.HFSCR, srr0 := env.spr Spr.SRR0,
        srr1 := env.spr Spr.SRR1, sprg0 := env.spr Spr.SPRG0, sprg1 := env.spr Spr.SPRG1,
        sprg2 := env.spr Spr.SPRG2, sprg3 := env.spr Spr.SPRG3, pidr := env.spr Spr.BOOKS_PID,
        ppr := env.spr Spr.PPR, tb_offset := tb.tb_offset } := by
  simp only [nested_save_state, h, ppc_get_cr, cpu_read_xer]

/-- With a timebase facility, `nested_load_state` yields the context that
holds the registers of `load`. -/
theorem nested_load_state_eq (env : CPUPPCState) (load : nested_ppc_state) (tb : ppc_tb_t)
    (h : env.tb_env = some tb) :
    nested_load_state env load = some
      { gpr := load.gpr, lr := load.lr, ctr := load.ctr, cfar := load.cfar, msr := load.msr,
        nip := load.nip, cr := load.cr, xer := load.xer,
        spr := loaded_spr env.spr load,
        tb_env := some { tb with tb_offset := load.tb_offset },
        reserve_addr := WORD - 1,
        excp_vectors := env.excp_vectors, msr_mask := env.msr_mask,
        hflags_msr := load.msr, irq_msr := load.msr, tlb := [] } := by
  have hspr : Function.update (Function.update (Function.update (Function.update
      (Function.update (Function.update (Function.update (Function.update (Function.update
      (Function.update (Function.update (Function.update (Function.update env.spr
        Spr.LPCR load.lpcr) Spr.LPIDR load.lpidr) Spr.PCR load.pcr) Spr.DPDES load.dpdes)
        Spr.HFSCR load.hfscr) Spr.SRR0 load.srr0) Spr.SRR1 load.srr1) Spr.SPRG0 load.sprg0)
        Spr.SPRG1 load.sprg1) Spr.SPRG2 load.sprg2) Spr.SPRG3 load.sprg3)
        Spr.BOOKS_PID load.pidr) Spr.PPR load.ppr = loaded_spr env.spr load := by
    funext r
    cases r <;> simp [Function.update, loaded_spr]
  simp only [nested_load_state, ppc_set_cr, cpu_write_xer, set_spr, h, hreg_compute_hflags,
    ppc_maybe_interrupt, tlb_flush, hspr]


/-- The run of `spapr_exit_nested` when the descriptor maps whole: the call
returns, and the descriptor ends as `exit_write_hvstate` leaves it, whatever
the register buffer does. -/
theorem spapr_exit_nested_hvstate (K : Consts) (cpu : PowerPCCPU) (excp : Nat)
    (mem : AddressSpace) (host l2_state : nested_ppc_state) (env' : CPUPPCState)
    (hv : kvmppc_hv_guest_state)
    (hhost : cpu.spapr_cpu.nested_host_state = .live host)
    (hin : cpu.spapr_cpu.in_nested = true)
    (hsave : nested_save_state cpu.env = some l2_state)
    (hlpid : cpu.env.spr Spr.LPIDR ≠ 0)
    (hload : nested_load_state cpu.env host = some env')
    (hhv : mem.map_hv (host.gpr 4) true = Mapping.full K.sizeof_hvstate hv) :
    ∃ r, spapr_exit_nested K cpu excp mem = some r ∧
      r.hvstate = some (exit_write_hvstate K excp l2_state (cpu.env.spr Spr.HDAR)
        (cpu.env.spr Spr.HDSISR) (cpu.env.spr Spr.ASDR) hv) := by
  simp only [spapr_exit_nested, hhost, hin, hsave, hload, hhv, Mapping.full]
  rw [if_neg (by simp), if_neg (by simpa using hlpid), if_neg (by simp)]
  split
  · exact ⟨_, rfl, rfl⟩
  · rename_i hok
    cases hp : (mem.map_regs (host.gpr 5) true).ptr with
    | none => exact absurd (Or.inl (by simp [hp])) hok
    | some regs => exact ⟨_, rfl, rfl⟩

/-- The run of `spapr_exit_nested` when both guest-memory structures map
whole. -/
theorem spapr_exit_nested_full (K : Consts) (cpu : PowerPCCPU) (excp : Nat)
    (mem : AddressSpace) (host l2_state : nested_ppc_state) (env' : CPUPPCState)
    (hv : kvmppc_hv_guest_state) (regs : kvmppc_pt_regs)
    (hhost : cpu.spapr_cpu.nested_host_state = .live host)
    (hin : cpu.spapr_cpu.in_nested = true)
    (hsave : nested_save_state cpu.env = some l2_state)
    (hlpid : cpu.env.spr Spr.LPIDR ≠ 0)
    (hload : nested_load_state cpu.env host = some env')
    (hhv : mem.map_hv (host.gpr 4) true = Mapping.full K.sizeof_hvstate hv)
    (hregs : mem.map_regs (host.gpr 5) true = Mapping.full K.sizeof_regs regs) :
    spapr_exit_nested K cpu excp mem = some
      ⟨{ cpu with
          env := cpu_ppc_hdecr_exit (set_gpr env' 3 (env'.excp_vectors excp)),
          spapr_cpu := { in_nested := false, nested_host_state := .null } },
        some (exit_write_hvstate K excp l2_state (cpu.env.spr Spr.HDAR)
          (cpu.env.spr Spr.HDSISR) (cpu.env.spr Spr.ASDR) hv),
        some (exit_write_regs K excp l2_state (cpu.env.spr Spr.HSRR0)
          (cpu.env.spr Spr.HSRR1) env'.msr_mask regs)⟩ := by
  simp only [spapr_exit_nested, hhost, hin, hsave, hload, hhv, hregs, Mapping.full]
  rw [if_neg (by simp), if_neg (by simpa using hlpid), if_neg (by simp), if_neg (by simp)]
  rfl

/-- The run of `h_enter_nested` when every check passes: the call returns the
`gpr[3]` of the register buffer, the live context is the loaded L2 snapshot
with the hypervisor decrementer armed, and the host snapshot is kept. -/
theorem h_enter_nested_success (K : Consts) (cpu : PowerPCCPU) (spapr : SpaprMachineState)
    (opcode : Nat) (args : Nat → Nat) (now : Nat) (mem : AddressSpace)
    (host : nested_ppc_state) (env' : CPUPPCState)
    (hv : kvmppc_hv_guest_state) (regs : kvmppc_pt_regs)
    (hptcr : spapr.nested.ptcr ≠ 0)
    (hhv : mem.map_hv (args 0) false = Mapping.full K.sizeof_hvstate hv)
    (hver : hv.version ≤ K.HV_GUEST_STATE_VERSION)
    (hlpid : hv.lpid ≠ 0)
    (hlpidr : cpu.env.spr Spr.LPIDR = 0)
    (hdpdes : cpu.env.spr Spr.DPDES = 0)
    (hsave : nested_save_state cpu.env = some host)
    (hregs : mem.map_regs (args 1) false = Mapping.full K.sizeof_regs regs)
    (hload : nested_load_state cpu.env (enter_l2_state K cpu host.tb_offset hv regs)
      = some env') :
    h_enter_nested K cpu spapr opcode args now mem true = some
      ⟨env'.gpr 3,
        { cpu with
          env := cpu_ppc_store_hdecr (cpu_ppc_hdecr_init env')
            ((hv.hdec_expiry % WORD + WORD - now % WORD) % WORD),
          spapr_cpu := { in_nested := true, nested_host_state := .live host } },
        spapr⟩ := by
  simp only [h_enter_nested, hhv, hregs, Mapping.full, hsave, hload]
  rw [if_neg hptcr, if_neg (by simp), if_neg (by omega), if_neg hlpid, if_neg (by simp),
    if_neg (by simpa using hlpidr), if_neg (by simpa using hdpdes), if_neg (by simp)]
  rfl

/-- C1: `h_enter_nested` followed at once by `spapr_exit_nested`. For a host
CPU with `ptcr` set, LPIDR = 0, DPDES = 0 and not nested, a descriptor with
`version <= HV_GUEST_STATE_VERSION` and `lpid != 0`, both structures mapping
whole on entry and on exit, and any `excp`: both calls return, and in the
live context left by the exit every register field that `nested_save_state`
captures (`gpr[0..31]` except `gpr[3]`, `lr`, `ctr`, `cfar`, `msr`, `nip`,
`cr`, `xer`, LPCR, LPIDR, PCR, DPDES, HFSCR, SRR0, SRR1, SPRG0-3, PID, PPR,
`tb_offset`) has the value it had in the live context before the entry, and
`gpr[3]` holds `excp_vectors[excp]`. The snapshot that `nested_save_state`
takes afterwards is then the one of the context before the entry with
`excp_vectors[excp]` in `gpr[3]`, and the CPU is no longer nested. -/
theorem enter_exit_round_trip (K : Consts) (cpu : PowerPCCPU) (spapr : SpaprMachineState)
    (opcode : Nat) (args : Nat → Nat) (now : Nat) (mem mem_exit : AddressSpace) (excp : Nat)
    (tb : ppc_tb_t)
    (hv hv_exit : kvmppc_hv_guest_state) (regs regs_exit : kvmppc_pt_regs)
    (hptcr : spapr.nested.ptcr ≠ 0)
    (hlpidr : cpu.env.spr Spr.LPIDR = 0)
    (hdpdes : cpu.env.spr Spr.DPDES = 0)
    (_hnot : cpu.spapr_cpu.in_nested = false)
    (htb : cpu.env.tb_env = some tb)
    (hhv : mem.map_hv (args 0) false = Mapping.full K.sizeof_hvstate hv)
    (hver : hv.version ≤ K.HV_GUEST_STATE_VERSION)
    (hlpid : hv.lpid ≠ 0)
    (hregs : mem.map_regs (args 1) false = Mapping.full K.sizeof_regs regs)
    (hhv_exit : mem_exit.map_hv (cpu.env.gpr 4) true = Mapping.full K.sizeof_hvstate hv_exit)
    (hregs_exit : mem_exit.map_regs (cpu.env.gpr 5) true
      = Mapping.full K.sizeof_regs regs_exit) :
    ∃ r1 r2, h_enter_nested K cpu spapr opcode args now mem true = some r1 ∧
      spapr_exit_nested K r1.cpu excp mem_exit = some r2 ∧
      (∀ i : Fin 32, i ≠ 3 → r2.cpu.env.gpr i = cpu.env.gpr i) ∧
      r2.cpu.env.gpr 3 = cpu.env.excp_vectors excp ∧
      r2.cpu.env.lr = cpu.env.lr ∧
      r2.cpu.env.ctr = cpu.env.ctr ∧
      r2.cpu.env.cfar = cpu.env.cfar ∧
      r2.cpu.env.msr = cpu.env.msr ∧
      r2.cpu.env.nip = cpu.env.nip ∧
      r2.cpu.env.cr = cpu.env.cr ∧
      r2.cpu.env.xer = cpu.env.xer ∧
      r2.cpu.env.spr Spr.LPCR = cpu.env.spr Spr.LPCR ∧
      r2.cpu.env.spr Spr.LPIDR = cpu.env.spr Spr.LPIDR ∧
      r2.cpu.env.spr Spr.PCR = cpu.env.spr Spr.PCR ∧
      r2.cpu.env.spr Spr.DPDES = cpu.env.spr Spr.DPDES ∧
      r2.cpu.env.spr Spr.HFSCR = cpu.env.spr Spr.HFSCR ∧
      r2.cpu.env.spr Spr.SRR0 = cpu.env.spr Spr.SRR0 ∧
      r2.cpu.env.spr Spr.SRR1 = cpu.env.spr Spr.SRR1 ∧
      r2.cpu.env.spr Spr.SPRG0 = cpu.env.spr Spr.SPRG0 ∧
      r2.cpu.env.spr Spr.SPRG1 = cpu.env.spr Spr.SPRG1 ∧
      r2.cpu.env.spr Spr.SPRG2 = cpu.env.spr Spr.SPRG2 ∧
      r2.cpu.env.spr Spr.SPRG3 = cpu.env.spr Spr.SPRG3 ∧
      r2.cpu.env.spr Spr.BOOKS_PID = cpu.env.spr Spr.BOOKS_PID ∧
      r2.cpu.env.spr Spr.PPR = cpu.env.spr Spr.PPR ∧
      r2.cpu.env.tb_env.map ppc_tb_t.tb_offset = cpu.env.tb_env.map ppc_tb_t.tb_offset ∧
      nested_save_state r2.cpu.env = some
        { saved_state cpu.env tb with
          gpr := Function.update cpu.env.gpr 3 (cpu.env.excp_vectors excp) } ∧
      r2.cpu.spapr_cpu.in_nested = false := by
  have hsave : nested_save_state cpu.env = some (saved_state cpu.env tb) :=
    nested_save_state_eq cpu.env tb htb
  have henter := h_enter_nested_success K cpu spapr opcode args now mem
    (saved_state cpu.env tb)
    (loaded_env cpu.env tb (enter_l2_state K cpu tb.tb_offset hv regs)) hv regs
    hptcr hhv hver hlpid hlpidr hdpdes hsave hregs (nested_load_state_eq cpu.env _ tb htb)
  have htb2 : (cpu_ppc_store_hdecr (cpu_ppc_hdecr_init
      (loaded_env cpu.env tb (enter_l2_state K cpu tb.tb_offset hv regs)))
      ((hv.hdec_expiry % WORD + WORD - now % WORD) % WORD)).tb_env =
      some { tb_freq := tb.tb_freq,
             tb_offset := (tb.tb_offset + hv.tb_offset) % WORD,
             hdecr_timer := true,
             hdecr := (hv.hdec_expiry % WORD + WORD - now % WORD) % WORD } := by
    simp [cpu_ppc_store_hdecr, cpu_ppc_hdecr_init, loaded_env, enter_l2_state]
  have hlp2 : (cpu_ppc_store_hdecr (cpu_ppc_hdecr_init
      (loaded_env cpu.env tb (enter_l2_state K cpu tb.tb_offset hv regs)))
      ((hv.hdec_expiry % WORD + WORD - now % WORD) % WORD)).spr Spr.LPIDR ≠ 0 := by
    show hv.lpid ≠ 0
    exact hlpid
  have hexit := spapr_exit_nested_full K
    { cpu with
      env := cpu_ppc_store_hdecr (cpu_ppc_hdecr_init
        (loaded_env cpu.env tb (enter_l2_state K cpu tb.tb_offset hv regs)))
        ((hv.hdec_expiry % WORD + WORD - now % WORD) % WORD),
      spapr_cpu := { in_nested := true, nested_host_state := .live (saved_state cpu.env tb) } }
    excp mem_exit (saved_state cpu.env tb) _ _ hv_exit regs_exit rfl rfl
    (nested_save_state_eq _ _ htb2) hlp2 (nested_load_state_eq _ (saved_state cpu.env tb) _ htb2)
    hhv_exit hregs_exit
  refine ⟨_, _, henter, hexit, ?_, ?_, rfl, rfl, rfl, rfl, rfl, rfl, rfl, rfl, rfl, rfl, rfl,
    rfl, rfl, rfl, rfl, rfl, rfl, rfl, rfl, rfl, ?_, ?_, rfl⟩
  · intro i hi
    simp [cpu_ppc_hdecr_exit, set_gpr, saved_state, Function.update, hi]
  · simp [cpu_ppc_hdecr_exit, set_gpr, cpu_ppc_store_hdecr, cpu_ppc_hdecr_init, loaded_env]
  · simp [cpu_ppc_hdecr_exit, set_gpr, saved_state, htb]
  · rw [nested_save_state_eq _ _ rfl]
    simp [cpu_ppc_hdecr_exit, set_gpr, cpu_ppc_store_hdecr, cpu_ppc_hdecr_init, loaded_spr,
      loaded_env, saved_state]

/-- Witness for C1 on a host whose saved SPRs are all nonzero (`busy_cpu`):
entry with the descriptor at 104 and the register buffer at 105, then a
system-call exit (exception 8, vector `0x800`). The host LPCR `0x1234`, PCR
`0x31`, HFSCR `0x32`, SRR0/SRR1 `0x33`/`0x34`, SPRG0 `0x35`, PID `0x39`, PPR
`0x3A`, `lr` 11, `nip` 15, `gpr[4]` 104 and `tb_offset` 5 are back and `gpr[3]`
holds `0x800`. -/
theorem enter_exit_round_trip_witness :
    ∃ r1 r2, h_enter_nested qemu_consts busy_cpu ready_spapr 0 (mk_args 104 105 0) 4000
        demo_mem true = some r1 ∧
      spapr_exit_nested qemu_consts r1.cpu 8 demo_mem = some r2 ∧
      r2.cpu.env.gpr 4 = 104 ∧ r2.cpu.env.gpr 3 = 0x800 ∧
      r2.cpu.env.lr = 11 ∧ r2.cpu.env.nip = 15 ∧
      r2.cpu.env.spr Spr.LPCR = 0x1234 ∧ r2.cpu.env.spr Spr.LPIDR = 0 ∧
      r2.cpu.env.spr Spr.PCR = 0x31 ∧ r2.cpu.env.spr Spr.HFSCR = 0x32 ∧
      r2.cpu.env.spr Spr.SRR0 = 0x33 ∧ r2.cpu.env.spr Spr.SRR1 = 0x34 ∧
      r2.cpu.env.spr Spr.SPRG0 = 0x35 ∧ r2.cpu.env.spr Spr.BOOKS_PID = 0x39 ∧
      r2.cpu.env.spr Spr.PPR = 0x3A ∧
      r2.cpu.env.tb_env.map ppc_tb_t.tb_offset = some 5 := by
  obtain ⟨r1, r2, h1, h2, hg, hg3, hlr, -, -, -, hnip, -, -, hlpcr, hlpidr, hpcr, -, hhfscr,
      hsrr0, hsrr1, hsprg0, -, -, -, hpid, hppr, htbo, -, -⟩ :=
    enter_exit_round_trip qemu_consts busy_cpu ready_spapr 0 (mk_args 104 105 0) 4000
      demo_mem demo_mem 8 demo_tb demo_hv demo_hv demo_regs demo_regs
      (by decide) rfl rfl rfl rfl rfl (by decide) (by decide) rfl rfl rfl
  exact ⟨r1, r2, h1, h2, hg 4 (by decide), hg3, hlr, hnip, hlpcr, hlpidr, hpcr, hhfscr,
    hsrr0, hsrr1, hsprg0, hpid, hppr, htbo⟩

/-- Storing into the last element of an array. -/
theorem array_modify_append {α : Type} (xs : List α) (a : α) (f : α → α) :
    array_modify (xs ++ [a]) xs.length f = some (xs ++ [f a]) := by
  induction xs with
  | nil => rfl
  | cons x xs ih => simp [array_modify, ih]

/-- Overwriting the last element of an array. -/
theorem set_append_last {α : Type} (xs : List α) (a b : α) :
    (xs ++ [a]).set xs.length b = xs ++ [b] := by
  induction xs with
  | nil => rfl
  | cons x xs ih => simp [ih]

/-- Reading the last element of an array. -/
theorem get_append_last {α : Type} (xs : List α) (a : α) :
    (xs ++ [a])[xs.length]? = some a := by
  induction xs with
  | nil => rfl
  | cons x xs ih => simp

/-- Reading below the last element of an array. -/
theorem get_append_below {α : Type} (xs : List α) (a : α) (i : Nat) (h : i < xs.length) :
    (xs ++ [a])[i]? = xs[i]? := by
  induction xs generalizing i with
  | nil => simp at h
  | cons x xs ih =>
    cases i with
    | zero => simp
    | succ i => simpa using ih i (by simpa using h)

/-- Growing an array of `n` slots by one with `g_try_renew`. -/
theorem g_try_renew_grow (mem : List SpaprMachineStateNestedGuestVcpu) :
    g_try_renew true mem (mem.length + 1) =
      some (mem ++ [SpaprMachineStateNestedGuestVcpu.zero]) := by
  simp [g_try_renew, List.take_of_length_le]

/-- A store through the pointer found under `key` is seen by the next lookup
of `key`. -/
theorem lookup_guest_store_same (t : GuestTable) (key : Nat)
    (g0 g : SpaprMachineStateNestedGuest) (h : g_hash_table_lookup t key = some g0) :
    g_hash_table_lookup (guest_store t key g) key = some g := by
  induction t with
  | nil => simp [g_hash_table_lookup] at h
  | cons e t ih =>
    obtain ⟨k, v⟩ := e
    by_cases hk : k = key
    · simp [guest_store, g_hash_table_lookup, hk]
    · simp only [g_hash_table_lookup, if_neg hk] at h
      simp [guest_store, g_hash_table_lookup, hk, ih h]

/-- A store through the pointer found under `key` leaves every other key
alone. -/
theorem lookup_guest_store_other (t : GuestTable) (key key' : Nat)
    (g : SpaprMachineStateNestedGuest) (h : key' ≠ key) :
    g_hash_table_lookup (guest_store t key g) key' = g_hash_table_lookup t key' := by
  induction t with
  | nil => rfl
  | cons e t ih =>
    obtain ⟨k, v⟩ := e
    by_cases hk : k = key
    · subst hk
      have hne : ¬ k = key' := fun h' => h h'.symm
      simp only [guest_store, if_pos rfl, g_hash_table_lookup, if_neg hne]
    · simp only [guest_store, if_neg hk, g_hash_table_lookup, ih]

/-- C3: `h_guest_create_vcpu` with flags = 0 on an existing guest whose count
`n` is below `NESTED_GUEST_VCPU_MAX` and whose array holds `n` slots. With
`vcpuid = n` and the allocation succeeding the call returns `H_SUCCESS`; the
guest then has count `n + 1`, its slots `0..n-1` unchanged and a new slot `n`
that is enabled and whose context is all zero except for the caller's PVR and
the fresh timebase; every other guest is unchanged. With `vcpuid < n` the call
returns `H_IN_USE` and changes nothing. -/
theorem h_guest_create_vcpu_sequential (K : Consts) (cpu : PowerPCCPU)
    (spapr : SpaprMachineState) (opcode : Nat) (args : Nat → Nat) (alloc_ok : Bool)
    (guest : SpaprMachineStateNestedGuest)
    (hflags : args 0 = 0)
    (hguest : spapr_get_nested_guest spapr (args 1) = some guest)
    (hmax : guest.vcpus < K.NESTED_GUEST_VCPU_MAX)
    (hlen : guest.vcpu.length = guest.vcpus) :
    (args 2 = guest.vcpus →
      h_guest_create_vcpu K cpu spapr opcode args true = some
        ⟨K.H_SUCCESS, cpu, with_guest spapr (args 1)
          { guest with vcpus := guest.vcpus + 1,
                       vcpu := guest.vcpu ++ [new_vcpu_slot K cpu] }⟩ ∧
      spapr_get_nested_guest (with_guest spapr (args 1)
          { guest with vcpus := guest.vcpus + 1,
                       vcpu := guest.vcpu ++ [new_vcpu_slot K cpu] }) (args 1) = some
        { guest with vcpus := guest.vcpus + 1,
                     vcpu := guest.vcpu ++ [new_vcpu_slot K cpu] } ∧
      (∀ i, i < guest.vcpus →
        (guest.vcpu ++ [new_vcpu_slot K cpu])[i]? = guest.vcpu[i]?) ∧
      (guest.vcpu ++ [new_vcpu_slot K cpu])[guest.vcpus]? = some (new_vcpu_slot K cpu) ∧
      (new_vcpu_slot K cpu).enabled = true ∧
      (new_vcpu_slot K cpu).env =
        { CPUPPCState.zero with
          spr := Function.update (fun _ => 0) Spr.PVR (cpu.env.spr Spr.PVR),
          tb_env := some ⟨K.SPAPR_TIMEBASE_FREQ, 0, false, 0⟩ } ∧
      (∀ k, k ≠ args 1 →
        spapr_get_nested_guest (with_guest spapr (args 1)
          { guest with vcpus := guest.vcpus + 1,
                       vcpu := guest.vcpu ++ [new_vcpu_slot K cpu] }) k
          = spapr_get_nested_guest spapr k)) ∧
    (args 2 < guest.vcpus →
      h_guest_create_vcpu K cpu spapr opcode args alloc_ok = some ⟨K.H_IN_USE, cpu, spapr⟩) := by
  constructor
  · intro hid
    refine ⟨?_, ?_, ?_, ?_, rfl, rfl, ?_⟩
    · simp only [h_guest_create_vcpu, hguest]
      rw [if_neg (by simpa using hflags), if_neg (by omega), if_neg (by omega)]
      obtain ⟨pvr, n, vcpu⟩ := guest
      simp only at hlen hid hmax ⊢
      subst hlen
      rw [hid]
      by_cases hn : vcpu.length = 0
      · have hnil : vcpu = [] := List.length_eq_zero.mp hn
        subst hnil
        have hpos : ¬ K.NESTED_GUEST_VCPU_MAX = 0 := by
          simp only [List.length_nil] at hmax
          omega
        simp [array_modify, vcpu_check, hret, with_guest, new_vcpu_slot,
          SpaprMachineStateNestedGuestVcpu.zero, hpos]
      · rw [if_pos hn, g_try_renew_grow]
        simp only [set_append_last, array_modify_append]
        rw [if_neg (by omega)]
        simp only [vcpu_check, get_append_last]
        rw [if_neg (by omega), if_neg (by omega), if_neg (by simp), if_pos (by simp)]
        rfl
    · cases hg : spapr.nested.guests with
      | none => simp [spapr_get_nested_guest, hg] at hguest
      | some t =>
        simp only [spapr_get_nested_guest, hg] at hguest
        simp only [spapr_get_nested_guest, with_guest, hg, Option.map_some']
        exact lookup_guest_store_same t (args 1) guest _ hguest
    · intro i hi
      exact get_append_below guest.vcpu _ i (by omega)
    · rw [← hlen]
      exact get_append_last guest.vcpu _
    · intro k hk
      cases hg : spapr.nested.guests with
      | none => simp [spapr_get_nested_guest, with_guest, hg]
      | some t =>
        simp only [spapr_get_nested_guest, with_guest, hg, Option.map_some']
        exact lookup_guest_store_other t (args 1) k _ hk
  · intro hlt
    simp only [h_guest_create_vcpu, hguest]
    rw [if_neg (by simpa using hflags), if_pos hlt]
    rfl

/-- The index-gap path of `h_guest_create_vcpu`: with flags = 0, a guest
whose count `n` is below `NESTED_GUEST_VCPU_MAX` and whose array holds `n`
slots, an index above `n` and the allocation succeeding, the handler reaches
`assert(vcpuid < guest->vcpus)` with the count already raised to `n + 1` and
the assertion fails. -/
theorem h_guest_create_vcpu_gap_aborts (K : Consts) (cpu : PowerPCCPU)
    (spapr : SpaprMachineState) (opcode : Nat) (args : Nat → Nat)
    (guest : SpaprMachineStateNestedGuest)
    (hflags : args 0 = 0)
    (hguest : spapr_get_nested_guest spapr (args 1) = some guest)
    (hmax : guest.vcpus < K.NESTED_GUEST_VCPU_MAX)
    (hlen : guest.vcpu.length = guest.vcpus)
    (hgap : guest.vcpus < args 2) :
    h_guest_create_vcpu K cpu spapr opcode args true = none := by
  simp only [h_guest_create_vcpu, hguest]
  rw [if_neg (by simpa using hflags), if_neg (by omega), if_neg (by omega)]
  obtain ⟨pvr, n, vcpu⟩ := guest
  simp only at hlen hgap hmax ⊢
  subst hlen
  by_cases hn : vcpu.length = 0
  · have hnil : vcpu = [] := List.length_eq_zero.mp hn
    subst hnil
    have hge : ¬ args 2 < 1 := by
      simp only [List.length_nil] at hgap
      omega
    simp [array_modify, hge]
  · rw [if_pos hn, g_try_renew_grow]
    simp only [set_append_last, array_modify_append]
    rw [if_pos (by omega)]

/-- C2, the code at the failing input: on a guest with one vCPU, creating
vCPU index 5 with flags = 0 does not return `H_PARAMETER`; the handler grows
the array, raises the count to 2 and then fails
`assert(vcpuid < guest->vcpus)`, so the call does not return at all. When
the allocation fails instead, the call returns `H_NO_MEM`. -/
theorem h_guest_create_vcpu_index_5_of_1 :
    spapr_get_nested_guest (guest_spapr 1) 1 = some (demo_guest 1) ∧
    (demo_guest 1).vcpus = 1 ∧
    h_guest_create_vcpu qemu_consts power9_cpu (guest_spapr 1) 0 (mk_args 0 1 5) true = none ∧
    (h_guest_create_vcpu qemu_consts power9_cpu (guest_spapr 1) 0 (mk_args 0 1 5) false).map
      (fun r => r.ret) = some qemu_consts.H_NO_MEM :=
  ⟨rfl, rfl,
    h_guest_create_vcpu_gap_aborts qemu_consts power9_cpu (guest_spapr 1) 0 (mk_args 0 1 5)
      (demo_guest 1) rfl rfl (by decide) rfl (by decide),
    rfl⟩

/-- Witness for C3: on a guest without vCPUs, creating the indices 0, 1, 2 in
this order succeeds, and creating index 0 again returns `H_IN_USE`. -/
theorem h_guest_create_vcpu_sequential_witness :
    h_guest_create_vcpu qemu_consts power9_cpu (guest_spapr 0) 0 (mk_args 0 1 0) true
      = some ⟨0, power9_cpu, guest_spapr 1⟩ ∧
    h_guest_create_vcpu qemu_consts power9_cpu (guest_spapr 1) 0 (mk_args 0 1 1) true
      = some ⟨0, power9_cpu, guest_spapr 2⟩ ∧
    h_guest_create_vcpu qemu_consts power9_cpu (guest_spapr 2) 0 (mk_args 0 1 2) true
      = some ⟨0, power9_cpu, guest_spapr 3⟩ ∧
    h_guest_create_vcpu qemu_consts power9_cpu (guest_spapr 3) 0 (mk_args 0 1 0) true
      = some ⟨qemu_consts.H_IN_USE, power9_cpu, guest_spapr 3⟩ :=
  ⟨((h_guest_create_vcpu_sequential qemu_consts power9_cpu (guest_spapr 0) 0 (mk_args 0 1 0)
      true (demo_guest 0) rfl rfl (by decide) rfl).1 rfl).1,
    ((h_guest_create_vcpu_sequential qemu_consts power9_cpu (guest_spapr 1) 0 (mk_args 0 1 1)
      true (demo_guest 1) rfl rfl (by decide) rfl).1 rfl).1,
    ((h_guest_create_vcpu_sequential qemu_consts power9_cpu (guest_spapr 2) 0 (mk_args 0 1 2)
      true (demo_guest 2) rfl rfl (by decide) rfl).1 rfl).1,
    (h_guest_create_vcpu_sequential qemu_consts power9_cpu (guest_spapr 3) 0 (mk_args 0 1 0)
      true (demo_guest 3) rfl rfl (by decide) rfl).2 (by decide)⟩

/-- The lpid search stops at the first free id `m + 1` when the ids from the
start up to `m` are taken. -/
theorem lookup_lpid_first_free (guests : GuestTable) (lpid_max m : Nat)
    (hfree : g_hash_table_lookup guests (m + 1) = none) (hm : m + 1 < lpid_max) :
    ∀ (fuel lpid : Nat), lpid ≤ m + 1 → m + 1 - lpid < fuel →
      (∀ k, lpid ≤ k → k ≤ m → (g_hash_table_lookup guests k).isSome = true) →
      lookup_lpid guests lpid_max fuel lpid = m + 1 := by
  intro fuel
  induction fuel with
  | zero => intro lpid _ h; omega
  | succ fuel ih =>
    intro lpid hle hfuel htaken
    simp only [lookup_lpid]
    rw [if_pos (by omega)]
    by_cases hl : lpid = m + 1
    · subst hl
      rw [hfree]
      rfl
    · have hsome := htaken lpid (le_refl _) (by omega)
      rw [if_neg (by simp [Option.isNone_iff_eq_none, Option.isSome_iff_ne_none.mp hsome])]
      exact ih (lpid + 1) (by omega) (by omega) (fun k hk hk' => htaken k (by omega) hk')

/-- The lpid search runs up to `lpid_max` when every id below it is taken. -/
theorem lookup_lpid_exhausted (guests : GuestTable) (lpid_max : Nat) :
    ∀ (fuel lpid : Nat), lpid ≤ lpid_max → lpid_max - lpid ≤ fuel →
      (∀ k, lpid ≤ k → k < lpid_max → (g_hash_table_lookup guests k).isSome = true) →
      lookup_lpid guests lpid_max fuel lpid = lpid_max := by
  intro fuel
  induction fuel with
  | zero =>
    intro lpid h1 h2 _
    simp only [lookup_lpid]
    omega
  | succ fuel ih =>
    intro lpid hle hfuel htaken
    simp only [lookup_lpid]
    by_cases hl : lpid < lpid_max
    · rw [if_pos hl]
      have hsome := htaken lpid (le_refl _) hl
      rw [if_neg (by simp [Option.isNone_iff_eq_none, Option.isSome_iff_ne_none.mp hsome])]
      exact ih (lpid + 1) (by omega) (by omega) (fun k hk hk' => htaken k (by omega) hk')
    · rw [if_neg hl]
      omega

/-- Removing the entries of an absent key changes nothing. -/
theorem filter_absent_key (t : GuestTable) (key : Nat)
    (h : g_hash_table_lookup t key = none) :
    (t.filter fun e => e.1 ≠ key) = t := by
  induction t with
  | nil => rfl
  | cons e t ih =>
    obtain ⟨k, v⟩ := e
    by_cases hk : k = key
    · simp [g_hash_table_lookup, hk] at h
    · simp only [g_hash_table_lookup, if_neg hk] at h
      rw [List.filter_cons, ih h]
      simp [hk]

/-- What a lookup finds after `g_hash_table_insert` under an absent key. -/
theorem lookup_insert_absent (t : GuestTable) (key key' : Nat)
    (g : SpaprMachineStateNestedGuest) (h : g_hash_table_lookup t key = none) :
    g_hash_table_lookup (g_hash_table_insert t key g) key' =
      if key = key' then some g else g_hash_table_lookup t key' := by
  simp only [g_hash_table_insert, filter_absent_key t key h, g_hash_table_lookup]

/-- A plain `h_guest_create` on an existing registry, as a case distinction
on the size check and on the outcome of the lpid search. -/
theorem h_guest_create_existing (K : Consts) (cpu : PowerPCCPU) (s : SpaprMachineState)
    (t : GuestTable) (hcap : s.cap_nested_papr ≠ 0)
    (hset : s.nested.capabilities_set = true) (hg : s.nested.guests = some t) :
    h_guest_create K cpu s 0 create_args true =
      if g_hash_table_size t = s.nested.lpid_max then ⟨K.H_NO_MEM, cpu, s⟩
      else if lookup_lpid t s.nested.lpid_max s.nested.lpid_max 1 = s.nested.lpid_max then
        ⟨K.H_NO_MEM, cpu, s⟩
      else
        ⟨K.H_SUCCESS,
          { cpu with env := (set_gpr cpu.env 4
              (lookup_lpid t s.nested.lpid_max s.nested.lpid_max 1)) },
          { s with nested := { s.nested with guests := (some (g_hash_table_insert t
              (lookup_lpid t s.nested.lpid_max s.nested.lpid_max 1)
              { pvr_logical := s.nested.pvr_base, vcpus := 0, vcpu := [] })) } }⟩ := by
  have h0 : create_args 0 = 0 := rfl
  have h1 : create_args 1 = WORD - 1 := rfl
  simp only [h_guest_create, h0, h1, hg, hset, Option.getD_some]
  rw [if_neg (by simp), if_neg (by simp), if_neg hcap, if_neg (by simp)]
  by_cases hsz : g_hash_table_size t = s.nested.lpid_max
  · rw [if_pos hsz, if_pos hsz]
  · rw [if_neg hsz, if_neg hsz]
    by_cases hl : lookup_lpid t s.nested.lpid_max s.nested.lpid_max 1 = s.nested.lpid_max
    · rw [if_pos hl, if_pos hl]
    · rw [if_neg hl, if_neg hl, if_neg (by simp)]

/-- A plain `h_guest_create` on a machine without registry behaves like the
call on the machine with an empty registry and `lpid_max = NESTED_GUEST_MAX`. -/
theorem h_guest_create_lazy_init (K : Consts) (cpu : PowerPCCPU) (s : SpaprMachineState)
    (hcap : s.cap_nested_papr ≠ 0)
    (hset : s.nested.capabilities_set = true) (hg : s.nested.guests = none) :
    h_guest_create K cpu s 0 create_args true =
      h_guest_create K cpu
        { s with nested := { s.nested with lpid_max := K.NESTED_GUEST_MAX, guests := some [] } }
        0 create_args true := by
  have h0 : create_args 0 = 0 := rfl
  have h1 : create_args 1 = WORD - 1 := rfl
  simp only [h_guest_create, h0, h1, hg, hset]
  simp [hcap]

/-- One plain `h_guest_create` on a registry holding the ids `1..m`, where
`m <= NESTED_GUEST_MAX`: with `m + 1 < NESTED_GUEST_MAX` the call succeeds with
id `m + 1`, otherwise it returns `H_NO_MEM` and changes nothing. -/
theorem h_guest_create_filled (K : Consts) (cpu : PowerPCCPU) (s : SpaprMachineState)
    (m : Nat) (hcap : s.cap_nested_papr ≠ 0)
    (hset : s.nested.capabilities_set = true) (hreg : registry_filled K s m)
    (hbound : m ≤ K.NESTED_GUEST_MAX) :
    (m + 1 < K.NESTED_GUEST_MAX →
      (h_guest_create K cpu s 0 create_args true).ret = K.H_SUCCESS ∧
      (h_guest_create K cpu s 0 create_args true).cpu
        = { cpu with env := set_gpr cpu.env 4 (m + 1) } ∧
      registry_filled K (h_guest_create K cpu s 0 create_args true).spapr (m + 1)) ∧
    (¬ m + 1 < K.NESTED_GUEST_MAX →
      h_guest_create K cpu s 0 create_args true = ⟨K.H_NO_MEM, cpu, s⟩) ∧
    (h_guest_create K cpu s 0 create_args true).spapr.cap_nested_papr = s.cap_nested_papr ∧
    (h_guest_create K cpu s 0 create_args true).spapr.nested.capabilities_set = true := by
  obtain ⟨t, hg, hmax, hlen, hkeys⟩ := hreg
  have hcall := h_guest_create_existing K cpu s t hcap hset hg
  rw [hmax] at hcall
  by_cases hm : m + 1 < K.NESTED_GUEST_MAX
  · have hfree : g_hash_table_lookup t (m + 1) = none := by
      cases hx : g_hash_table_lookup t (m + 1) with
      | none => rfl
      | some g =>
        have := (hkeys (m + 1)).mp (by simp [hx])
        omega
    have hscan : lookup_lpid t K.NESTED_GUEST_MAX K.NESTED_GUEST_MAX 1 = m + 1 :=
      lookup_lpid_first_free t K.NESTED_GUEST_MAX m hfree hm K.NESTED_GUEST_MAX 1
        (by omega) (by omega) (fun k hk hk' => (hkeys k).mpr ⟨hk, hk'⟩)
    rw [hscan, if_neg (by omega), if_neg (by omega)] at hcall
    rw [hcall]
    refine ⟨fun _ => ⟨rfl, rfl, ?_⟩, fun h => absurd hm h, rfl, hset⟩
    refine ⟨_, rfl, hmax, ?_, ?_⟩
    · simp only [g_hash_table_size, g_hash_table_insert, filter_absent_key t (m + 1) hfree,
        List.length_cons]
      simp only [g_hash_table_size] at hlen
      omega
    · intro k
      rw [lookup_insert_absent t (m + 1) k _ hfree]
      by_cases hk : m + 1 = k
      · rw [if_pos hk]
        simp only [Option.isSome_some, true_iff]
        omega
      · rw [if_neg hk, hkeys k]
        omega
  · have hno : h_guest_create K cpu s 0 create_args true = ⟨K.H_NO_MEM, cpu, s⟩ := by
      rw [hcall]
      by_cases hsz : g_hash_table_size t = K.NESTED_GUEST_MAX
      · rw [if_pos hsz]
      · rw [if_neg hsz]
        have hscan : lookup_lpid t K.NESTED_GUEST_MAX K.NESTED_GUEST_MAX 1
            = K.NESTED_GUEST_MAX :=
          lookup_lpid_exhausted t K.NESTED_GUEST_MAX K.NESTED_GUEST_MAX 1
            (by omega) (by omega) (fun k hk hk' => (hkeys k).mpr ⟨hk, by omega⟩)
        rw [if_pos hscan]
    rw [hno]
    exact ⟨fun h => absurd h hm, fun _ => rfl, rfl, hset⟩

/-- One plain `h_guest_create` on a machine whose registry either does not
exist yet (`m = 0`) or holds the ids `1..m`. -/
theorem h_guest_create_step (K : Consts) (cpu : PowerPCCPU) (s : SpaprMachineState)
    (m : Nat) (hcap : s.cap_nested_papr ≠ 0)
    (hset : s.nested.capabilities_set = true)
    (hreg : (s.nested.guests = none ∧ m = 0) ∨ registry_filled K s m)
    (hbound : m ≤ K.NESTED_GUEST_MAX) :
    (m + 1 < K.NESTED_GUEST_MAX →
      (h_guest_create K cpu s 0 create_args true).ret = K.H_SUCCESS ∧
      (h_guest_create K cpu s 0 create_args true).cpu
        = { cpu with env := set_gpr cpu.env 4 (m + 1) } ∧
      registry_filled K (h_guest_create K cpu s 0 create_args true).spapr (m + 1)) ∧
    (¬ m + 1 < K.NESTED_GUEST_MAX →
      (h_guest_create K cpu s 0 create_args true).ret = K.H_NO_MEM ∧
      (h_guest_create K cpu s 0 create_args true).cpu = cpu ∧
      registry_filled K (h_guest_create K cpu s 0 create_args true).spapr m) ∧
    (h_guest_create K cpu s 0 create_args true).spapr.cap_nested_papr = s.cap_nested_papr ∧
    (h_guest_create K cpu s 0 create_args true).spapr.nested.capabilities_set = true := by
  rcases hreg with ⟨hnone, hm0⟩ | hreg
  · rw [h_guest_create_lazy_init K cpu s hcap hset hnone]
    have hreg' : registry_filled K
        { s with nested := { s.nested with lpid_max := K.NESTED_GUEST_MAX, guests := some [] } }
        m := by
      refine ⟨[], rfl, rfl, by rw [hm0]; rfl, ?_⟩
      intro k
      simp only [g_hash_table_lookup, Option.isSome_none]
      constructor
      · intro h; exact absurd h (by decide)
      · intro h; omega
    obtain ⟨h1, h2, h3, h4⟩ := h_guest_create_filled K cpu
      { s with nested := { s.nested with lpid_max := K.NESTED_GUEST_MAX, guests := some [] } }
      m hcap hset hreg' hbound
    refine ⟨h1, ?_, h3, h4⟩
    intro hm
    rw [h2 hm]
    exact ⟨rfl, rfl, hreg'⟩
  · obtain ⟨h1, h2, h3, h4⟩ := h_guest_create_filled K cpu s m hcap hset hreg hbound
    refine ⟨h1, ?_, h3, h4⟩
    intro hm
    rw [h2 hm]
    exact ⟨rfl, rfl, hreg⟩

/-- The machine after `n` plain `h_guest_create` calls on a fresh registry:
no registry before the first call, afterwards the ids `1..min n (MAX - 1)`. -/
theorem after_creates_inv (K : Consts) (cpu : PowerPCCPU) (spapr : SpaprMachineState)
    (hcap : spapr.cap_nested_papr ≠ 0) (hset : spapr.nested.capabilities_set = true)
    (hfresh : spapr.nested.guests = none) (n : Nat) :
    (after_creates K cpu spapr n).2.cap_nested_papr ≠ 0 ∧
    (after_creates K cpu spapr n).2.nested.capabilities_set = true ∧
    (((after_creates K cpu spapr n).2.nested.guests = none ∧ n = 0) ∨
      registry_filled K (after_creates K cpu spapr n).2 (min n (K.NESTED_GUEST_MAX - 1))) := by
  induction n with
  | zero => exact ⟨hcap, hset, Or.inl ⟨hfresh, rfl⟩⟩
  | succ n ih =>
    obtain ⟨ic, is, ir⟩ := ih
    have ir' : ((after_creates K cpu spapr n).2.nested.guests = none ∧
        min n (K.NESTED_GUEST_MAX - 1) = 0) ∨
        registry_filled K (after_creates K cpu spapr n).2 (min n (K.NESTED_GUEST_MAX - 1)) := by
      rcases ir with ⟨h, hn⟩ | h
      · left; exact ⟨h, by rw [hn]; simp⟩
      · right; exact h
    obtain ⟨h1, h2, h3, h4⟩ := h_guest_create_step K (after_creates K cpu spapr n).1
      (after_creates K cpu spapr n).2 (min n (K.NESTED_GUEST_MAX - 1)) ic is ir' (by omega)
    refine ⟨?_, h4, Or.inr ?_⟩
    · show (h_guest_create K _ _ 0 create_args true).spapr.cap_nested_papr ≠ 0
      rw [h3]; exact ic
    · show registry_filled K (h_guest_create K _ _ 0 create_args true).spapr _
      by_cases hm : min n (K.NESTED_GUEST_MAX - 1) + 1 < K.NESTED_GUEST_MAX
      · have : min (n + 1) (K.NESTED_GUEST_MAX - 1) = min n (K.NESTED_GUEST_MAX - 1) + 1 := by
          omega
        rw [this]
        exact (h1 hm).2.2
      · have : min (n + 1) (K.NESTED_GUEST_MAX - 1) = min n (K.NESTED_GUEST_MAX - 1) := by
          omega
        rw [this]
        exact (h2 hm).2.2

/-- The result of call number `i` in a run of plain `h_guest_create` calls on
a fresh registry. -/
theorem nth_create_result (K : Consts) (cpu : PowerPCCPU) (spapr : SpaprMachineState)
    (hcap : spapr.cap_nested_papr ≠ 0) (hset : spapr.nested.capabilities_set = true)
    (hfresh : spapr.nested.guests = none) (i : Nat) (hi : 1 ≤ i) :
    (i < K.NESTED_GUEST_MAX →
      (nth_create K cpu spapr i).ret = K.H_SUCCESS ∧
      (nth_create K cpu spapr i).cpu.env.gpr 4 = i) ∧
    (K.NESTED_GUEST_MAX ≤ i →
      (nth_create K cpu spapr i).ret = K.H_NO_MEM ∧
      (nth_create K cpu spapr i).cpu = (after_creates K cpu spapr (i - 1)).1) := by
  obtain ⟨ic, is, ir⟩ := after_creates_inv K cpu spapr hcap hset hfresh (i - 1)
  have ir' : ((after_creates K cpu spapr (i - 1)).2.nested.guests = none ∧
      min (i - 1) (K.NESTED_GUEST_MAX - 1) = 0) ∨
      registry_filled K (after_creates K cpu spapr (i - 1)).2
        (min (i - 1) (K.NESTED_GUEST_MAX - 1)) := by
    rcases ir with ⟨h, hn⟩ | h
    · left; exact ⟨h, by rw [hn]; simp⟩
    · right; exact h
  obtain ⟨h1, h2, -, -⟩ := h_guest_create_step K (after_creates K cpu spapr (i - 1)).1
    (after_creates K cpu spapr (i - 1)).2 (min (i - 1) (K.NESTED_GUEST_MAX - 1)) ic is ir'
    (by omega)
  constructor
  · intro hlt
    have hm : min (i - 1) (K.NESTED_GUEST_MAX - 1) + 1 < K.NESTED_GUEST_MAX := by omega
    obtain ⟨r1, r2, -⟩ := h1 hm
    refine ⟨r1, ?_⟩
    show (h_guest_create K _ _ 0 create_args true).cpu.env.gpr 4 = i
    rw [r2]
    simp only [set_gpr, Function.update_same]
    omega
  · intro hge
    have hm : ¬ min (i - 1) (K.NESTED_GUEST_MAX - 1) + 1 < K.NESTED_GUEST_MAX := by omega
    obtain ⟨r1, r2, -⟩ := h2 hm
    exact ⟨r1, r2⟩

/-- C4: consecutive `h_guest_create` calls on a fresh registry (nested-PAPR
capability on, capabilities negotiated, flags = 0, continue token -1,
allocations succeeding). Call number `i` returns `H_SUCCESS` with id `i` in
`gpr[4]` while `i < NESTED_GUEST_MAX`, and `H_NO_MEM` from then on; the first
call sets `lpid_max` to `NESTED_GUEST_MAX`, so call number `lpid_max + 1`
returns `H_NO_MEM`; no guest is ever stored under key 0. So, when
`H_SUCCESS` and `H_NO_MEM` differ, the ids of the successful calls start at 1
and are strictly increasing, and id 0 is never returned. -/
theorem h_guest_create_sequence (K : Consts) (cpu : PowerPCCPU) (spapr : SpaprMachineState)
    (hcap : spapr.cap_nested_papr ≠ 0) (hset : spapr.nested.capabilities_set = true)
    (hfresh : spapr.nested.guests = none) :
    (∀ i, 1 ≤ i → i < K.NESTED_GUEST_MAX →
      (nth_create K cpu spapr i).ret = K.H_SUCCESS ∧
      (nth_create K cpu spapr i).cpu.env.gpr 4 = i) ∧
    (∀ i, 1 ≤ i → K.NESTED_GUEST_MAX ≤ i → (nth_create K cpu spapr i).ret = K.H_NO_MEM) ∧
    (after_creates K cpu spapr 1).2.nested.lpid_max = K.NESTED_GUEST_MAX ∧
    (nth_create K cpu spapr ((after_creates K cpu spapr 1).2.nested.lpid_max + 1)).ret
      = K.H_NO_MEM ∧
    (∀ n, spapr_get_nested_guest (after_creates K cpu spapr n).2 0 = none) ∧
    (K.H_SUCCESS ≠ K.H_NO_MEM →
      (∀ i, 1 ≤ i → (nth_create K cpu spapr i).ret = K.H_SUCCESS →
        (nth_create K cpu spapr i).cpu.env.gpr 4 = i ∧
        (nth_create K cpu spapr i).cpu.env.gpr 4 ≠ 0) ∧
      (∀ i j, 1 ≤ i → i < j →
        (nth_create K cpu spapr i).ret = K.H_SUCCESS →
        (nth_create K cpu spapr j).ret = K.H_SUCCESS →
        (nth_create K cpu spapr i).cpu.env.gpr 4 < (nth_create K cpu spapr j).cpu.env.gpr 4)) := by
  have hres := nth_create_result K cpu spapr hcap hset hfresh
  have hmax1 : (after_creates K cpu spapr 1).2.nested.lpid_max = K.NESTED_GUEST_MAX := by
    obtain ⟨-, -, ir⟩ := after_creates_inv K cpu spapr hcap hset hfresh 1
    rcases ir with ⟨-, h⟩ | ⟨t, -, h, -⟩
    · exact absurd h (by decide)
    · exact h
  have hid : K.H_SUCCESS ≠ K.H_NO_MEM → ∀ i, 1 ≤ i →
      (nth_create K cpu spapr i).ret = K.H_SUCCESS →
      (nth_create K cpu spapr i).cpu.env.gpr 4 = i := by
    intro hne i hi hs
    by_cases hlt : i < K.NESTED_GUEST_MAX
    · exact ((hres i hi).1 hlt).2
    · have := ((hres i hi).2 (by omega)).1
      rw [hs] at this
      exact absurd this hne
  refine ⟨fun i hi hlt => (hres i hi).1 hlt, fun i hi hge => ((hres i hi).2 hge).1, hmax1,
    ?_, ?_, ?_⟩
  · rw [hmax1]
    exact ((hres _ (by omega)).2 (by omega)).1
  · intro n
    obtain ⟨-, -, ir⟩ := after_creates_inv K cpu spapr hcap hset hfresh n
    rcases ir with ⟨h, -⟩ | ⟨t, ht, -, -, hkeys⟩
    · simp only [spapr_get_nested_guest, h]
    · simp only [spapr_get_nested_guest, ht]
      cases hx : g_hash_table_lookup t 0 with
      | none => rfl
      | some g =>
        have := (hkeys 0).mp (by simp [hx])
        omega
  · intro hne
    refine ⟨fun i hi hs => ?_, fun i j hi hij hsi hsj => ?_⟩
    · have := hid hne i hi hs
      exact ⟨this, by omega⟩
    · rw [hid hne i hi hsi, hid hne j (by omega) hsj]
      exact hij

/-- Witness for C4 with `NESTED_GUEST_MAX = 3`: the first two calls return
the ids 1 and 2, the third and the fourth call return `H_NO_MEM`. -/
theorem h_guest_create_sequence_witness :
    ((nth_create small_consts power9_cpu fresh_spapr 1).ret = 0 ∧
      (nth_create small_consts power9_cpu fresh_spapr 1).cpu.env.gpr 4 = 1) ∧
    ((nth_create small_consts power9_cpu fresh_spapr 2).ret = 0 ∧
      (nth_create small_consts power9_cpu fresh_spapr 2).cpu.env.gpr 4 = 2) ∧
    (nth_create small_consts power9_cpu fresh_spapr 3).ret = neg64 9 ∧
    (nth_create small_consts power9_cpu fresh_spapr 4).ret = neg64 9 := by
  have h := h_guest_create_sequence small_consts power9_cpu fresh_spapr (by decide) rfl rfl
  exact ⟨h.1 1 (by decide) (by decide), h.1 2 (by decide) (by decide),
    h.2.1 3 (by decide) (by decide), h.2.1 4 (by decide) (by decide)⟩

/-- C5: `h_set_ptbl` with the nested feature enabled returns `H_SUCCESS` and
stores `ptcr` when `(ptcr & 0x1f) + 12 - 4 <= 12`, which is the same as the
size class `ptcr & 0x1f` being at most 4, and otherwise returns `H_PARAMETER`
leaving the machine unchanged; with the feature disabled it returns
`H_FUNCTION` leaving the machine unchanged. When the two status codes differ,
success is equivalent to the size condition. -/
theorem h_set_ptbl_validation (K : Consts) (cpu : PowerPCCPU) (spapr : SpaprMachineState)
    (opcode : Nat) (args : Nat → Nat) :
    (spapr.cap_nested_kvm_hv ≠ 0 → (args 0 &&& PRTS_MASK) + 12 - 4 ≤ 12 →
      h_set_ptbl K cpu spapr opcode args =
        ⟨K.H_SUCCESS, cpu, { spapr with nested := { spapr.nested with ptcr := args 0 } }⟩) ∧
    (spapr.cap_nested_kvm_hv ≠ 0 → ¬ (args 0 &&& PRTS_MASK) + 12 - 4 ≤ 12 →
      h_set_ptbl K cpu spapr opcode args = ⟨K.H_PARAMETER, cpu, spapr⟩) ∧
    (spapr.cap_nested_kvm_hv = 0 →
      h_set_ptbl K cpu spapr opcode args = ⟨K.H_FUNCTION, cpu, spapr⟩) ∧
    ((args 0 &&& PRTS_MASK) + 12 - 4 ≤ 12 ↔ args 0 % 32 ≤ 4) ∧
    (spapr.cap_nested_kvm_hv ≠ 0 → K.H_SUCCESS ≠ K.H_PARAMETER →
      ((h_set_ptbl K cpu spapr opcode args).ret = K.H_SUCCESS ↔
        (args 0 &&& PRTS_MASK) + 12 - 4 ≤ 12)) := by
  have hmask : args 0 &&& PRTS_MASK = args 0 % 32 := by
    have h := Nat.and_pow_two_sub_one_eq_mod (args 0) 5
    simpa [PRTS_MASK] using h
  refine ⟨?_, ?_, ?_, ?_, ?_⟩
  · intro hcap hsz
    have hsz' : ¬ (args 0 &&& PRTS_MASK) + 12 - 4 > 12 := by omega
    simp only [h_set_ptbl]
    rw [if_neg hcap, if_neg hsz']
  · intro hcap hsz
    have hsz' : (args 0 &&& PRTS_MASK) + 12 - 4 > 12 := by omega
    simp only [h_set_ptbl]
    rw [if_neg hcap, if_pos hsz']
  · intro hcap
    simp only [h_set_ptbl]
    rw [if_pos hcap]
  · rw [hmask]; omega
  · intro hcap hne
    simp only [h_set_ptbl]
    rw [if_neg hcap]
    by_cases hsz : (args 0 &&& PRTS_MASK) + 12 - 4 > 12
    · rw [if_pos hsz]
      constructor
      · intro h; exact absurd h.symm hne
      · intro h; omega
    · rw [if_neg hsz]
      constructor
      · intro _; omega
      · intro _; rfl

/-- Witness for C5 on the demo machine: the boundary size class 4 is accepted
and stored, size class 5 is rejected. -/
theorem h_set_ptbl_validation_witness :
    (h_set_ptbl qemu_consts demo_cpu demo_spapr 0 (mk_args 0x1004 0 0)).ret = 0 ∧
    (h_set_ptbl qemu_consts demo_cpu demo_spapr 0 (mk_args 0x1004 0 0)).spapr.nested.ptcr
      = 0x1004 ∧
    (h_set_ptbl qemu_consts demo_cpu demo_spapr 0 (mk_args 0x1005 0 0)).ret = neg64 4 ∧
    (h_set_ptbl qemu_consts demo_cpu demo_spapr 0 (mk_args 0x1005 0 0)).spapr.nested.ptcr
      = 0 := by
  have h4 := (h_set_ptbl_validation qemu_consts demo_cpu demo_spapr 0 (mk_args 0x1004 0 0)).1
    (by decide) (by decide)
  have h5 := (h_set_ptbl_validation qemu_consts demo_cpu demo_spapr 0 (mk_args 0x1005 0 0)).2.1
    (by decide) (by decide)
  rw [h4, h5]
  exact ⟨rfl, rfl, rfl, rfl⟩

/-- C8: `h_guest_get_capabilities` with nonzero flags returns `H_PARAMETER`
and leaves the CPU (so `gpr[4]` too) and the machine exactly as they were. -/
theorem h_guest_get_capabilities_nonzero_flags (K : Consts) (cpu : PowerPCCPU)
    (spapr : SpaprMachineState) (opcode : Nat) (args : Nat → Nat) (hflags : args 0 ≠ 0) :
    h_guest_get_capabilities K cpu spapr opcode args = ⟨K.H_PARAMETER, cpu, spapr⟩ := by
  simp only [h_guest_get_capabilities]
  rw [if_pos hflags]

/-- Witness for C8: flags = 1 on the POWER9 demo CPU. -/
theorem h_guest_get_capabilities_nonzero_flags_witness :
    mk_args 1 0 0 0 ≠ 0 ∧
    h_guest_get_capabilities qemu_consts power9_cpu demo_spapr 0 (mk_args 1 0 0) =
      ⟨qemu_consts.H_PARAMETER, power9_cpu, demo_spapr⟩ :=
  ⟨by decide,
    h_guest_get_capabilities_nonzero_flags qemu_consts power9_cpu demo_spapr 0 (mk_args 1 0 0)
      (by decide)⟩

/-- C7 fails as stated: on a POWER8 host (PVR `0x004D0200`) with flags = 0 the
call returns `H_SUCCESS`, and `gpr[4]`, which held 104 before the call, still
holds 104 afterwards, a word with neither mode bit set. -/
theorem h_guest_get_capabilities_power8_counterexample :
    (h_guest_get_capabilities qemu_consts power8_cpu demo_spapr 0 (mk_args 0 0 0)).ret
      = qemu_consts.H_SUCCESS ∧
    (h_guest_get_capabilities qemu_consts power8_cpu demo_spapr 0 (mk_args 0 0 0)).cpu.env.gpr 4
      = 104 ∧
    ¬ exactly_one_mode_bit qemu_consts
      ((h_guest_get_capabilities qemu_consts power8_cpu demo_spapr 0
        (mk_args 0 0 0)).cpu.env.gpr 4) := by
  refine ⟨by decide, by decide, by decide⟩

/-- C7 (amended): `h_guest_get_capabilities` with flags = 0 returns
`H_SUCCESS` for every processor version and every prior `gpr[4]`, changes
nothing but `gpr[4]`, and leaves in `gpr[4]` the P10 mode bit on a POWER10
host, the P9 mode bit on a POWER9 host, and the prior value of `gpr[4]` on
any other host. When the two mode constants are nonzero and share no bit, the
word left on a POWER9 or POWER10 host has exactly one mode bit set. -/
theorem h_guest_get_capabilities_mode_bit (K : Consts) (cpu : PowerPCCPU)
    (spapr : SpaprMachineState) (opcode : Nat) (args : Nat → Nat) (hflags : args 0 = 0) :
    (h_guest_get_capabilities K cpu spapr opcode args).ret = K.H_SUCCESS ∧
    (h_guest_get_capabilities K cpu spapr opcode args).spapr = spapr ∧
    (h_guest_get_capabilities K cpu spapr opcode args).cpu =
      { cpu with env := (set_gpr cpu.env 4
          ((h_guest_get_capabilities K cpu spapr opcode args).cpu.env.gpr 4)) } ∧
    (h_guest_get_capabilities K cpu spapr opcode args).cpu.env.gpr 4 =
      (if is_power10 K cpu then K.H_GUEST_CAPABILITIES_P10_MODE
       else if is_power9 K cpu then K.H_GUEST_CAPABILITIES_P9_MODE
       else cpu.env.gpr 4) ∧
    (K.H_GUEST_CAPABILITIES_P9_MODE ≠ 0 → K.H_GUEST_CAPABILITIES_P10_MODE ≠ 0 →
      K.H_GUEST_CAPABILITIES_P9_MODE &&& K.H_GUEST_CAPABILITIES_P10_MODE = 0 →
      is_power9 K cpu ∨ is_power10 K cpu →
      exactly_one_mode_bit K ((h_guest_get_capabilities K cpu spapr opcode args).cpu.env.gpr 4)) := by
  have henv : (h_guest_get_capabilities K cpu spapr opcode args) =
      ⟨K.H_SUCCESS, { cpu with env := (set_gpr cpu.env 4
        (if is_power10 K cpu then K.H_GUEST_CAPABILITIES_P10_MODE
         else if is_power9 K cpu then K.H_GUEST_CAPABILITIES_P9_MODE
         else cpu.env.gpr 4)) }, spapr⟩ := by
    simp only [h_guest_get_capabilities, is_power9, is_power10]
    rw [if_neg (by simpa using hflags)]
    by_cases h9 : cpu.env.spr Spr.PVR &&& K.CPU_POWERPC_POWER_SERVER_MASK
        = K.CPU_POWERPC_POWER9_BASE <;>
    by_cases h10 : cpu.env.spr Spr.PVR &&& K.CPU_POWERPC_POWER_SERVER_MASK
        = K.CPU_POWERPC_POWER10_BASE
    · simp only [set_gpr, if_pos h9, if_pos h10, Function.update_idem]
    · simp only [set_gpr, if_pos h9, if_neg h10]
    · simp only [set_gpr, if_neg h9, if_pos h10]
    · simp only [set_gpr, if_neg h9, if_neg h10, Function.update_eq_self]
  have hval : (h_guest_get_capabilities K cpu spapr opcode args).cpu.env.gpr 4 =
      (if is_power10 K cpu then K.H_GUEST_CAPABILITIES_P10_MODE
       else if is_power9 K cpu then K.H_GUEST_CAPABILITIES_P9_MODE
       else cpu.env.gpr 4) := by
    rw [henv]
    simp only [set_gpr, Function.update_same]
  refine ⟨?_, ?_, ?_, hval, ?_⟩
  · rw [henv]
  · rw [henv]
  · rw [hval, henv]
  · intro n9 n10 hdisj hhost
    rw [hval]
    have hdisj' : K.H_GUEST_CAPABILITIES_P10_MODE &&& K.H_GUEST_CAPABILITIES_P9_MODE = 0 := by
      rw [Nat.land_comm]; exact hdisj
    by_cases h10 : is_power10 K cpu
    · rw [if_pos h10]
      right
      exact ⟨hdisj', by rw [Nat.and_self]; exact n10⟩
    · rw [if_neg h10]
      have h9 : is_power9 K cpu := hhost.resolve_right h10
      rw [if_pos h9]
      left
      exact ⟨by rw [Nat.and_self]; exact n9, hdisj⟩

/-- Witness for the amended C7: on the POWER9 demo CPU the call with flags = 0
leaves exactly the P9 mode bit in `gpr[4]`. -/
theorem h_guest_get_capabilities_mode_bit_witness :
    mk_args 0 0 0 0 = 0 ∧
    (h_guest_get_capabilities qemu_consts power9_cpu demo_spapr 0 (mk_args 0 0 0)).cpu.env.gpr 4
      = 0x4000000000000000 ∧
    exactly_one_mode_bit qemu_consts
      ((h_guest_get_capabilities qemu_consts power9_cpu demo_spapr 0
        (mk_args 0 0 0)).cpu.env.gpr 4) := by
  have h := h_guest_get_capabilities_mode_bit qemu_consts power9_cpu demo_spapr 0
    (mk_args 0 0 0) (by decide)
  refine ⟨by decide, ?_, ?_⟩
  · rw [h.2.2.2.1]; decide
  · exact h.2.2.2.2 (by decide) (by decide) (by decide) (Or.inl (by decide))

/-- C6 fails as stated, in two places. With flags = 1 and the copy-memory bit
set, the call on a POWER9 host is rejected with `H_PARAMETER` and `gpr[4]`
keeps its prior value 104 rather than reason code 0. With flags = 0 and an
empty capabilities word the call on a POWER8 host returns `H_SUCCESS` although
no matching mode bit is present. -/
theorem h_guest_set_capabilities_counterexample :
    (mk_args 1 0x8000000000000000 0 1 &&& qemu_consts.H_GUEST_CAPABILITIES_COPY_MEM ≠ 0 ∧
      (h_guest_set_capabilities qemu_consts power9_cpu demo_spapr 0
        (mk_args 1 0x8000000000000000 0)).ret = qemu_consts.H_PARAMETER ∧
      (h_guest_set_capabilities qemu_consts power9_cpu demo_spapr 0
        (mk_args 1 0x8000000000000000 0)).cpu.env.gpr 4 = 104) ∧
    ((h_guest_set_capabilities qemu_consts power8_cpu demo_spapr 0 (mk_args 0 0 0)).ret
        = qemu_consts.H_SUCCESS ∧
      ¬ matching_mode_bit_present qemu_consts power8_cpu (mk_args 0 0 0 1)) := by
  refine ⟨⟨by decide, by decide, by decide⟩, by decide, by decide⟩

/-- C6 (amended): a call of `h_guest_set_capabilities` whose capabilities
contain the copy-memory bit never succeeds: with flags = 0 it returns `H_P2`
with reason code 0 in `gpr[4]`, with nonzero flags it returns `H_PARAMETER`
and changes nothing. A call with flags = 0 and without the copy-memory bit
returns `H_SUCCESS` iff neither the host is a POWER9 with the P9 mode bit
absent nor a POWER10 with the P10 mode bit absent; so it always succeeds on a
host of neither class. On success only `capabilities_set` (now true) and
`pvr_base` (now the host PVR) change; on every failure the machine state is
unchanged. -/
theorem h_guest_set_capabilities_spec (K : Consts) (cpu : PowerPCCPU)
    (spapr : SpaprMachineState) (opcode : Nat) (args : Nat → Nat)
    (hP2 : K.H_SUCCESS ≠ K.H_P2) (hPar : K.H_SUCCESS ≠ K.H_PARAMETER) :
    (args 1 &&& K.H_GUEST_CAPABILITIES_COPY_MEM ≠ 0 →
      (h_guest_set_capabilities K cpu spapr opcode args).ret ≠ K.H_SUCCESS) ∧
    (args 0 = 0 → args 1 &&& K.H_GUEST_CAPABILITIES_COPY_MEM ≠ 0 →
      h_guest_set_capabilities K cpu spapr opcode args =
        ⟨K.H_P2, { cpu with env := set_gpr cpu.env 4 0 }, spapr⟩) ∧
    (args 0 ≠ 0 →
      h_guest_set_capabilities K cpu spapr opcode args = ⟨K.H_PARAMETER, cpu, spapr⟩) ∧
    (args 0 = 0 → args 1 &&& K.H_GUEST_CAPABILITIES_COPY_MEM = 0 →
      ((h_guest_set_capabilities K cpu spapr opcode args).ret = K.H_SUCCESS ↔
        (is_power9 K cpu → args 1 &&& K.H_GUEST_CAPABILITIES_P9_MODE ≠ 0) ∧
        (is_power10 K cpu → args 1 &&& K.H_GUEST_CAPABILITIES_P10_MODE ≠ 0))) ∧
    ((h_guest_set_capabilities K cpu spapr opcode args).ret = K.H_SUCCESS →
      (h_guest_set_capabilities K cpu spapr opcode args).cpu = cpu ∧
      (h_guest_set_capabilities K cpu spapr opcode args).spapr =
        { spapr with nested :=
          { spapr.nested with capabilities_set := true, pvr_base := cpu.env.spr Spr.PVR } }) ∧
    ((h_guest_set_capabilities K cpu spapr opcode args).ret ≠ K.H_SUCCESS →
      (h_guest_set_capabilities K cpu spapr opcode args).spapr = spapr) := by
  have hP2' : ¬ K.H_P2 = K.H_SUCCESS := fun h => hP2 h.symm
  have hPar' : ¬ K.H_PARAMETER = K.H_SUCCESS := fun h => hPar h.symm
  simp only [h_guest_set_capabilities, is_power9, is_power10]
  split_ifs with h1 h2 h3 h4 <;> simp_all

/-- Witness for the amended C6: on the POWER9 demo CPU, flags = 0 with the P9
mode bit succeeds and latches the PVR; on the POWER8 demo CPU an empty
capabilities word succeeds as well. -/
theorem h_guest_set_capabilities_spec_witness :
    (h_guest_set_capabilities qemu_consts power9_cpu demo_spapr 0
      (mk_args 0 0x4000000000000000 0)).ret = 0 ∧
    (h_guest_set_capabilities qemu_consts power9_cpu demo_spapr 0
      (mk_args 0 0x4000000000000000 0)).spapr.nested.capabilities_set = true ∧
    (h_guest_set_capabilities qemu_consts power9_cpu demo_spapr 0
      (mk_args 0 0x4000000000000000 0)).spapr.nested.pvr_base = 0x004E1200 ∧
    (h_guest_set_capabilities qemu_consts power8_cpu demo_spapr 0 (mk_args 0 0 0)).ret = 0 := by
  have h9 := h_guest_set_capabilities_spec qemu_consts power9_cpu demo_spapr 0
    (mk_args 0 0x4000000000000000 0) (by decide) (by decide)
  have h8 := h_guest_set_capabilities_spec qemu_consts power8_cpu demo_spapr 0
    (mk_args 0 0 0) (by decide) (by decide)
  have r9 := (h9.2.2.2.1 (by decide) (by decide)).2 ⟨fun _ => by decide, fun h => absurd h (by decide)⟩
  have r8 := (h8.2.2.2.1 (by decide) (by decide)).2
    ⟨fun h => absurd h (by decide), fun h => absurd h (by decide)⟩
  have s9 := (h9.2.2.2.2.1 r9).2
  refine ⟨r9, ?_, ?_, r8⟩
  · rw [s9]
  · rw [s9]; rfl

/-- C9: when `spapr_exit_nested` runs with both guest-memory structures
mapping whole, the register buffer's `nip` and `msr` come from the L2's
SRR0 and SRR1 when `excp` is machine-check, system-reset or system-call, and
from the HSRR0 and HSRR1 read before the host restore for every other `excp`
(so also for HDSI, an exception number different from those three); `nip` is
the first register of the pair and `msr` the second one masked with
`env->msr_mask`. -/
theorem spapr_exit_nested_resume_address (K : Consts) (cpu : PowerPCCPU) (excp : Nat)
    (mem : AddressSpace) (host : nested_ppc_state) (tb : ppc_tb_t)
    (hv : kvmppc_hv_guest_state) (regs : kvmppc_pt_regs)
    (hhost : cpu.spapr_cpu.nested_host_state = .live host)
    (hin : cpu.spapr_cpu.in_nested = true)
    (htb : cpu.env.tb_env = some tb)
    (hlpid : cpu.env.spr Spr.LPIDR ≠ 0)
    (hhv : mem.map_hv (host.gpr 4) true = Mapping.full K.sizeof_hvstate hv)
    (hregs : mem.map_regs (host.gpr 5) true = Mapping.full K.sizeof_regs regs) :
    ∃ r regs', spapr_exit_nested K cpu excp mem = some r ∧ r.regs = some regs' ∧
      ((excp = K.POWERPC_EXCP_MCHECK ∨ excp = K.POWERPC_EXCP_RESET ∨
          excp = K.POWERPC_EXCP_SYSCALL) →
        regs'.nip = cpu.env.spr Spr.SRR0 ∧
        regs'.msr = cpu.env.spr Spr.SRR1 &&& cpu.env.msr_mask) ∧
      (¬ (excp = K.POWERPC_EXCP_MCHECK ∨ excp = K.POWERPC_EXCP_RESET ∨
          excp = K.POWERPC_EXCP_SYSCALL) →
        regs'.nip = cpu.env.spr Spr.HSRR0 ∧
        regs'.msr = cpu.env.spr Spr.HSRR1 &&& cpu.env.msr_mask) ∧
      (K.POWERPC_EXCP_HDSI ≠ K.POWERPC_EXCP_MCHECK →
        K.POWERPC_EXCP_HDSI ≠ K.POWERPC_EXCP_RESET →
        K.POWERPC_EXCP_HDSI ≠ K.POWERPC_EXCP_SYSCALL →
        excp = K.POWERPC_EXCP_HDSI →
        regs'.nip = cpu.env.spr Spr.HSRR0 ∧
        regs'.msr = cpu.env.spr Spr.HSRR1 &&& cpu.env.msr_mask) := by
  have hrun := spapr_exit_nested_full K cpu excp mem host _ _ hv regs hhost hin
    (nested_save_state_eq cpu.env tb htb) hlpid (nested_load_state_eq cpu.env host tb htb)
    hhv hregs
  refine ⟨_, _, hrun, rfl, ?_, ?_, ?_⟩
  · intro h
    simp only [exit_write_regs]
    rw [if_pos h]
    exact ⟨rfl, rfl⟩
  · intro h
    simp only [exit_write_regs]
    rw [if_neg h]
    exact ⟨rfl, rfl⟩
  · intro h1 h2 h3 he
    have h : ¬ (excp = K.POWERPC_EXCP_MCHECK ∨ excp = K.POWERPC_EXCP_RESET ∨
        excp = K.POWERPC_EXCP_SYSCALL) := by
      rw [he]
      rintro (h | h | h)
      · exact h1 h
      · exact h2 h
      · exact h3 h
    simp only [exit_write_regs]
    rw [if_neg h]
    exact ⟨rfl, rfl⟩

/-- Witness for C9 on the demo L2 (SRR0/SRR1 = `0x51`/`0x152`, HSRR0/HSRR1 =
`0x61`/`0x162`, `msr_mask = 0xFF`): a system-call exit resumes at `0x51` with
MSR `0x52`, an HDSI exit at `0x61` with MSR `0x62`. -/
theorem spapr_exit_nested_resume_address_witness :
    (∃ r regs', spapr_exit_nested qemu_consts demo_l2_cpu 8 demo_mem = some r ∧
      r.regs = some regs' ∧ regs'.nip = 0x51 ∧ regs'.msr = 0x52) ∧
    (∃ r regs', spapr_exit_nested qemu_consts demo_l2_cpu 69 demo_mem = some r ∧
      r.regs = some regs' ∧ regs'.nip = 0x61 ∧ regs'.msr = 0x62) := by
  constructor
  · obtain ⟨r, regs', h1, h2, h3, -, -⟩ :=
      spapr_exit_nested_resume_address qemu_consts demo_l2_cpu 8 demo_mem demo_host
        _ demo_hv demo_regs rfl rfl rfl (by decide) rfl rfl
    have h := h3 (Or.inr (Or.inr rfl))
    exact ⟨r, regs', h1, h2, h.1, h.2⟩
  · obtain ⟨r, regs', h1, h2, -, -, h5⟩ :=
      spapr_exit_nested_resume_address qemu_consts demo_l2_cpu 69 demo_mem demo_host
        _ demo_hv demo_regs rfl rfl rfl (by decide) rfl rfl
    have h := h5 (by decide) (by decide) (by decide) rfl
    exact ⟨r, regs', h1, h2, h.1, h.2⟩

/-- C10 fails as stated: on an HISI exit (exception 70) of the demo L2, whose
live HDAR and HDSISR hold `0xD1` and `0xD2`, the descriptor's `hdar` and
`hdsisr` keep their previous contents `0xAA` and `0xAB`; only `asdr` receives
the live ASDR `0xD3`. -/
theorem spapr_exit_nested_hisi_counterexample :
    qemu_consts.POWERPC_EXCP_HISI = 70 ∧
    demo_l2_cpu.env.spr Spr.HDAR = 0xD1 ∧ demo_l2_cpu.env.spr Spr.HDSISR = 0xD2 ∧
    demo_l2_cpu.env.spr Spr.ASDR = 0xD3 ∧
    ∃ r hv', spapr_exit_nested qemu_consts demo_l2_cpu 70 demo_mem = some r ∧
      r.hvstate = some hv' ∧ hv'.hdar = 0xAA ∧ hv'.hdsisr = 0xAB ∧ hv'.asdr = 0xD3 :=
  ⟨rfl, rfl, rfl, rfl, _, _, rfl, rfl, rfl, rfl, rfl⟩

/-- C10 (amended): when `spapr_exit_nested` runs with the descriptor mapping
whole, an HDSI exit sets the descriptor's `hdar`, `hdsisr` and `asdr` to the
HDAR, HDSISR and ASDR read from the live L2 context before the host restore;
an HISI exit sets only `asdr` to that ASDR and leaves `hdar` and `hdsisr` with
their previous contents; for every other `excp` the three fields keep their
previous contents. -/
theorem spapr_exit_nested_fault_fields (K : Consts) (cpu : PowerPCCPU) (excp : Nat)
    (mem : AddressSpace) (host : nested_ppc_state) (tb : ppc_tb_t)
    (hv : kvmppc_hv_guest_state)
    (hhost : cpu.spapr_cpu.nested_host_state = .live host)
    (hin : cpu.spapr_cpu.in_nested = true)
    (htb : cpu.env.tb_env = some tb)
    (hlpid : cpu.env.spr Spr.LPIDR ≠ 0)
    (hhv : mem.map_hv (host.gpr 4) true = Mapping.full K.sizeof_hvstate hv) :
    ∃ r hv', spapr_exit_nested K cpu excp mem = some r ∧ r.hvstate = some hv' ∧
      (excp = K.POWERPC_EXCP_HDSI →
        hv'.hdar = cpu.env.spr Spr.HDAR ∧ hv'.hdsisr = cpu.env.spr Spr.HDSISR ∧
        hv'.asdr = cpu.env.spr Spr.ASDR) ∧
      (excp ≠ K.POWERPC_EXCP_HDSI → excp = K.POWERPC_EXCP_HISI →
        hv'.hdar = hv.hdar ∧ hv'.hdsisr = hv.hdsisr ∧ hv'.asdr = cpu.env.spr Spr.ASDR) ∧
      (excp ≠ K.POWERPC_EXCP_HDSI → excp ≠ K.POWERPC_EXCP_HISI →
        hv'.hdar = hv.hdar ∧ hv'.hdsisr = hv.hdsisr ∧ hv'.asdr = hv.asdr) := by
  obtain ⟨r, hr, hrv⟩ := spapr_exit_nested_hvstate K cpu excp mem host _ _ hv hhost hin
    (nested_save_state_eq cpu.env tb htb) hlpid (nested_load_state_eq cpu.env host tb htb) hhv
  refine ⟨r, _, hr, hrv, ?_, ?_, ?_⟩
  · intro h
    simp only [exit_write_hvstate]
    rw [if_pos h]
    exact ⟨rfl, rfl, rfl⟩
  · intro h1 h2
    simp only [exit_write_hvstate]
    rw [if_neg h1, if_pos h2]
    exact ⟨rfl, rfl, rfl⟩
  · intro h1 h2
    simp only [exit_write_hvstate]
    rw [if_neg h1, if_neg h2]
    exact ⟨rfl, rfl, rfl⟩

/-- Witness for the amended C10 on the demo L2: an HDSI exit (exception 69)
writes the live `0xD1`, `0xD2`, `0xD3` into `hdar`, `hdsisr`, `asdr`. -/
theorem spapr_exit_nested_fault_fields_witness :
    ∃ r hv', spapr_exit_nested qemu_consts demo_l2_cpu 69 demo_mem = some r ∧
      r.hvstate = some hv' ∧ hv'.hdar = 0xD1 ∧ hv'.hdsisr = 0xD2 ∧ hv'.asdr = 0xD3 := by
  obtain ⟨r, hv', h1, h2, h3, -, -⟩ :=
    spapr_exit_nested_fault_fields qemu_consts demo_l2_cpu 69 demo_mem demo_host
      _ demo_hv rfl rfl rfl (by decide) rfl
  have h := h3 rfl
  exact ⟨r, hv', h1, h2, h.1, h.2.1, h.2.2⟩

/-- Bit `i` of the 64-bit complement of `x`. -/
theorem not64_testBit (x i : Nat) :
    (not64 x).testBit i = (decide (i < 64) && !x.testBit i) := by
  have hlt : x % 2 ^ 64 < 2 ^ 64 := Nat.mod_lt _ (by decide)
  have h := Nat.testBit_two_pow_sub_succ hlt i
  have hrw : not64 x = 2 ^ 64 - (x % 2 ^ 64 + 1) := by
    simp only [not64, WORD]
    omega
  rw [hrw, h, Nat.testBit_mod_two_pow]
  cases decide (i < 64) <;> simp

/-- The demo machine meets the conditions of a complete entry. -/
theorem demo_entry_runs :
    EntryRuns qemu_consts demo_cpu ready_spapr (mk_args 104 105 0) demo_mem demo_tb
      demo_hv demo_regs :=
  ⟨by decide, rfl, by decide, by decide, rfl, rfl, rfl, rfl⟩

/-- The run of `h_enter_nested` under `EntryRuns`, with the final state
written out. -/
theorem h_enter_nested_runs (K : Consts) (cpu : PowerPCCPU) (spapr : SpaprMachineState)
    (opcode : Nat) (args : Nat → Nat) (now : Nat) (mem : AddressSpace) (tb : ppc_tb_t)
    (hv : kvmppc_hv_guest_state) (regs : kvmppc_pt_regs)
    (ok : EntryRuns K cpu spapr args mem tb hv regs) :
    h_enter_nested K cpu spapr opcode args now mem true = some
      ⟨regs.gpr 3,
        { cpu with
          env := cpu_ppc_store_hdecr
            (cpu_ppc_hdecr_init
              (loaded_env cpu.env tb (enter_l2_state K cpu tb.tb_offset hv regs)))
            (enter_hdec hv now),
          spapr_cpu := { in_nested := true,
                         nested_host_state := .live (saved_state cpu.env tb) } },
        spapr⟩ :=
  h_enter_nested_success K cpu spapr opcode args now mem (saved_state cpu.env tb)
    (loaded_env cpu.env tb (enter_l2_state K cpu tb.tb_offset hv regs)) hv regs
    ok.ptcr_set ok.hv_mapped ok.version_ok ok.lpid_ok ok.lpidr_zero ok.dpdes_zero
    (nested_save_state_eq cpu.env tb ok.tb_present) ok.regs_mapped
    (nested_load_state_eq cpu.env _ tb ok.tb_present)

/-- The LPCR of the context that `h_enter_nested` leaves, written as the
merge formula. -/
theorem entered_lpcr (K : Consts) (cpu : PowerPCCPU) (tb : ppc_tb_t)
    (hv : kvmppc_hv_guest_state) (regs : kvmppc_pt_regs) (hdec : Nat) :
    (cpu_ppc_store_hdecr
      (cpu_ppc_hdecr_init (loaded_env cpu.env tb (enter_l2_state K cpu tb.tb_offset hv regs)))
      hdec).spr Spr.LPCR =
    ((((cpu.env.spr Spr.LPCR &&& not64 (lpcr_from_descriptor K)) |||
        (hv.lpcr &&& lpcr_from_descriptor K)) ||| lpcr_forced K) &&&
      not64 K.LPCR_LPES0) &&& cpu.lpcr_mask := rfl

/-- C11: on every complete entry the live LPCR afterwards equals
`((((L & ~M) | (D & M)) | F) & ~LPES0) & pcc->lpcr_mask`, with `L` the live
LPCR before the entry, `D` the descriptor's `lpcr`, `M` the mask
DPFD|ILE|AIL|LD|MER and `F` the bits HR|UPRT|GTSE|HVICE|HDICE. So two
descriptors that agree on the bits of `M` yield the same LPCR, the LPES0 bit
is clear, and, `F` being a 64-bit value that does not contain LPES0, every bit
of `F` allowed by `lpcr_mask` is set. -/
theorem h_enter_nested_lpcr_merge (K : Consts) (cpu : PowerPCCPU) (spapr : SpaprMachineState)
    (opcode : Nat) (args : Nat → Nat) (now : Nat) (mem : AddressSpace) (tb : ppc_tb_t)
    (hv : kvmppc_hv_guest_state) (regs : kvmppc_pt_regs)
    (ok : EntryRuns K cpu spapr args mem tb hv regs) :
    ∃ r, h_enter_nested K cpu spapr opcode args now mem true = some r ∧
      r.cpu.env.spr Spr.LPCR =
        ((((cpu.env.spr Spr.LPCR &&& not64 (lpcr_from_descriptor K)) |||
            (hv.lpcr &&& lpcr_from_descriptor K)) ||| lpcr_forced K) &&&
          not64 K.LPCR_LPES0) &&& cpu.lpcr_mask ∧
      (∀ (mem2 : AddressSpace) (hv2 : kvmppc_hv_guest_state) (regs2 : kvmppc_pt_regs)
          (now2 : Nat),
        EntryRuns K cpu spapr args mem2 tb hv2 regs2 →
        hv2.lpcr &&& lpcr_from_descriptor K = hv.lpcr &&& lpcr_from_descriptor K →
        ∃ r2, h_enter_nested K cpu spapr opcode args now2 mem2 true = some r2 ∧
          r2.cpu.env.spr Spr.LPCR = r.cpu.env.spr Spr.LPCR) ∧
      r.cpu.env.spr Spr.LPCR &&& K.LPCR_LPES0 = 0 ∧
      (lpcr_forced K < WORD → lpcr_forced K &&& K.LPCR_LPES0 = 0 →
        r.cpu.env.spr Spr.LPCR &&& (lpcr_forced K &&& cpu.lpcr_mask)
          = lpcr_forced K &&& cpu.lpcr_mask) := by
  refine ⟨_, h_enter_nested_runs K cpu spapr opcode args now mem tb hv regs ok, ?_, ?_, ?_, ?_⟩
  · exact entered_lpcr K cpu tb hv regs _
  · intro mem2 hv2 regs2 now2 ok2 hagree
    refine ⟨_, h_enter_nested_runs K cpu spapr opcode args now2 mem2 tb hv2 regs2 ok2, ?_⟩
    show (cpu_ppc_store_hdecr _ _).spr Spr.LPCR = (cpu_ppc_store_hdecr _ _).spr Spr.LPCR
    rw [entered_lpcr, entered_lpcr, hagree]
  · show (cpu_ppc_store_hdecr _ _).spr Spr.LPCR &&& K.LPCR_LPES0 = 0
    rw [entered_lpcr]
    apply Nat.eq_of_testBit_eq
    intro i
    simp only [Nat.testBit_and, Nat.testBit_or, not64_testBit, Nat.zero_testBit]
    cases K.LPCR_LPES0.testBit i <;> simp
  · intro hF hFP
    show (cpu_ppc_store_hdecr _ _).spr Spr.LPCR &&& _ = _
    rw [entered_lpcr]
    apply Nat.eq_of_testBit_eq
    intro i
    have hbit : (lpcr_forced K).testBit i = true → i < 64 := by
      intro hb
      by_contra hge
      have hlt : lpcr_forced K < 2 ^ i :=
        Nat.lt_of_lt_of_le hF (Nat.pow_le_pow_right (by decide) (by omega))
      rw [Nat.testBit_lt_two_pow hlt] at hb
      exact absurd hb (by decide)
    have hdis : ((lpcr_forced K).testBit i && K.LPCR_LPES0.testBit i) = false := by
      rw [← Nat.testBit_and, hFP, Nat.zero_testBit]
    simp only [Nat.testBit_and, Nat.testBit_or, not64_testBit]
    cases hf : (lpcr_forced K).testBit i
    · simp
    · have h64 : decide (i < 64) = true := by simpa using hbit hf
      rw [hf] at hdis
      have hp : K.LPCR_LPES0.testBit i = false := by simpa using hdis
      simp [h64, hp]

/-- Witness for C11 on the demo machine, where the live LPCR and the
descriptor's `lpcr` are 0: the L2 LPCR is exactly the forced bits
HR|UPRT|GTSE|HVICE|HDICE = `0x500403`. -/
theorem h_enter_nested_lpcr_merge_witness :
    ∃ r, h_enter_nested qemu_consts demo_cpu ready_spapr 0 (mk_args 104 105 0) 4000
        demo_mem true = some r ∧
      r.cpu.env.spr Spr.LPCR = 0x500403 ∧
      r.cpu.env.spr Spr.LPCR &&& qemu_consts.LPCR_LPES0 = 0 := by
  obtain ⟨r, hr, hl, -, hp, -⟩ :=
    h_enter_nested_lpcr_merge qemu_consts demo_cpu ready_spapr 0 (mk_args 104 105 0) 4000
      demo_mem demo_tb demo_hv demo_regs demo_entry_runs
  refine ⟨r, hr, ?_, hp⟩
  rw [hl]
  decide

/-- C12: on every complete entry the live context afterwards holds `gpr`,
`lr`, `ctr`, `xer`, `cr`, `msr` and `nip` of the register buffer (`gpr`,
`link`, `ctr`, `xer`, `ccr`, `msr`, `nip`), `cfar` and LPIDR of the descriptor
(`cfar`, `lpid`), PCR, DPDES, HFSCR, SRR0, SRR1, SPRG0-3, PID and PPR of the
descriptor, a `tb_offset` equal to the host's `tb_offset` before the entry plus
the descriptor's `tb_offset` modulo `2 ^ 64`, and a reset reservation address
(-1). -/
theorem h_enter_nested_l2_state (K : Consts) (cpu : PowerPCCPU) (spapr : SpaprMachineState)
    (opcode : Nat) (args : Nat → Nat) (now : Nat) (mem : AddressSpace) (tb : ppc_tb_t)
    (hv : kvmppc_hv_guest_state) (regs : kvmppc_pt_regs)
    (ok : EntryRuns K cpu spapr args mem tb hv regs) :
    ∃ r, h_enter_nested K cpu spapr opcode args now mem true = some r ∧
      (r.cpu.env.gpr = regs.gpr ∧ r.cpu.env.lr = regs.link ∧ r.cpu.env.ctr = regs.ctr ∧
        cpu_read_xer r.cpu.env = regs.xer ∧ ppc_get_cr r.cpu.env = regs.ccr ∧
        r.cpu.env.msr = regs.msr ∧ r.cpu.env.nip = regs.nip) ∧
      (r.cpu.env.cfar = hv.cfar ∧ r.cpu.env.spr Spr.LPIDR = hv.lpid) ∧
      (r.cpu.env.spr Spr.PCR = hv.pcr ∧ r.cpu.env.spr Spr.DPDES = hv.dpdes ∧
        r.cpu.env.spr Spr.HFSCR = hv.hfscr ∧ r.cpu.env.spr Spr.SRR0 = hv.srr0 ∧
        r.cpu.env.spr Spr.SRR1 = hv.srr1 ∧ r.cpu.env.spr Spr.SPRG0 = hv.sprg 0 ∧
        r.cpu.env.spr Spr.SPRG1 = hv.sprg 1 ∧ r.cpu.env.spr Spr.SPRG2 = hv.sprg 2 ∧
        r.cpu.env.spr Spr.SPRG3 = hv.sprg 3 ∧ r.cpu.env.spr Spr.BOOKS_PID = hv.pidr ∧
        r.cpu.env.spr Spr.PPR = hv.ppr) ∧
      r.cpu.env.tb_env.map (fun t => t.tb_offset)
        = some ((tb.tb_offset + hv.tb_offset) % WORD) ∧
      r.cpu.env.reserve_addr = WORD - 1 :=
  ⟨_, h_enter_nested_runs K cpu spapr opcode args now mem tb hv regs ok,
    ⟨rfl, rfl, rfl, rfl, rfl, rfl, rfl⟩, ⟨rfl, rfl⟩,
    ⟨rfl, rfl, rfl, rfl, rfl, rfl, rfl, rfl, rfl, rfl, rfl⟩, rfl, rfl⟩

/-- Witness for C12 on the demo machine: after the entry `gpr[7]` is the
buffer's 207, `lr` its `link` 44, LPIDR the descriptor's lpid 7 and the
timebase offset 5 + 24. -/
theorem h_enter_nested_l2_state_witness :
    ∃ r, h_enter_nested qemu_consts demo_cpu ready_spapr 0 (mk_args 104 105 0) 4000
        demo_mem true = some r ∧
      r.cpu.env.gpr 7 = 207 ∧ r.cpu.env.lr = 44 ∧ r.cpu.env.spr Spr.LPIDR = 7 ∧
      r.cpu.env.tb_env.map (fun t => t.tb_offset) = some 29 := by
  obtain ⟨r, hr, ⟨hg, hlr, -⟩, ⟨-, hlp⟩, -, htb, -⟩ :=
    h_enter_nested_l2_state qemu_consts demo_cpu ready_spapr 0 (mk_args 104 105 0) 4000
      demo_mem demo_tb demo_hv demo_regs demo_entry_runs
  refine ⟨r, hr, ?_, ?_, ?_, ?_⟩
  · rw [hg]; rfl
  · rw [hlr]; rfl
  · rw [hlp]; rfl
  · rw [htb]; rfl

/-- Writing back the value a register already holds changes nothing. -/
theorem set_gpr_self (env : CPUPPCState) (i : Fin 32) : set_gpr env i (env.gpr i) = env := by
  cases env
  simp [set_gpr]

/-- C18: on every complete entry the value the handler returns is the live
`gpr[3]` after the switch, which is the register buffer's `gpr[3]`; storing
the returned value into `gpr[3]`, as the hypercall dispatcher does, leaves the
L2 context as it is. -/
theorem h_enter_nested_keeps_r3 (K : Consts) (cpu : PowerPCCPU) (spapr : SpaprMachineState)
    (opcode : Nat) (args : Nat → Nat) (now : Nat) (mem : AddressSpace) (tb : ppc_tb_t)
    (hv : kvmppc_hv_guest_state) (regs : kvmppc_pt_regs)
    (ok : EntryRuns K cpu spapr args mem tb hv regs) :
    ∃ r, h_enter_nested K cpu spapr opcode args now mem true = some r ∧
      r.ret = r.cpu.env.gpr 3 ∧ r.cpu.env.gpr 3 = regs.gpr 3 ∧
      set_gpr r.cpu.env 3 r.ret = r.cpu.env := by
  exact ⟨_, h_enter_nested_runs K cpu spapr opcode args now mem tb hv regs ok, rfl, rfl,
    set_gpr_self _ 3⟩

/-- Witness for C18 on the demo machine: the handler returns 203, the
buffer's `gpr[3]`. -/
theorem h_enter_nested_keeps_r3_witness :
    ∃ r, h_enter_nested qemu_consts demo_cpu ready_spapr 0 (mk_args 104 105 0) 4000
        demo_mem true = some r ∧
      r.ret = 203 ∧ r.cpu.env.gpr 3 = 203 ∧ set_gpr r.cpu.env 3 r.ret = r.cpu.env := by
  obtain ⟨r, hr, h1, h2, h3⟩ :=
    h_enter_nested_keeps_r3 qemu_consts demo_cpu ready_spapr 0 (mk_args 104 105 0) 4000
      demo_mem demo_tb demo_hv demo_regs demo_entry_runs
  exact ⟨r, hr, h1.trans h2, h2, h3⟩

/-- C13 fails as stated: with `ptcr` set, a descriptor with version 1, lpid 7
and `hdec_expiry = now + 1000` (`now = 4000`), both structures mapping whole
and the allocation succeeding, the entry completes (`in_nested` becomes true)
and yet the handler returns the value of `H_PARAMETER`, because that is what
the register buffer holds in `gpr[3]`. -/
theorem h_enter_nested_return_value_counterexample :
    ready_spapr.nested.ptcr ≠ 0 ∧ demo_hv.version = 1 ∧ demo_hv.lpid = 7 ∧
    demo_hv.hdec_expiry = 4000 + 1000 ∧
    param_mem.map_hv 104 false = Mapping.full qemu_consts.sizeof_hvstate demo_hv ∧
    param_mem.map_regs 105 false = Mapping.full qemu_consts.sizeof_regs param_regs ∧
    ∃ r, h_enter_nested qemu_consts demo_cpu ready_spapr 0 (mk_args 104 105 0) 4000
        param_mem true = some r ∧
      r.ret = qemu_consts.H_PARAMETER ∧ r.cpu.spapr_cpu.in_nested = true :=
  ⟨by decide, rfl, rfl, rfl, rfl, rfl, _, rfl, rfl, rfl⟩

/-- C13 (amended): on every complete entry (so in the scenario with `ptcr`
set, an accepted version such as 1, lpid 7, both structures mapping whole, the
allocation succeeding and the host's LPIDR and DPDES zero) the handler
returns the register buffer's `gpr[3]`, `in_nested` becomes true and the
hypervisor decrementer is stored with `hdec_expiry - now` modulo `2 ^ 64`,
which is exactly 1000 when `hdec_expiry = now + 1000`. The returned value is
none of `H_NOT_AVAILABLE`, `H_PARAMETER`, `H_NO_MEM`, `H_P2` as long as the
buffer's `gpr[3]` is none of them. -/
theorem h_enter_nested_scenario (K : Consts) (cpu : PowerPCCPU) (spapr : SpaprMachineState)
    (opcode : Nat) (args : Nat → Nat) (now : Nat) (mem : AddressSpace) (tb : ppc_tb_t)
    (hv : kvmppc_hv_guest_state) (regs : kvmppc_pt_regs)
    (ok : EntryRuns K cpu spapr args mem tb hv regs) :
    ∃ r, h_enter_nested K cpu spapr opcode args now mem true = some r ∧
      r.ret = regs.gpr 3 ∧
      r.cpu.spapr_cpu.in_nested = true ∧
      r.cpu.env.tb_env.map (fun t => t.hdecr) = some (enter_hdec hv now) ∧
      ((enter_hdec hv now : Nat) : Int)
        = ((hv.hdec_expiry : Int) - (now : Int)) % 18446744073709551616 ∧
      (hv.hdec_expiry % WORD = (now + 1000) % WORD → enter_hdec hv now = 1000) ∧
      (regs.gpr 3 ≠ K.H_NOT_AVAILABLE → regs.gpr 3 ≠ K.H_PARAMETER →
        regs.gpr 3 ≠ K.H_NO_MEM → regs.gpr 3 ≠ K.H_P2 →
        r.ret ≠ K.H_NOT_AVAILABLE ∧ r.ret ≠ K.H_PARAMETER ∧ r.ret ≠ K.H_NO_MEM ∧
        r.ret ≠ K.H_P2) := by
  refine ⟨_, h_enter_nested_runs K cpu spapr opcode args now mem tb hv regs ok, rfl, rfl, rfl,
    ?_, ?_, fun h1 h2 h3 h4 => ⟨h1, h2, h3, h4⟩⟩
  · simp only [enter_hdec, WORD, Nat.reducePow]
    omega
  · intro h
    simp only [enter_hdec, WORD, Nat.reducePow] at h ⊢
    omega

/-- Witness for the amended C13 on the demo machine (version 1, lpid 7,
`hdec_expiry = 5000`, `now = 4000`): the entry completes, the decrementer is
stored with 1000 and the returned 203 is no status code. -/
theorem h_enter_nested_scenario_witness :
    demo_hv.version = 1 ∧ demo_hv.lpid = 7 ∧ demo_hv.hdec_expiry = 4000 + 1000 ∧
    ∃ r, h_enter_nested qemu_consts demo_cpu ready_spapr 0 (mk_args 104 105 0) 4000
        demo_mem true = some r ∧
      r.ret = 203 ∧ r.cpu.spapr_cpu.in_nested = true ∧
      r.cpu.env.tb_env.map (fun t => t.hdecr) = some 1000 ∧
      r.ret ≠ qemu_consts.H_PARAMETER := by
  obtain ⟨r, hr, h1, h2, h3, -, h5, h6⟩ :=
    h_enter_nested_scenario qemu_consts demo_cpu ready_spapr 0 (mk_args 104 105 0) 4000
      demo_mem demo_tb demo_hv demo_regs demo_entry_runs
  refine ⟨rfl, rfl, rfl, r, hr, h1, h2, ?_, ?_⟩
  · rw [h3, h5 (by decide)]
  · exact (h6 (by decide) (by decide) (by decide) (by decide)).2.1

/-- Every run of `h_enter_nested` is an abort, one of the four error
returns, or a complete entry. -/
theorem h_enter_nested_cases (K : Consts) (cpu : PowerPCCPU) (spapr : SpaprMachineState)
    (opcode : Nat) (args : Nat → Nat) (now : Nat) (mem : AddressSpace) (alloc_ok : Bool) :
    h_enter_nested K cpu spapr opcode args now mem alloc_ok = none ∨
    (spapr.nested.ptcr = 0 ∧
      h_enter_nested K cpu spapr opcode args now mem alloc_ok
        = some ⟨K.H_NOT_AVAILABLE, cpu, spapr⟩) ∨
    (spapr.nested.ptcr ≠ 0 ∧
      h_enter_nested K cpu spapr opcode args now mem alloc_ok
        = some ⟨K.H_PARAMETER, cpu, spapr⟩) ∨
    (spapr.nested.ptcr ≠ 0 ∧
      h_enter_nested K cpu spapr opcode args now mem alloc_ok
        = some ⟨K.H_NO_MEM, with_host_state cpu .null, spapr⟩) ∨
    (spapr.nested.ptcr ≠ 0 ∧
      h_enter_nested K cpu spapr opcode args now mem alloc_ok
        = some ⟨K.H_P2, with_host_state cpu .freed, spapr⟩) ∨
    (alloc_ok = true ∧ ∃ tb hv regs, EntryRuns K cpu spapr args mem tb hv regs) := by
  by_cases hp : spapr.nested.ptcr = 0
  · right; left
    refine ⟨hp, ?_⟩
    simp only [h_enter_nested]
    rw [if_pos hp]
    rfl
  by_cases hl : (mem.map_hv (args 0) false).len ≠ K.sizeof_hvstate
  · right; right; left
    refine ⟨hp, ?_⟩
    simp only [h_enter_nested]
    rw [if_neg hp, if_pos hl]
    rfl
  cases hptr : (mem.map_hv (args 0) false).ptr with
  | none =>
    left
    simp only [h_enter_nested]
    rw [if_neg hp, if_neg hl]
    simp only [hptr]
  | some hv =>
    by_cases hver : hv.version > K.HV_GUEST_STATE_VERSION
    · right; right; left
      refine ⟨hp, ?_⟩
      simp only [h_enter_nested]
      rw [if_neg hp, if_neg hl]
      simp only [hptr]
      rw [if_pos hver]
      rfl
    by_cases hlpid : hv.lpid = 0
    · right; right; left
      refine ⟨hp, ?_⟩
      simp only [h_enter_nested]
      rw [if_neg hp, if_neg hl]
      simp only [hptr]
      rw [if_neg hver, if_pos hlpid]
      rfl
    by_cases ha : alloc_ok = true
    swap
    · right; right; right; left
      refine ⟨hp, ?_⟩
      simp only [h_enter_nested]
      rw [if_neg hp, if_neg hl]
      simp only [hptr]
      rw [if_neg hver, if_neg hlpid, if_pos ha]
      rfl
    by_cases hlpidr : cpu.env.spr Spr.LPIDR ≠ 0
    · left
      simp only [h_enter_nested]
      rw [if_neg hp, if_neg hl]
      simp only [hptr]
      rw [if_neg hver, if_neg hlpid, if_neg (not_not.mpr ha), if_pos hlpidr]
    by_cases hdpdes : cpu.env.spr Spr.DPDES ≠ 0
    · left
      simp only [h_enter_nested]
      rw [if_neg hp, if_neg hl]
      simp only [hptr]
      rw [if_neg hver, if_neg hlpid, if_neg (not_not.mpr ha), if_neg hlpidr, if_pos hdpdes]
    cases htb : cpu.env.tb_env with
    | none =>
      left
      simp only [h_enter_nested]
      rw [if_neg hp, if_neg hl]
      simp only [hptr]
      rw [if_neg hver, if_neg hlpid, if_neg (not_not.mpr ha), if_neg hlpidr, if_neg hdpdes]
      simp only [nested_save_state, htb]
    | some tb =>
      by_cases hr : (mem.map_regs (args 1) false).ptr.isNone = true ∨
          (mem.map_regs (args 1) false).len ≠ K.sizeof_regs
      · right; right; right; right; left
        refine ⟨hp, ?_⟩
        simp only [h_enter_nested]
        rw [if_neg hp, if_neg hl]
        simp only [hptr]
        rw [if_neg hver, if_neg hlpid, if_neg (not_not.mpr ha), if_neg hlpidr, if_neg hdpdes]
        simp only [nested_save_state_eq cpu.env tb htb]
        rw [if_pos hr]
        rfl
      · right; right; right; right; right
        refine ⟨ha, tb, hv, ?_⟩
        cases hrp : (mem.map_regs (args 1) false).ptr with
        | none => exact absurd (Or.inl (by simp [hrp])) hr
        | some regs =>
          refine ⟨regs, hp, ?_, by omega, hlpid, by simpa using hlpidr, by simpa using hdpdes,
            htb, ?_⟩
          · have hlen : (mem.map_hv (args 0) false).len = K.sizeof_hvstate := by
              simpa using hl
            cases hm : mem.map_hv (args 0) false with
            | mk p l =>
              rw [hm] at hptr hlen
              simp only at hptr hlen
              rw [hptr, hlen]
              rfl
          · have hlen : (mem.map_regs (args 1) false).len = K.sizeof_regs := by
              by_contra hne
              exact hr (Or.inr hne)
            cases hm : mem.map_regs (args 1) false with
            | mk p l =>
              rw [hm] at hrp hlen
              simp only at hrp hlen
              rw [hrp, hlen]
              rfl

/-- C14: `h_enter_nested` returns `H_NOT_AVAILABLE` when `ptcr` is 0;
otherwise `H_PARAMETER` when the descriptor maps at the wrong size or has a
version above `HV_GUEST_STATE_VERSION` or lpid 0; otherwise `H_NO_MEM` when the
host snapshot cannot be allocated; otherwise, the assertions on the host's
LPIDR and DPDES holding, `H_P2` when the register buffer fails to map. After
each of these returns, and after every return of a run that is not a
complete entry, the live register context, the hypervisor decrementer and
`in_nested` are exactly as before the call. -/
theorem h_enter_nested_fail_closed (K : Consts) (cpu : PowerPCCPU) (spapr : SpaprMachineState)
    (opcode : Nat) (args : Nat → Nat) (now : Nat) (mem : AddressSpace) :
    (spapr.nested.ptcr = 0 → ∀ alloc_ok,
      ∃ r, h_enter_nested K cpu spapr opcode args now mem alloc_ok = some r ∧
        r.ret = K.H_NOT_AVAILABLE ∧ entry_left_alone cpu spapr r) ∧
    (spapr.nested.ptcr ≠ 0 →
      ((mem.map_hv (args 0) false).len ≠ K.sizeof_hvstate ∨
        ∃ hv, (mem.map_hv (args 0) false).ptr = some hv ∧
          (hv.version > K.HV_GUEST_STATE_VERSION ∨ hv.lpid = 0)) →
      ∀ alloc_ok,
      ∃ r, h_enter_nested K cpu spapr opcode args now mem alloc_ok = some r ∧
        r.ret = K.H_PARAMETER ∧ entry_left_alone cpu spapr r) ∧
    (∀ hv, spapr.nested.ptcr ≠ 0 →
      mem.map_hv (args 0) false = Mapping.full K.sizeof_hvstate hv →
      hv.version ≤ K.HV_GUEST_STATE_VERSION → hv.lpid ≠ 0 →
      ∃ r, h_enter_nested K cpu spapr opcode args now mem false = some r ∧
        r.ret = K.H_NO_MEM ∧ entry_left_alone cpu spapr r) ∧
    (∀ hv tb, spapr.nested.ptcr ≠ 0 →
      mem.map_hv (args 0) false = Mapping.full K.sizeof_hvstate hv →
      hv.version ≤ K.HV_GUEST_STATE_VERSION → hv.lpid ≠ 0 →
      cpu.env.spr Spr.LPIDR = 0 → cpu.env.spr Spr.DPDES = 0 → cpu.env.tb_env = some tb →
      ((mem.map_regs (args 1) false).ptr = none ∨
        (mem.map_regs (args 1) false).len ≠ K.sizeof_regs) →
      ∃ r, h_enter_nested K cpu spapr opcode args now mem true = some r ∧
        r.ret = K.H_P2 ∧ entry_left_alone cpu spapr r) ∧
    (∀ alloc_ok r, h_enter_nested K cpu spapr opcode args now mem alloc_ok = some r →
      ¬ (alloc_ok = true ∧ ∃ tb hv regs, EntryRuns K cpu spapr args mem tb hv regs) →
      entry_left_alone cpu spapr r) := by
  refine ⟨?_, ?_, ?_, ?_, ?_⟩
  · intro hp alloc_ok
    refine ⟨⟨K.H_NOT_AVAILABLE, cpu, spapr⟩, ?_, rfl, rfl, rfl, rfl⟩
    simp only [h_enter_nested]
    rw [if_pos hp]
    rfl
  · intro hp hbad alloc_ok
    refine ⟨⟨K.H_PARAMETER, cpu, spapr⟩, ?_, rfl, rfl, rfl, rfl⟩
    simp only [h_enter_nested]
    rw [if_neg hp]
    by_cases hl : (mem.map_hv (args 0) false).len ≠ K.sizeof_hvstate
    · rw [if_pos hl]
      rfl
    · rw [if_neg hl]
      rcases hbad with h | ⟨hv, hptr, hv_bad⟩
      · exact absurd h hl
      · simp only [hptr]
        by_cases hver : hv.version > K.HV_GUEST_STATE_VERSION
        · rw [if_pos hver]
          rfl
        · rw [if_neg hver, if_pos (hv_bad.resolve_left hver)]
          rfl
  · intro hv hp hm hver hlpid
    refine ⟨⟨K.H_NO_MEM, with_host_state cpu .null, spapr⟩, ?_, rfl, rfl, rfl, rfl⟩
    simp only [h_enter_nested, hm, Mapping.full]
    rw [if_neg hp, if_neg (by simp), if_neg (by omega), if_neg hlpid, if_pos (by simp)]
    rfl
  · intro hv tb hp hm hver hlpid hlpidr hdpdes htb hregs
    refine ⟨⟨K.H_P2, with_host_state cpu .freed, spapr⟩, ?_, rfl, rfl, rfl, rfl⟩
    have hcond : (mem.map_regs (args 1) false).ptr.isNone = true ∨
        (mem.map_regs (args 1) false).len ≠ K.sizeof_regs := by
      rcases hregs with h | h
      · left; simp [h]
      · right; exact h
    simp only [h_enter_nested, hm, Mapping.full, nested_save_state_eq cpu.env tb htb]
    rw [if_neg hp, if_neg (by simp), if_neg (by omega), if_neg hlpid, if_neg (by simp),
      if_neg (by simpa using hlpidr), if_neg (by simpa using hdpdes), if_pos hcond]
    rfl
  · intro alloc_ok r hr hnot
    rcases h_enter_nested_cases K cpu spapr opcode args now mem alloc_ok with
      h | ⟨-, h⟩ | ⟨-, h⟩ | ⟨-, h⟩ | ⟨-, h⟩ | h
    · rw [h] at hr
      exact absurd hr (by simp)
    · rw [h] at hr
      rw [← Option.some.inj hr]
      exact ⟨rfl, rfl, rfl⟩
    · rw [h] at hr
      rw [← Option.some.inj hr]
      exact ⟨rfl, rfl, rfl⟩
    · rw [h] at hr
      rw [← Option.some.inj hr]
      exact ⟨rfl, rfl, rfl⟩
    · rw [h] at hr
      rw [← Option.some.inj hr]
      exact ⟨rfl, rfl, rfl⟩
    · exact absurd h hnot

/-- Witness for C14 on the demo machine: with `ptcr = 0` the call returns
`H_NOT_AVAILABLE` (3), and with `ptcr` set and the register buffer at the
unmapped address 999 it returns `H_P2`; the CPU context is untouched both
times. -/
theorem h_enter_nested_fail_closed_witness :
    (∃ r, h_enter_nested qemu_consts demo_cpu demo_spapr 0 (mk_args 104 105 0) 4000
        demo_mem true = some r ∧ r.ret = 3 ∧ entry_left_alone demo_cpu demo_spapr r) ∧
    (∃ r, h_enter_nested qemu_consts demo_cpu ready_spapr 0 (mk_args 104 999 0) 4000
        demo_mem true = some r ∧ r.ret = neg64 55 ∧ entry_left_alone demo_cpu ready_spapr r) :=
  ⟨(h_enter_nested_fail_closed qemu_consts demo_cpu demo_spapr 0 (mk_args 104 105 0) 4000
      demo_mem).1 rfl true,
    (h_enter_nested_fail_closed qemu_consts demo_cpu ready_spapr 0 (mk_args 104 999 0) 4000
      demo_mem).2.2.2.1 demo_hv demo_tb (by decide) rfl (by decide) (by decide) rfl rfl rfl
      (Or.inl rfl)⟩

/-- C15, the code at the failing input: the demo CPU is not nested and its
`nested_host_state` is `NULL`, so the invariant holds before the call. With the
register buffer at the unmapped address 999, `h_enter_nested` returns `H_P2`
after `g_free(spapr_cpu->nested_host_state)` without resetting the pointer:
`in_nested` is false while `nested_host_state` is not `NULL`, and the invariant
is broken. The complete entry and the exit keep it. -/
theorem h_enter_nested_p2_leaves_stale_pointer :
    nesting_invariant demo_cpu.spapr_cpu ∧
    (∃ r, h_enter_nested qemu_consts demo_cpu ready_spapr 0 (mk_args 104 999 0) 4000
        demo_mem true = some r ∧
      r.ret = qemu_consts.H_P2 ∧ r.cpu.spapr_cpu.in_nested = false ∧
      r.cpu.spapr_cpu.nested_host_state.is_null = false ∧
      ¬ nesting_invariant r.cpu.spapr_cpu) ∧
    (∃ r, h_enter_nested qemu_consts demo_cpu ready_spapr 0 (mk_args 104 105 0) 4000
        demo_mem true = some r ∧ nesting_invariant r.cpu.spapr_cpu) ∧
    (∃ r, spapr_exit_nested qemu_consts demo_l2_cpu 8 demo_mem = some r ∧
      nesting_invariant r.cpu.spapr_cpu) :=
  ⟨by decide, ⟨_, rfl, rfl, rfl, rfl, by decide⟩, ⟨_, rfl, by decide⟩, ⟨_, rfl, by decide⟩⟩

/-- C16 fails as stated: `h_set_ptbl` accepts `ptcr = 0` (size class 0) with
`H_SUCCESS` and stores it, and the following `h_enter_nested` on that machine
returns `H_NOT_AVAILABLE`. -/
theorem h_set_ptbl_zero_counterexample :
    (h_set_ptbl qemu_consts demo_cpu demo_spapr 0 (mk_args 0 0 0)).ret
      = qemu_consts.H_SUCCESS ∧
    (h_enter_nested qemu_consts demo_cpu
        (h_set_ptbl qemu_consts demo_cpu demo_spapr 0 (mk_args 0 0 0)).spapr
        0 (mk_args 104 105 0) 4000 demo_mem true).map (fun r => r.ret)
      = some qemu_consts.H_NOT_AVAILABLE :=
  ⟨rfl, rfl⟩

/-- C16 (amended): a successful `h_set_ptbl` stores its argument. When the
stored `ptcr` is nonzero, a following `h_enter_nested` on that machine never
takes the `H_NOT_AVAILABLE` return: if it returns, it returns `H_PARAMETER`,
`H_NO_MEM` or `H_P2`, or it is a complete entry returning the register
buffer's `gpr[3]`. When the stored `ptcr` is 0, which `h_set_ptbl` accepts, the
following `h_enter_nested` returns `H_NOT_AVAILABLE` and changes nothing. -/
theorem h_set_ptbl_enables_entry (K : Consts) (cpu : PowerPCCPU) (spapr : SpaprMachineState)
    (opcode : Nat) (args : Nat → Nat)
    (hcap : spapr.cap_nested_kvm_hv ≠ 0) (hsz : (args 0 &&& PRTS_MASK) + 12 - 4 ≤ 12) :
    (h_set_ptbl K cpu spapr opcode args).ret = K.H_SUCCESS ∧
    (h_set_ptbl K cpu spapr opcode args).spapr.nested.ptcr = args 0 ∧
    (args 0 ≠ 0 → ∀ (cpu2 : PowerPCCPU) (opcode2 : Nat) (args2 : Nat → Nat) (now : Nat)
        (mem : AddressSpace) (alloc_ok : Bool) (r : HcallResult),
      h_enter_nested K cpu2 (h_set_ptbl K cpu spapr opcode args).spapr opcode2 args2 now mem
        alloc_ok = some r →
      r.ret = K.H_PARAMETER ∨ r.ret = K.H_NO_MEM ∨ r.ret = K.H_P2 ∨
      (r.cpu.spapr_cpu.in_nested = true ∧
        ∃ regs, mem.map_regs (args2 1) false = Mapping.full K.sizeof_regs regs ∧
          r.ret = regs.gpr 3)) ∧
    (args 0 = 0 → ∀ (cpu2 : PowerPCCPU) (opcode2 : Nat) (args2 : Nat → Nat) (now : Nat)
        (mem : AddressSpace) (alloc_ok : Bool),
      h_enter_nested K cpu2 (h_set_ptbl K cpu spapr opcode args).spapr opcode2 args2 now mem
        alloc_ok = some ⟨K.H_NOT_AVAILABLE, cpu2, (h_set_ptbl K cpu spapr opcode args).spapr⟩) := by
  have hset : h_set_ptbl K cpu spapr opcode args =
      ⟨K.H_SUCCESS, cpu, { spapr with nested := { spapr.nested with ptcr := args 0 } }⟩ := by
    simp only [h_set_ptbl]
    rw [if_neg hcap, if_neg (by omega)]
  rw [hset]
  refine ⟨rfl, rfl, ?_, ?_⟩
  · intro hnz cpu2 opcode2 args2 now mem alloc_ok r hr
    rcases h_enter_nested_cases K cpu2 _ opcode2 args2 now mem alloc_ok with
      h | ⟨h0, -⟩ | ⟨-, h⟩ | ⟨-, h⟩ | ⟨-, h⟩ | ⟨ha, tb, hv, regs, ok⟩
    · rw [h] at hr
      exact absurd hr (by simp)
    · exact absurd h0 hnz
    · rw [h] at hr
      rw [← Option.some.inj hr]
      exact Or.inl rfl
    · rw [h] at hr
      rw [← Option.some.inj hr]
      exact Or.inr (Or.inl rfl)
    · rw [h] at hr
      rw [← Option.some.inj hr]
      exact Or.inr (Or.inr (Or.inl rfl))
    · subst ha
      rw [h_enter_nested_runs K cpu2 _ opcode2 args2 now mem tb hv regs ok] at hr
      rw [← Option.some.inj hr]
      exact Or.inr (Or.inr (Or.inr ⟨rfl, regs, ok.regs_mapped, rfl⟩))
  · intro hz cpu2 opcode2 args2 now mem alloc_ok
    simp only [h_enter_nested]
    rw [if_pos hz]
    rfl

/-- Witness for the amended C16 on the demo machine: `h_set_ptbl` with
`ptcr = 0x1004` succeeds and stores it, and the following entry completes,
returning the buffer's `gpr[3]` = 203. -/
theorem h_set_ptbl_enables_entry_witness :
    (h_set_ptbl qemu_consts demo_cpu demo_spapr 0 (mk_args 0x1004 0 0)).ret = 0 ∧
    (h_set_ptbl qemu_consts demo_cpu demo_spapr 0 (mk_args 0x1004 0 0)).spapr.nested.ptcr
      = 0x1004 ∧
    (h_enter_nested qemu_consts demo_cpu
        (h_set_ptbl qemu_consts demo_cpu demo_spapr 0 (mk_args 0x1004 0 0)).spapr
        0 (mk_args 104 105 0) 4000 demo_mem true).map (fun r => r.ret) = some 203 := by
  obtain ⟨h1, h2, -, -⟩ := h_set_ptbl_enables_entry qemu_consts demo_cpu demo_spapr 0
    (mk_args 0x1004 0 0) (by decide) (by decide)
  exact ⟨h1, h2, rfl⟩

/-- The snapshot of the context rebuilt by `spapr_exit_nested`, with `gpr[3]`
overwritten by `code`, is the host snapshot with `code` in `gpr[3]`. -/
theorem save_exit_restored_env (cpu : PowerPCCPU) (tb : ppc_tb_t) (host : nested_ppc_state)
    (excp code : Nat) :
    nested_save_state (set_gpr (exit_restored_env cpu tb host excp) 3 code) =
      some { host with gpr := Function.update host.gpr 3 code } := by
  rw [nested_save_state_eq _ _ rfl]
  simp [exit_restored_env, cpu_ppc_hdecr_exit, set_gpr, loaded_env, loaded_spr]

/-- The context rebuilt by `spapr_exit_nested`, with `gpr[3]` overwritten by
`code`, holds the host snapshot in every loaded field but `gpr[3]`. -/
theorem exit_restored_env_holds (cpu : PowerPCCPU) (tb : ppc_tb_t) (host : nested_ppc_state)
    (excp code : Nat) :
    holds_snapshot (set_gpr (exit_restored_env cpu tb host excp) 3 code) host ∧
    holds_snapshot (exit_restored_env cpu tb host excp) host := by
  constructor
  · refine ⟨?_, rfl, rfl, rfl, rfl, rfl, rfl, rfl, rfl, rfl, rfl, rfl, rfl, rfl, rfl, rfl, rfl,
      rfl, rfl, rfl, rfl, rfl⟩
    intro i hi
    simp [exit_restored_env, cpu_ppc_hdecr_exit, set_gpr, loaded_env, Function.update, hi]
  · refine ⟨?_, rfl, rfl, rfl, rfl, rfl, rfl, rfl, rfl, rfl, rfl, rfl, rfl, rfl, rfl, rfl, rfl,
      rfl, rfl, rfl, rfl, rfl⟩
    intro i hi
    simp [exit_restored_env, cpu_ppc_hdecr_exit, set_gpr, loaded_env, Function.update, hi]

/-- The fields of the descriptor after the write-back of `spapr_exit_nested`
from the live L2 context `env`: the thirteen saved registers come from `env`,
the fields the write-back does not name keep their contents. -/
theorem exit_write_hvstate_fields (K : Consts) (excp : Nat) (env : CPUPPCState)
    (tb : ppc_tb_t) (hdar hdsisr asdr : Nat) (hv : kvmppc_hv_guest_state) :
    (exit_write_hvstate K excp (saved_state env tb) hdar hdsisr asdr hv).cfar = env.cfar ∧
    (exit_write_hvstate K excp (saved_state env tb) hdar hdsisr asdr hv).lpcr
      = env.spr Spr.LPCR ∧
    (exit_write_hvstate K excp (saved_state env tb) hdar hdsisr asdr hv).pcr
      = env.spr Spr.PCR ∧
    (exit_write_hvstate K excp (saved_state env tb) hdar hdsisr asdr hv).dpdes
      = env.spr Spr.DPDES ∧
    (exit_write_hvstate K excp (saved_state env tb) hdar hdsisr asdr hv).hfscr
      = env.spr Spr.HFSCR ∧
    (exit_write_hvstate K excp (saved_state env tb) hdar hdsisr asdr hv).srr0
      = env.spr Spr.SRR0 ∧
    (exit_write_hvstate K excp (saved_state env tb) hdar hdsisr asdr hv).srr1
      = env.spr Spr.SRR1 ∧
    (exit_write_hvstate K excp (saved_state env tb) hdar hdsisr asdr hv).sprg 0
      = env.spr Spr.SPRG0 ∧
    (exit_write_hvstate K excp (saved_state env tb) hdar hdsisr asdr hv).sprg 1
      = env.spr Spr.SPRG1 ∧
    (exit_write_hvstate K excp (saved_state env tb) hdar hdsisr asdr hv).sprg 2
      = env.spr Spr.SPRG2 ∧
    (exit_write_hvstate K excp (saved_state env tb) hdar hdsisr asdr hv).sprg 3
      = env.spr Spr.SPRG3 ∧
    (exit_write_hvstate K excp (saved_state env tb) hdar hdsisr asdr hv).pidr
      = env.spr Spr.BOOKS_PID ∧
    (exit_write_hvstate K excp (saved_state env tb) hdar hdsisr asdr hv).ppr
      = env.spr Spr.PPR ∧
    (exit_write_hvstate K excp (saved_state env tb) hdar hdsisr asdr hv).version
      = hv.version ∧
    (exit_write_hvstate K excp (saved_state env tb) hdar hdsisr asdr hv).lpid = hv.lpid ∧
    (exit_write_hvstate K excp (saved_state env tb) hdar hdsisr asdr hv).vcpu_token
      = hv.vcpu_token ∧
    (exit_write_hvstate K excp (saved_state env tb) hdar hdsisr asdr hv).amor = hv.amor ∧
    (exit_write_hvstate K excp (saved_state env tb) hdar hdsisr asdr hv).tb_offset
      = hv.tb_offset ∧
    (exit_write_hvstate K excp (saved_state env tb) hdar hdsisr asdr hv).hdec_expiry
      = hv.hdec_expiry := by
  unfold exit_write_hvstate
  split_ifs <;>
    exact ⟨rfl, rfl, rfl, rfl, rfl, rfl, rfl, rfl, rfl, rfl, rfl, rfl, rfl, rfl, rfl, rfl, rfl,
      rfl, rfl⟩

/-- C17: once `spapr_exit_nested` has restored the host there is no way back.
If the descriptor does not map at full size, `gpr[3]` ends as `H_PARAMETER` and
neither guest-memory structure is written. If the descriptor maps whole but
the register buffer does not map, `gpr[3]` ends as `H_P2` and the descriptor
has been written: its `cfar`, `lpcr`, `pcr`, `dpdes`, `hfscr`, `srr0`, `srr1`,
`sprg[0..3]`, `pidr` and `ppr` hold the values of the live L2 context read
before the host restore, while `version`, `lpid`, `vcpu_token`, `amor`,
`tb_offset` and `hdec_expiry` keep their contents. In both cases the live
context is the one a successful exit leaves, except for `gpr[3]`: every field
loaded from the saved host snapshot (`gpr` except `gpr[3]`, `lr`, `ctr`,
`cfar`, `msr`, `nip`, `cr`, `xer`, the thirteen SPRs, `tb_offset`) holds the
snapshot's value, as after a successful exit; its snapshot is the saved host
snapshot with the status in `gpr[3]`; `in_nested` is false and
`nested_host_state` is `NULL`. -/
theorem spapr_exit_nested_no_rollback (K : Consts) (cpu : PowerPCCPU) (excp : Nat)
    (mem : AddressSpace) (host : nested_ppc_state) (tb : ppc_tb_t)
    (hhost : cpu.spapr_cpu.nested_host_state = .live host)
    (hin : cpu.spapr_cpu.in_nested = true)
    (htb : cpu.env.tb_env = some tb)
    (hlpid : cpu.env.spr Spr.LPIDR ≠ 0) :
    ((mem.map_hv (host.gpr 4) true).len ≠ K.sizeof_hvstate →
      ∃ r, spapr_exit_nested K cpu excp mem = some r ∧
        r.cpu.env.gpr 3 = K.H_PARAMETER ∧ r.hvstate = none ∧ r.regs = none ∧
        r.cpu.env = set_gpr (exit_restored_env cpu tb host excp) 3 K.H_PARAMETER ∧
        nested_save_state r.cpu.env
          = some { host with gpr := Function.update host.gpr 3 K.H_PARAMETER } ∧
        r.cpu.spapr_cpu.in_nested = false ∧
        r.cpu.spapr_cpu.nested_host_state.is_null = true ∧
        holds_snapshot r.cpu.env host) ∧
    (∀ hv, mem.map_hv (host.gpr 4) true = Mapping.full K.sizeof_hvstate hv →
      ((mem.map_regs (host.gpr 5) true).ptr = none ∨
        (mem.map_regs (host.gpr 5) true).len ≠ K.sizeof_regs) →
      ∃ r, spapr_exit_nested K cpu excp mem = some r ∧
        r.cpu.env.gpr 3 = K.H_P2 ∧
        r.hvstate = some (exit_write_hvstate K excp (saved_state cpu.env tb)
          (cpu.env.spr Spr.HDAR) (cpu.env.spr Spr.HDSISR) (cpu.env.spr Spr.ASDR) hv) ∧
        r.regs = none ∧
        r.cpu.env = set_gpr (exit_restored_env cpu tb host excp) 3 K.H_P2 ∧
        nested_save_state r.cpu.env
          = some { host with gpr := Function.update host.gpr 3 K.H_P2 } ∧
        r.cpu.spapr_cpu.in_nested = false ∧
        r.cpu.spapr_cpu.nested_host_state.is_null = true ∧
        holds_snapshot r.cpu.env host ∧
        ∃ hv', r.hvstate = some hv' ∧
          hv'.cfar = cpu.env.cfar ∧
          hv'.lpcr = cpu.env.spr Spr.LPCR ∧
          hv'.pcr = cpu.env.spr Spr.PCR ∧
          hv'.dpdes = cpu.env.spr Spr.DPDES ∧
          hv'.hfscr = cpu.env.spr Spr.HFSCR ∧
          hv'.srr0 = cpu.env.spr Spr.SRR0 ∧
          hv'.srr1 = cpu.env.spr Spr.SRR1 ∧
          hv'.sprg 0 = cpu.env.spr Spr.SPRG0 ∧
          hv'.sprg 1 = cpu.env.spr Spr.SPRG1 ∧
          hv'.sprg 2 = cpu.env.spr Spr.SPRG2 ∧
          hv'.sprg 3 = cpu.env.spr Spr.SPRG3 ∧
          hv'.pidr = cpu.env.spr Spr.BOOKS_PID ∧
          hv'.ppr = cpu.env.spr Spr.PPR ∧
          hv'.version = hv.version ∧ hv'.lpid = hv.lpid ∧
          hv'.vcpu_token = hv.vcpu_token ∧ hv'.amor = hv.amor ∧
          hv'.tb_offset = hv.tb_offset ∧ hv'.hdec_expiry = hv.hdec_expiry) ∧
    (∀ hv regs, mem.map_hv (host.gpr 4) true = Mapping.full K.sizeof_hvstate hv →
      mem.map_regs (host.gpr 5) true = Mapping.full K.sizeof_regs regs →
      ∃ r, spapr_exit_nested K cpu excp mem = some r ∧
        r.cpu.env = exit_restored_env cpu tb host excp ∧
        r.cpu.env.gpr 3 = cpu.env.excp_vectors excp ∧
        r.cpu.spapr_cpu.in_nested = false ∧
        r.cpu.spapr_cpu.nested_host_state.is_null = true ∧
        holds_snapshot r.cpu.env host) := by
  have hsave := nested_save_state_eq cpu.env tb htb
  have hload := nested_load_state_eq cpu.env host tb htb
  refine ⟨?_, ?_, ?_⟩
  · intro hlen
    refine ⟨⟨{ cpu with
        env := set_gpr (exit_restored_env cpu tb host excp) 3 K.H_PARAMETER,
        spapr_cpu := { in_nested := false, nested_host_state := .null } }, none, none⟩,
      ?_, ?_, rfl, rfl, rfl, save_exit_restored_env cpu tb host excp _, rfl, rfl,
      (exit_restored_env_holds cpu tb host excp K.H_PARAMETER).1⟩
    · simp only [spapr_exit_nested, hhost, hin, hsave, hload]
      rw [if_neg (by simp), if_neg (by simpa using hlpid), if_pos hlen]
      rfl
    · simp [set_gpr]
  · intro hv hm hregs
    have hcond : (mem.map_regs (host.gpr 5) true).ptr.isNone = true ∨
        (mem.map_regs (host.gpr 5) true).len ≠ K.sizeof_regs := by
      rcases hregs with h | h
      · left; simp [h]
      · right; exact h
    refine ⟨⟨{ cpu with
        env := set_gpr (exit_restored_env cpu tb host excp) 3 K.H_P2,
        spapr_cpu := { in_nested := false, nested_host_state := .null } },
        some (exit_write_hvstate K excp (saved_state cpu.env tb)
          (cpu.env.spr Spr.HDAR) (cpu.env.spr Spr.HDSISR) (cpu.env.spr Spr.ASDR) hv), none⟩,
      ?_, ?_, rfl, rfl, rfl, save_exit_restored_env cpu tb host excp _, rfl, rfl,
      (exit_restored_env_holds cpu tb host excp K.H_P2).1, _, rfl,
      exit_write_hvstate_fields K excp cpu.env tb _ _ _ hv⟩
    · simp only [spapr_exit_nested, hhost, hin, hsave, hload, hm, Mapping.full]
      rw [if_neg (by simp), if_neg (by simpa using hlpid), if_neg (by simp), if_pos hcond]
      rfl
    · simp [set_gpr]
  · intro hv regs hm hr
    refine ⟨_, spapr_exit_nested_full K cpu excp mem host _ _ hv regs hhost hin hsave hlpid
      hload hm hr, rfl, ?_, rfl, rfl, (exit_restored_env_holds cpu tb host excp 0).2⟩
    simp [cpu_ppc_hdecr_exit, set_gpr]

/-- Witness for C17 on the demo L2, system-call exit. With an address space
that maps nothing the exit ends with `H_PARAMETER` in `gpr[3]`, neither
structure written, the host's `gpr[4]` = 104 restored and `in_nested` false.
With an address space that maps the descriptor but not the register buffer
the exit ends with `H_P2` in `gpr[3]`, the register buffer not written, and
the descriptor written: `cfar` 13, `pcr` 0, `srr0` `0x51`, `srr1` `0x152` of
the live L2 replace the previous 28, 21, 25, 26, while `lpid` stays 7; the
host's `gpr[4]` = 104 and `lr` = 11 are restored and `in_nested` is false. -/
theorem spapr_exit_nested_no_rollback_witness :
    (∃ r, spapr_exit_nested qemu_consts demo_l2_cpu 8
        ⟨fun _ _ => ⟨none, 0⟩, fun _ _ => ⟨none, 0⟩⟩ = some r ∧
      r.cpu.env.gpr 3 = neg64 4 ∧ r.hvstate = none ∧ r.regs = none ∧
      r.cpu.env.gpr 4 = 104 ∧ r.cpu.spapr_cpu.in_nested = false) ∧
    (∃ r hv', spapr_exit_nested qemu_consts demo_l2_cpu 8 hv_only_mem = some r ∧
      r.cpu.env.gpr 3 = neg64 55 ∧ r.regs = none ∧ r.hvstate = some hv' ∧
      hv'.cfar = 13 ∧ hv'.pcr = 0 ∧ hv'.srr0 = 0x51 ∧ hv'.srr1 = 0x152 ∧ hv'.lpid = 7 ∧
      demo_hv.cfar = 28 ∧ demo_hv.pcr = 21 ∧ demo_hv.srr0 = 25 ∧ demo_hv.srr1 = 26 ∧
      r.cpu.env.gpr 4 = 104 ∧ r.cpu.env.lr = 11 ∧ r.cpu.spapr_cpu.in_nested = false) := by
  constructor
  · obtain ⟨r, hr, h1, h2, h3, h4, -, h6, -, -⟩ :=
      (spapr_exit_nested_no_rollback qemu_consts demo_l2_cpu 8
        ⟨fun _ _ => ⟨none, 0⟩, fun _ _ => ⟨none, 0⟩⟩ demo_host demo_tb rfl rfl rfl
        (by decide)).1 (by decide)
    refine ⟨r, hr, h1, h2, h3, ?_, h6⟩
    rw [h4]
    rfl
  · obtain ⟨r, hr, h1, -, h3, -, -, h6, -, hs, hv', hh, hcfar, -, hpcr, -, -, hsrr0, hsrr1,
        -, -, -, -, -, -, -, hlpidv, -, -, -, -⟩ :=
      (spapr_exit_nested_no_rollback qemu_consts demo_l2_cpu 8 hv_only_mem demo_host demo_tb
        rfl rfl rfl (by decide)).2.1 demo_hv rfl (Or.inl rfl)
    exact ⟨r, hv', hr, h1, h3, hh, hcfar, hpcr, hsrr0, hsrr1, hlpidv, rfl, rfl, rfl, rfl,
      hs.1 4 (by decide), hs.2.1, h6⟩

/-- What the lpid search returns, given enough iterations: every id from the
start up to the result is taken, the result is free when it lies below
`lpid_max`, and it does not pass `lpid_max`. -/
theorem lookup_lpid_spec (guests : GuestTable) (lpid_max : Nat) :
    ∀ (fuel lpid : Nat), lpid_max - lpid ≤ fuel →
      lpid ≤ lookup_lpid guests lpid_max fuel lpid ∧
      (∀ k, lpid ≤ k → k < lookup_lpid guests lpid_max fuel lpid →
        (g_hash_table_lookup guests k).isSome = true) ∧
      (lookup_lpid guests lpid_max fuel lpid < lpid_max →
        g_hash_table_lookup guests (lookup_lpid guests lpid_max fuel lpid) = none) ∧
      (lpid ≤ lpid_max → lookup_lpid guests lpid_max fuel lpid ≤ lpid_max) := by
  intro fuel
  induction fuel with
  | zero =>
    intro lpid h
    simp only [lookup_lpid]
    exact ⟨le_refl _, fun k h1 h2 => by omega, fun h' => by omega, fun h' => h'⟩
  | succ fuel ih =>
    intro lpid h
    simp only [lookup_lpid]
    by_cases hl : lpid < lpid_max
    · rw [if_pos hl]
      by_cases hn : (g_hash_table_lookup guests lpid).isNone = true
      · rw [if_pos hn]
        exact ⟨le_refl _, fun k h1 h2 => by omega,
          fun _ => Option.isNone_iff_eq_none.mp hn, fun h' => h'⟩
      · rw [if_neg hn]
        obtain ⟨i1, i2, i3, i4⟩ := ih (lpid + 1) (by omega)
        refine ⟨by omega, ?_, i3, fun _ => i4 (by omega)⟩
        intro k h1 h2
        by_cases hk : k = lpid
        · rw [hk]
          cases hx : g_hash_table_lookup guests lpid with
          | none => simp [hx] at hn
          | some g => rfl
        · exact i2 k (by omega) h2
    · rw [if_neg hl]
      exact ⟨le_refl _, fun k h1 h2 => by omega, fun h' => absurd h' hl, fun h' => h'⟩

/-- A lookup through `spapr_get_nested_guest` is a lookup in the registry
table. -/
theorem spapr_get_nested_guest_table (spapr : SpaprMachineState) (k : Nat) :
    spapr_get_nested_guest spapr k = g_hash_table_lookup (registry_table spapr) k := by
  simp only [spapr_get_nested_guest, registry_table]
  cases spapr.nested.guests <;> rfl

/-- The lazy initialisation does not change what the registry holds. -/
theorem registry_init_table (K : Consts) (spapr : SpaprMachineState) (k : Nat) :
    spapr_get_nested_guest (registry_init K spapr) k = spapr_get_nested_guest spapr k := by
  obtain ⟨c1, c2, ⟨ptcr, cs, pb, lm, guests⟩⟩ := spapr
  cases guests <;> rfl

/-- The handler `h_guest_create` as one chain of tests over the initialised
registry. -/
theorem h_guest_create_eq (K : Consts) (cpu : PowerPCCPU) (spapr : SpaprMachineState)
    (opcode : Nat) (args : Nat → Nat) (alloc_ok : Bool) :
    h_guest_create K cpu spapr opcode args alloc_ok =
      if args 0 ≠ 0 then ⟨K.H_UNSUPPORTED_FLAG, cpu, spapr⟩
      else if args 1 ≠ WORD - 1 then ⟨K.H_P2, cpu, spapr⟩
      else if spapr.cap_nested_papr = 0 then ⟨K.H_FUNCTION, cpu, spapr⟩
      else if ¬ spapr.nested.capabilities_set then ⟨K.H_STATE, cpu, spapr⟩
      else if g_hash_table_size (registry_table spapr) = registry_max K spapr then
        ⟨K.H_NO_MEM, cpu, registry_init K spapr⟩
      else if found_lpid K spapr = registry_max K spapr then
        ⟨K.H_NO_MEM, cpu, registry_init K spapr⟩
      else if ¬ alloc_ok then ⟨K.H_NO_MEM, cpu, registry_init K spapr⟩
      else
        ⟨K.H_SUCCESS, { cpu with env := set_gpr cpu.env 4 (found_lpid K spapr) },
          { registry_init K spapr with nested :=
            { (registry_init K spapr).nested with guests := (some (g_hash_table_insert
                (registry_table spapr) (found_lpid K spapr)
                { pvr_logical := spapr.nested.pvr_base, vcpus := 0, vcpu := [] })) } }⟩ := by
  obtain ⟨c1, c2, ⟨ptcr, cs, pb, lm, guests⟩⟩ := spapr
  cases guests <;> rfl

/-- C19: id selection of `h_guest_create`, for every registry (any set of
used ids) whose `lpid_max` is at least 1 once it exists. A call that returns
`H_SUCCESS` returns in `gpr[4]` the smallest id >= 1 that is no key of the
registry, stores under it a new guest with `pvr_logical = nested.pvr_base` and
no vCPU, changes no other register and leaves every other entry as it was. A
call that does not return `H_SUCCESS` (nonzero flags, continue token != -1,
capability off, capabilities not negotiated, registry full or no free id,
allocation failure) leaves the CPU, so `gpr[4]` too, and every entry of the
registry as they were. The status codes of the failures are taken to differ
from `H_SUCCESS`. -/
theorem h_guest_create_id_selection (K : Consts) (cpu : PowerPCCPU)
    (spapr : SpaprMachineState) (opcode : Nat) (args : Nat → Nat) (alloc_ok : Bool)
    (r : HcallResult)
    (hr : r = h_guest_create K cpu spapr opcode args alloc_ok)
    (hmax : spapr.nested.guests ≠ none → 1 ≤ spapr.nested.lpid_max)
    (hcodes : K.H_SUCCESS ≠ K.H_UNSUPPORTED_FLAG ∧ K.H_SUCCESS ≠ K.H_P2 ∧
      K.H_SUCCESS ≠ K.H_FUNCTION ∧ K.H_SUCCESS ≠ K.H_STATE ∧ K.H_SUCCESS ≠ K.H_NO_MEM) :
    (r.ret = K.H_SUCCESS →
      r.cpu = { cpu with env := set_gpr cpu.env 4 (r.cpu.env.gpr 4) } ∧
      1 ≤ r.cpu.env.gpr 4 ∧
      spapr_get_nested_guest spapr (r.cpu.env.gpr 4) = none ∧
      (∀ k, 1 ≤ k → k < r.cpu.env.gpr 4 →
        (spapr_get_nested_guest spapr k).isSome = true) ∧
      spapr_get_nested_guest r.spapr (r.cpu.env.gpr 4)
        = some { pvr_logical := spapr.nested.pvr_base, vcpus := 0, vcpu := [] } ∧
      (∀ k, k ≠ r.cpu.env.gpr 4 →
        spapr_get_nested_guest r.spapr k = spapr_get_nested_guest spapr k)) ∧
    (r.ret ≠ K.H_SUCCESS →
      r.cpu = cpu ∧ ∀ k, spapr_get_nested_guest r.spapr k = spapr_get_nested_guest spapr k) ∧
    (r.ret = K.H_SUCCESS ↔
      (args 0 = 0 ∧ args 1 = WORD - 1 ∧ spapr.cap_nested_papr ≠ 0 ∧
        spapr.nested.capabilities_set = true ∧
        g_hash_table_size (registry_table spapr) ≠ registry_max K spapr ∧
        found_lpid K spapr ≠ registry_max K spapr ∧ alloc_ok = true)) := by
  obtain ⟨c1, c2, c3, c4, c5⟩ := hcodes
  subst hr
  rw [h_guest_create_eq]
  by_cases h0 : args 0 ≠ 0
  · rw [if_pos h0]
    exact ⟨fun h => absurd h.symm c1, fun _ => ⟨rfl, fun _ => rfl⟩,
      fun h => absurd h.symm c1, fun h => absurd h.1 h0⟩
  rw [if_neg h0]
  by_cases h1 : args 1 ≠ WORD - 1
  · rw [if_pos h1]
    exact ⟨fun h => absurd h.symm c2, fun _ => ⟨rfl, fun _ => rfl⟩,
      fun h => absurd h.symm c2, fun h => absurd h.2.1 h1⟩
  rw [if_neg h1]
  by_cases h2 : spapr.cap_nested_papr = 0
  · rw [if_pos h2]
    exact ⟨fun h => absurd h.symm c3, fun _ => ⟨rfl, fun _ => rfl⟩,
      fun h => absurd h.symm c3, fun h => absurd h2 h.2.2.1⟩
  rw [if_neg h2]
  by_cases h3 : ¬ spapr.nested.capabilities_set = true
  · rw [if_pos h3]
    exact ⟨fun h => absurd h.symm c4, fun _ => ⟨rfl, fun _ => rfl⟩,
      fun h => absurd h.symm c4, fun h => absurd h.2.2.2.1 h3⟩
  rw [if_neg h3]
  by_cases h4 : g_hash_table_size (registry_table spapr) = registry_max K spapr
  · rw [if_pos h4]
    exact ⟨fun h => absurd h.symm c5, fun _ => ⟨rfl, fun k => registry_init_table K spapr k⟩,
      fun h => absurd h.symm c5, fun h => absurd h4 h.2.2.2.2.1⟩
  rw [if_neg h4]
  by_cases h5 : found_lpid K spapr = registry_max K spapr
  · rw [if_pos h5]
    exact ⟨fun h => absurd h.symm c5, fun _ => ⟨rfl, fun k => registry_init_table K spapr k⟩,
      fun h => absurd h.symm c5, fun h => absurd h5 h.2.2.2.2.2.1⟩
  rw [if_neg h5]
  by_cases h6 : ¬ alloc_ok = true
  · rw [if_pos h6]
    exact ⟨fun h => absurd h.symm c5, fun _ => ⟨rfl, fun k => registry_init_table K spapr k⟩,
      fun h => absurd h.symm c5, fun h => absurd h.2.2.2.2.2.2 h6⟩
  rw [if_neg h6]
  have hpos : 1 ≤ registry_max K spapr := by
    cases hg : spapr.nested.guests with
    | none =>
      simp only [registry_table, registry_max, hg, g_hash_table_size, Option.getD_none,
        List.length_nil] at h4 ⊢
      omega
    | some t =>
      simp only [registry_max, hg]
      exact hmax (by simp [hg])
  obtain ⟨s1, s2, s3, s4⟩ := lookup_lpid_spec (registry_table spapr) (registry_max K spapr)
    (registry_max K spapr) 1 (by omega)
  have hlt : found_lpid K spapr < registry_max K spapr :=
    Nat.lt_of_le_of_ne (s4 hpos) h5
  have hfree : g_hash_table_lookup (registry_table spapr) (found_lpid K spapr) = none :=
    s3 hlt
  have hgpr : (set_gpr cpu.env 4 (found_lpid K spapr)).gpr 4 = found_lpid K spapr := by
    simp [set_gpr]
  have hlook : ∀ k, spapr_get_nested_guest
      { registry_init K spapr with nested :=
        { (registry_init K spapr).nested with guests := (some (g_hash_table_insert
            (registry_table spapr) (found_lpid K spapr)
            { pvr_logical := spapr.nested.pvr_base, vcpus := 0, vcpu := [] })) } } k =
      if found_lpid K spapr = k then
        some { pvr_logical := spapr.nested.pvr_base, vcpus := 0, vcpu := [] }
      else spapr_get_nested_guest spapr k := by
    intro k
    rw [spapr_get_nested_guest_table spapr k, ← lookup_insert_absent _ _ k _ hfree]
    rfl
  refine ⟨fun _ => ⟨?_, ?_, ?_, ?_, ?_, ?_⟩, fun h => absurd rfl h,
    fun _ => ⟨by simpa using h0, by simpa using h1, h2, by simpa using h3, h4, h5,
      by simpa using h6⟩, fun _ => rfl⟩
  · show _ = ({ cpu with env := (set_gpr cpu.env 4
      ((set_gpr cpu.env 4 (found_lpid K spapr)).gpr 4)) } : PowerPCCPU)
    rw [hgpr]
  · show 1 ≤ (set_gpr cpu.env 4 (found_lpid K spapr)).gpr 4
    rw [hgpr]
    exact s1
  · show spapr_get_nested_guest spapr ((set_gpr cpu.env 4 (found_lpid K spapr)).gpr 4) = none
    rw [hgpr, spapr_get_nested_guest_table]
    exact hfree
  · intro k hk1 hk2
    have hk2' : k < found_lpid K spapr := by
      have : (set_gpr cpu.env 4 (found_lpid K spapr)).gpr 4 = found_lpid K spapr := hgpr
      exact this ▸ hk2
    rw [spapr_get_nested_guest_table]
    exact s2 k hk1 hk2'
  · show spapr_get_nested_guest _ ((set_gpr cpu.env 4 (found_lpid K spapr)).gpr 4) = _
    rw [hgpr, hlook, if_pos rfl]
  · intro k hk
    have hk' : ¬ found_lpid K spapr = k := by
      intro h
      apply hk
      show k = (set_gpr cpu.env 4 (found_lpid K spapr)).gpr 4
      rw [hgpr, h]
    show spapr_get_nested_guest _ k = _
    rw [hlook, if_neg hk']

/-- Witness for C19: on a registry that holds the ids 1 and 3 the call
returns `H_SUCCESS` with the free id 2 in `gpr[4]`, stores a guest with the
machine's `pvr_base` there and keeps the guests 1 and 3. -/
theorem h_guest_create_id_selection_witness :
    (h_guest_create qemu_consts power9_cpu gap_spapr 0 create_args true).ret = 0 ∧
    (h_guest_create qemu_consts power9_cpu gap_spapr 0 create_args true).cpu.env.gpr 4 = 2 ∧
    spapr_get_nested_guest
      (h_guest_create qemu_consts power9_cpu gap_spapr 0 create_args true).spapr 2
      = some { pvr_logical := 0x004E1200, vcpus := 0, vcpu := [] } ∧
    spapr_get_nested_guest
      (h_guest_create qemu_consts power9_cpu gap_spapr 0 create_args true).spapr 3
      = spapr_get_nested_guest gap_spapr 3 := by
  have h := h_guest_create_id_selection qemu_consts power9_cpu gap_spapr 0 create_args true
    _ rfl (fun _ => by decide) (by decide)
  have hret : (h_guest_create qemu_consts power9_cpu gap_spapr 0 create_args true).ret = 0 :=
    rfl
  have hid : (h_guest_create qemu_consts power9_cpu gap_spapr 0 create_args true).cpu.env.gpr 4
      = 2 := rfl
  obtain ⟨-, -, -, -, h5, h6⟩ := h.1 hret
  rw [hid] at h5
  exact ⟨hret, hid, h5, h6 3 (by rw [hid]; decide)⟩

/-- A guest found by a lookup is an entry of the table. -/
theorem lookup_mem (t : GuestTable) (key : Nat) (g : SpaprMachineStateNestedGuest)
    (h : g_hash_table_lookup t key = some g) : (key, g) ∈ t := by
  induction t with
  | nil => simp [g_hash_table_lookup] at h
  | cons e t ih =>
    obtain ⟨k, v⟩ := e
    by_cases hk : k = key
    · simp only [g_hash_table_lookup, if_pos hk] at h
      rw [hk, Option.some.inj h]
      exact List.mem_cons_self _ _
    · simp only [g_hash_table_lookup, if_neg hk] at h
      exact List.mem_cons_of_mem _ (ih h)

/-- The entries after a store through a guest pointer are old entries or
hold the stored guest. -/
theorem mem_guest_store (t : GuestTable) (key : Nat) (g : SpaprMachineStateNestedGuest)
    (e : Nat × SpaprMachineStateNestedGuest) (h : e ∈ guest_store t key g) :
    e ∈ t ∨ e.2 = g := by
  induction t with
  | nil => simp [guest_store] at h
  | cons x t ih =>
    obtain ⟨k, v⟩ := x
    by_cases hk : k = key
    · simp only [guest_store, if_pos hk, List.mem_cons] at h
      rcases h with h | h
      · right; rw [h]
      · left; exact List.mem_cons_of_mem _ h
    · simp only [guest_store, if_neg hk, List.mem_cons] at h
      rcases h with h | h
      · left; rw [h]; exact List.mem_cons_self _ _
      · rcases ih h with h' | h'
        · left; exact List.mem_cons_of_mem _ h'
        · right; exact h'

/-- Storing a well-formed guest keeps the registry well formed. -/
theorem registry_ok_with_guest (K : Consts) (spapr : SpaprMachineState) (lpid : Nat)
    (g : SpaprMachineStateNestedGuest) (hreg : registry_ok K spapr) (hg : guest_ok K g) :
    registry_ok K (with_guest spapr lpid g) := by
  intro t ht e he
  cases hgs : spapr.nested.guests with
  | none => simp [with_guest, hgs] at ht
  | some t0 =>
    simp only [with_guest, hgs, Option.map_some', Option.some.injEq] at ht
    rw [← ht] at he
    rcases mem_guest_store t0 lpid g e he with h | h
    · exact hreg t0 hgs e h
    · rw [h]; exact hg

/-- The allocation-failure return of `h_guest_create_vcpu`. -/
theorem h_guest_create_vcpu_no_mem (K : Consts) (cpu : PowerPCCPU)
    (spapr : SpaprMachineState) (opcode : Nat) (args : Nat → Nat)
    (guest : SpaprMachineStateNestedGuest)
    (hflags : args 0 = 0)
    (hguest : spapr_get_nested_guest spapr (args 1) = some guest)
    (hnot : ¬ args 2 < guest.vcpus)
    (hmax : guest.vcpus < K.NESTED_GUEST_VCPU_MAX) :
    h_guest_create_vcpu K cpu spapr opcode args false =
      if guest.vcpus ≠ 0 then some ⟨K.H_NO_MEM, cpu, spapr⟩
      else some ⟨K.H_NO_MEM, cpu, with_guest spapr (args 1) { guest with vcpu := [] }⟩ := by
  simp only [h_guest_create_vcpu, hguest]
  rw [if_neg (by simpa using hflags), if_neg hnot, if_neg (by omega)]
  by_cases hn : guest.vcpus ≠ 0
  · rw [if_pos hn, if_pos hn]
    simp [g_try_renew, hn]
    rfl
  · rw [if_neg hn, if_neg hn]
    simp [hn]
    rfl

/-- The growth step of `h_guest_create_vcpu`: flags = 0, a guest whose array
holds its `n < NESTED_GUEST_VCPU_MAX` slots, the index `n` and the allocation
succeeding give `H_SUCCESS` and one more, enabled, slot. -/
theorem h_guest_create_vcpu_next (K : Consts) (cpu : PowerPCCPU)
    (spapr : SpaprMachineState) (opcode : Nat) (args : Nat → Nat)
    (guest : SpaprMachineStateNestedGuest)
    (hflags : args 0 = 0)
    (hguest : spapr_get_nested_guest spapr (args 1) = some guest)
    (hmax : guest.vcpus < K.NESTED_GUEST_VCPU_MAX)
    (hlen : guest.vcpu.length = guest.vcpus)
    (hid : args 2 = guest.vcpus) :
    h_guest_create_vcpu K cpu spapr opcode args true = some
      ⟨K.H_SUCCESS, cpu, with_guest spapr (args 1)
        { guest with vcpus := guest.vcpus + 1,
                     vcpu := guest.vcpu ++ [new_vcpu_slot K cpu] }⟩ := by
  simp only [h_guest_create_vcpu, hguest]
  rw [if_neg (by simpa using hflags), if_neg (by omega), if_neg (by omega)]
  obtain ⟨pvr, n, vcpu⟩ := guest
  simp only at hlen hid hmax ⊢
  subst hlen
  rw [hid]
  by_cases hn : vcpu.length = 0
  · have hnil : vcpu = [] := List.length_eq_zero.mp hn
    subst hnil
    have hpos : ¬ K.NESTED_GUEST_VCPU_MAX = 0 := by
      simp only [List.length_nil] at hmax
      omega
    simp [array_modify, vcpu_check, hret, with_guest, new_vcpu_slot,
      SpaprMachineStateNestedGuestVcpu.zero, hpos]
  · rw [if_pos hn, g_try_renew_grow]
    simp only [set_append_last, array_modify_append]
    rw [if_neg (by omega)]
    simp only [vcpu_check, get_append_last]
    rw [if_neg (by omega), if_neg (by omega), if_neg (by simp), if_pos (by simp)]
    rfl

/-- A guest found through `spapr_get_nested_guest` in a well-formed registry
is well formed. -/
theorem guest_ok_of_lookup (K : Consts) (spapr : SpaprMachineState) (lpid : Nat)
    (g : SpaprMachineStateNestedGuest) (hreg : registry_ok K spapr)
    (h : spapr_get_nested_guest spapr lpid = some g) : guest_ok K g := by
  cases hgs : spapr.nested.guests with
  | none => simp [spapr_get_nested_guest, hgs] at h
  | some t =>
    simp only [spapr_get_nested_guest, hgs] at h
    exact hreg t hgs (lpid, g) (lookup_mem t lpid g h)

/-- The handler `h_guest_create` keeps the registry well formed. -/
theorem registry_ok_create (K : Consts) (cpu : PowerPCCPU) (spapr : SpaprMachineState)
    (opcode : Nat) (args : Nat → Nat) (alloc_ok : Bool) (hreg : registry_ok K spapr) :
    registry_ok K (h_guest_create K cpu spapr opcode args alloc_ok).spapr := by
  have hinit : registry_ok K (registry_init K spapr) := by
    intro t ht e he
    cases hgs : spapr.nested.guests with
    | none =>
      simp only [registry_init, hgs, Option.some.injEq] at ht
      rw [← ht] at he
      simp at he
    | some t0 =>
      simp only [registry_init, hgs] at ht
      have ht' := Option.some.inj ht
      subst ht'
      exact hreg t0 hgs e he
  have htable : ∀ e, e ∈ registry_table spapr → guest_ok K e.2 := by
    intro e he
    cases hgs : spapr.nested.guests with
    | none => simp [registry_table, hgs] at he
    | some t0 =>
      simp only [registry_table, hgs, Option.getD_some] at he
      exact hreg t0 hgs e he
  have hins : registry_ok K
      { registry_init K spapr with nested :=
        { (registry_init K spapr).nested with guests := (some (g_hash_table_insert
            (registry_table spapr) (found_lpid K spapr)
            { pvr_logical := spapr.nested.pvr_base, vcpus := 0, vcpu := [] })) } } := by
    intro t ht e he
    have ht' := Option.some.inj ht
    subst ht'
    simp only [g_hash_table_insert, List.mem_cons] at he
    rcases he with h | h
    · rw [h]
      exact ⟨rfl, Nat.zero_le _, fun v hv => by simp at hv⟩
    · exact htable e (List.mem_of_mem_filter h)
  rw [h_guest_create_eq]
  split_ifs
  all_goals first
    | exact hreg
    | exact hinit
    | exact hins

/-- The handler `h_guest_create_vcpu`, when it returns, keeps the registry
well formed. -/
theorem registry_ok_create_vcpu (K : Consts) (cpu : PowerPCCPU) (spapr : SpaprMachineState)
    (opcode : Nat) (args : Nat → Nat) (alloc_ok : Bool) (r : HcallResult)
    (hreg : registry_ok K spapr)
    (hr : h_guest_create_vcpu K cpu spapr opcode args alloc_ok = some r) :
    registry_ok K r.spapr := by
  by_cases hflags : args 0 ≠ 0
  · simp only [h_guest_create_vcpu] at hr
    rw [if_pos hflags] at hr
    rw [← Option.some.inj hr]
    exact hreg
  cases hguest : spapr_get_nested_guest spapr (args 1) with
  | none =>
    simp only [h_guest_create_vcpu, hguest] at hr
    rw [if_neg hflags] at hr
    rw [← Option.some.inj hr]
    exact hreg
  | some guest =>
    obtain ⟨hlen, hle, hen⟩ := guest_ok_of_lookup K spapr (args 1) guest hreg hguest
    by_cases hlt : args 2 < guest.vcpus
    · simp only [h_guest_create_vcpu, hguest] at hr
      rw [if_neg hflags, if_pos hlt] at hr
      rw [← Option.some.inj hr]
      exact hreg
    by_cases hfull : guest.vcpus ≥ K.NESTED_GUEST_VCPU_MAX
    · simp only [h_guest_create_vcpu, hguest] at hr
      rw [if_neg hflags, if_neg hlt, if_pos hfull] at hr
      rw [← Option.some.inj hr]
      exact hreg
    have hflags0 : args 0 = 0 := by simpa using hflags
    cases alloc_ok with
    | false =>
      rw [h_guest_create_vcpu_no_mem K cpu spapr opcode args guest hflags0 hguest hlt
        (by omega)] at hr
      by_cases hn : guest.vcpus ≠ 0
      · rw [if_pos hn] at hr
        rw [← Option.some.inj hr]
        exact hreg
      · rw [if_neg hn] at hr
        rw [← Option.some.inj hr]
        refine registry_ok_with_guest K spapr (args 1) _ hreg ⟨?_, hle, ?_⟩
        · show ([] : List SpaprMachineStateNestedGuestVcpu).length = guest.vcpus
          simp only [List.length_nil]
          omega
        · intro v hv
          simp at hv
    | true =>
      by_cases hid : args 2 = guest.vcpus
      · rw [h_guest_create_vcpu_next K cpu spapr opcode args guest hflags0 hguest (by omega)
          hlen hid] at hr
        rw [← Option.some.inj hr]
        refine registry_ok_with_guest K spapr (args 1) _ hreg ⟨?_, ?_, ?_⟩
        · show (guest.vcpu ++ [new_vcpu_slot K cpu]).length = guest.vcpus + 1
          simp [hlen]
        · show guest.vcpus + 1 ≤ K.NESTED_GUEST_VCPU_MAX
          omega
        · intro v hv
          have hv' : v ∈ guest.vcpu ++ [new_vcpu_slot K cpu] := hv
          rcases List.mem_append.mp hv' with h | h
          · exact hen v h
          · simp only [List.mem_singleton] at h
            rw [h]
            rfl
      · rw [h_guest_create_vcpu_gap_aborts K cpu spapr opcode args guest hflags0 hguest
          (by omega) hlen (by omega)] at hr
        exact absurd hr (by simp)

/-- Every reachable machine state has a well-formed registry. -/
theorem reachable_registry_ok (K : Consts) (spapr : SpaprMachineState)
    (h : Reachable K spapr) : registry_ok K spapr := by
  induction h with
  | init s hs =>
    intro t ht
    rw [hs] at ht
    exact absurd ht (by simp)
  | set_capabilities cpu s opcode args _ ih =>
    intro t ht e he
    have hsame : (h_guest_set_capabilities K cpu s opcode args).spapr.nested.guests
        = s.nested.guests := by
      simp only [h_guest_set_capabilities]
      split_ifs <;> rfl
    rw [hsame] at ht
    exact ih t ht e he
  | create cpu s opcode args alloc_ok _ ih =>
    exact registry_ok_create K cpu s opcode args alloc_ok ih
  | create_vcpu cpu s opcode args alloc_ok r _ hr ih =>
    exact registry_ok_create_vcpu K cpu s opcode args alloc_ok r ih hr

/-- C20: `h_guest_create_vcpu` with flags = 0 and the index equal to the
guest's count returns `H_P3` and changes nothing once the count has reached
`NESTED_GUEST_VCPU_MAX`. In every reachable machine state each guest has at
most `NESTED_GUEST_VCPU_MAX` vCPUs, and every index below the count has an
enabled slot, so `vcpu_check(guest, i, false)` is true for it. -/
theorem h_guest_create_vcpu_limit (K : Consts) (cpu : PowerPCCPU)
    (spapr : SpaprMachineState) (opcode : Nat) (args : Nat → Nat) (alloc_ok : Bool) :
    (∀ guest, args 0 = 0 → spapr_get_nested_guest spapr (args 1) = some guest →
      args 2 = guest.vcpus → K.NESTED_GUEST_VCPU_MAX ≤ guest.vcpus →
      h_guest_create_vcpu K cpu spapr opcode args alloc_ok = some ⟨K.H_P3, cpu, spapr⟩) ∧
    (Reachable K spapr → ∀ lpid g, spapr_get_nested_guest spapr lpid = some g →
      g.vcpus ≤ K.NESTED_GUEST_VCPU_MAX ∧
      ∀ i, i < g.vcpus →
        (∃ v, g.vcpu[i]? = some v ∧ v.enabled = true) ∧
        vcpu_check K g i false = some true) := by
  constructor
  · intro guest hflags hguest hid hfull
    simp only [h_guest_create_vcpu, hguest]
    rw [if_neg (by simpa using hflags), if_neg (by omega), if_pos hfull]
    rfl
  · intro hreach lpid g hg
    obtain ⟨hlen, hle, hen⟩ :=
      guest_ok_of_lookup K spapr lpid g (reachable_registry_ok K spapr hreach) hg
    refine ⟨hle, fun i hi => ?_⟩
    have hi' : i < g.vcpu.length := by omega
    have hget : g.vcpu[i]? = some (g.vcpu.get ⟨i, hi'⟩) := by
      simp [List.getElem?_eq_getElem hi']
    have hen' : (g.vcpu.get ⟨i, hi'⟩).enabled = true := hen _ (List.get_mem _ _ _)
    refine ⟨⟨_, hget, hen'⟩, ?_⟩
    simp only [vcpu_check, hget]
    rw [if_neg (by omega), if_neg (by omega), if_neg (fun h => h hen'), if_pos (by simp)]

/-- Witness for C20 with `NESTED_GUEST_VCPU_MAX = 2`: on a guest that has two
vCPUs, creating index 2 returns `H_P3` and changes nothing; and in the state
reached from a fresh machine by one `h_guest_create` and one
`h_guest_create_vcpu`, guest 1 has one vCPU and `vcpu_check` accepts index 0. -/
theorem h_guest_create_vcpu_limit_witness :
    h_guest_create_vcpu two_vcpu_consts power9_cpu (guest_spapr 2) 0 (mk_args 0 1 2) true
      = some ⟨two_vcpu_consts.H_P3, power9_cpu, guest_spapr 2⟩ ∧
    ∃ r g, h_guest_create_vcpu two_vcpu_consts power9_cpu
        (h_guest_create two_vcpu_consts power9_cpu fresh_spapr 0 create_args true).spapr
        0 (mk_args 0 1 0) true = some r ∧
      spapr_get_nested_guest r.spapr 1 = some g ∧ g.vcpus = 1 ∧
      vcpu_check two_vcpu_consts g 0 false = some true := by
  refine ⟨(h_guest_create_vcpu_limit two_vcpu_consts power9_cpu (guest_spapr 2) 0
      (mk_args 0 1 2) true).1 (demo_guest 2) rfl rfl rfl (by decide), _, _, rfl, rfl, rfl, ?_⟩
  exact (((h_guest_create_vcpu_limit two_vcpu_consts power9_cpu _ 0 (mk_args 0 1 0) true).2
    (Reachable.create_vcpu power9_cpu _ 0 (mk_args 0 1 0) true _
      (Reachable.create power9_cpu fresh_spapr 0 create_args true
        (Reachable.init fresh_spapr rfl)) rfl) 1 _ rfl).2 0 (by decide)).2

/-- A list of distinct ids from `[1, m - 1]` has at most `m - 1` members. -/
theorem ids_length_le (l : List Nat) (m : Nat) (hn : l.Nodup)
    (hb : ∀ k, k ∈ l → 1 ≤ k ∧ k < m) : l.length ≤ m - 1 := by
  have hsub : l.toFinset ⊆ Finset.Ico 1 m := by
    intro k hk
    rw [List.mem_toFinset] at hk
    rw [Finset.mem_Ico]
    exact hb k hk
  have hcard := Finset.card_le_card hsub
  rw [List.toFinset_card_of_nodup hn, Nat.card_Ico] at hcard
  exact hcard

/-- A list of `m - 1` distinct ids from `[1, m - 1]` holds every such id. -/
theorem ids_full (l : List Nat) (m : Nat) (hn : l.Nodup)
    (hb : ∀ k, k ∈ l → 1 ≤ k ∧ k < m) (hlen : l.length = m - 1) :
    ∀ k, 1 ≤ k → k < m → k ∈ l := by
  have hsub : l.toFinset ⊆ Finset.Ico 1 m := by
    intro k hk
    rw [List.mem_toFinset] at hk
    rw [Finset.mem_Ico]
    exact hb k hk
  have heq : l.toFinset = Finset.Ico 1 m := by
    apply Finset.eq_of_subset_of_card_le hsub
    rw [List.toFinset_card_of_nodup hn, Nat.card_Ico, hlen]
  intro k h1 h2
  rw [← List.mem_toFinset, heq, Finset.mem_Ico]
  exact ⟨h1, h2⟩

/-- An id held by the table is found by the lookup. -/
theorem lookup_of_key (t : GuestTable) (key : Nat) (h : key ∈ registry_keys t) :
    (g_hash_table_lookup t key).isSome = true := by
  induction t with
  | nil => simp [registry_keys] at h
  | cons e t ih =>
    obtain ⟨k, v⟩ := e
    by_cases hk : k = key
    · simp only [g_hash_table_lookup, if_pos hk, Option.isSome_some]
    · simp only [g_hash_table_lookup, if_neg hk]
      apply ih
      simp only [registry_keys, List.map_cons, List.mem_cons] at h
      rcases h with h | h
      · exact absurd h.symm hk
      · exact h

/-- An id found by the lookup is held by the table. -/
theorem key_of_lookup (t : GuestTable) (key : Nat) (g : SpaprMachineStateNestedGuest)
    (h : g_hash_table_lookup t key = some g) : key ∈ registry_keys t :=
  List.mem_map_of_mem Prod.fst (lookup_mem t key g h)

/-- A store through a guest pointer does not change the ids of the table. -/
theorem guest_store_keys (t : GuestTable) (key : Nat) (g : SpaprMachineStateNestedGuest) :
    registry_keys (guest_store t key g) = registry_keys t := by
  induction t with
  | nil => rfl
  | cons e t ih =>
    obtain ⟨k, v⟩ := e
    by_cases hk : k = key
    · simp only [guest_store, if_pos hk, registry_keys, List.map_cons]
    · simp only [guest_store, if_neg hk, registry_keys, List.map_cons]
      simp only [registry_keys] at ih
      rw [ih]

/-- Storing a guest keeps the registry bounded. -/
theorem registry_bounded_with_guest (K : Consts) (spapr : SpaprMachineState) (lpid : Nat)
    (g : SpaprMachineStateNestedGuest) (hb : registry_bounded K spapr) :
    registry_bounded K (with_guest spapr lpid g) := by
  intro t ht
  cases hgs : spapr.nested.guests with
  | none => simp [with_guest, hgs] at ht
  | some t0 =>
    simp only [with_guest, hgs, Option.map_some', Option.some.injEq] at ht
    obtain ⟨h1, h2, h3⟩ := hb t0 hgs
    rw [← ht, guest_store_keys]
    exact ⟨h1, h2, h3⟩

/-- Whatever `h_guest_create_vcpu` returns, the machine it leaves is the old
one or the old one with the addressed guest replaced. -/
theorem h_guest_create_vcpu_shape (K : Consts) (cpu : PowerPCCPU) (spapr : SpaprMachineState)
    (opcode : Nat) (args : Nat → Nat) (alloc_ok : Bool) (r : HcallResult)
    (hr : h_guest_create_vcpu K cpu spapr opcode args alloc_ok = some r) :
    r.spapr = spapr ∨ ∃ g, r.spapr = with_guest spapr (args 1) g := by
  simp only [h_guest_create_vcpu, hret] at hr
  repeat' split at hr
  all_goals first
    | (left; obtain rfl := Option.some.inj hr; rfl)
    | (right; obtain rfl := Option.some.inj hr; exact ⟨_, rfl⟩)
    | simp at hr

/-- The registry table and the maximum that `h_guest_create` works with, for
a bounded registry: the maximum is `NESTED_GUEST_MAX`, the ids are distinct and
lie in `[1, NESTED_GUEST_MAX - 1]`. -/
theorem registry_bounded_table (K : Consts) (spapr : SpaprMachineState)
    (hb : registry_bounded K spapr) :
    registry_max K spapr = K.NESTED_GUEST_MAX ∧
    (∀ k, k ∈ registry_keys (registry_table spapr) → 1 ≤ k ∧ k < K.NESTED_GUEST_MAX) ∧
    (registry_keys (registry_table spapr)).Nodup := by
  cases hgs : spapr.nested.guests with
  | none =>
    simp only [registry_max, registry_table, hgs, Option.getD_none, registry_keys,
      List.map_nil]
    exact ⟨trivial, fun k hk => by simp at hk, List.nodup_nil⟩
  | some t =>
    obtain ⟨h1, h2, h3⟩ := hb t hgs
    simp only [registry_max, registry_table, hgs, Option.getD_some]
    exact ⟨h1, h2, h3⟩

/-- The number of guests of a bounded registry is at most
`NESTED_GUEST_MAX - 1`. -/
theorem registry_bounded_size (K : Consts) (spapr : SpaprMachineState)
    (hb : registry_bounded K spapr) :
    g_hash_table_size (registry_table spapr) ≤ K.NESTED_GUEST_MAX - 1 := by
  obtain ⟨-, h2, h3⟩ := registry_bounded_table K spapr hb
  have h := ids_length_le _ K.NESTED_GUEST_MAX h3 h2
  simpa [registry_keys, g_hash_table_size] using h

/-- The handler `h_guest_create` keeps the registry bounded. -/
theorem registry_bounded_create (K : Consts) (cpu : PowerPCCPU) (spapr : SpaprMachineState)
    (opcode : Nat) (args : Nat → Nat) (alloc_ok : Bool) (hb : registry_bounded K spapr) :
    registry_bounded K (h_guest_create K cpu spapr opcode args alloc_ok).spapr := by
  obtain ⟨hmax, hkeys, hnodup⟩ := registry_bounded_table K spapr hb
  have hsize := registry_bounded_size K spapr hb
  have hinit : registry_bounded K (registry_init K spapr) := by
    intro t ht
    cases hgs : spapr.nested.guests with
    | none =>
      simp only [registry_init, hgs, Option.some.injEq] at ht
      rw [← ht]
      simp only [registry_init, hgs]
      exact ⟨trivial, fun k hk => by simp [registry_keys] at hk, List.nodup_nil⟩
    | some t0 =>
      simp only [registry_init, hgs] at ht ⊢
      have ht' := Option.some.inj ht
      subst ht'
      exact hb t0 hgs
  have hinit_max : (registry_init K spapr).nested.lpid_max = K.NESTED_GUEST_MAX := by
    cases hgs : spapr.nested.guests with
    | none => simp only [registry_init, hgs]
    | some t0 =>
      simp only [registry_init, hgs]
      exact (hb t0 hgs).1
  have hins : ¬ g_hash_table_size (registry_table spapr) = registry_max K spapr →
      ¬ found_lpid K spapr = registry_max K spapr →
      registry_bounded K
        { registry_init K spapr with nested :=
          { (registry_init K spapr).nested with guests := (some (g_hash_table_insert
              (registry_table spapr) (found_lpid K spapr)
              { pvr_logical := spapr.nested.pvr_base, vcpus := 0, vcpu := [] })) } } := by
    intro h4 h5
    have hpos : 1 ≤ registry_max K spapr := by
      rw [hmax] at h4 ⊢
      omega
    obtain ⟨s1, -, s3, s4⟩ := lookup_lpid_spec (registry_table spapr) (registry_max K spapr)
      (registry_max K spapr) 1 (by omega)
    have hlt : found_lpid K spapr < registry_max K spapr :=
      Nat.lt_of_le_of_ne (s4 hpos) h5
    have hfree : g_hash_table_lookup (registry_table spapr) (found_lpid K spapr) = none :=
      s3 hlt
    have hnotin : found_lpid K spapr ∉ registry_keys (registry_table spapr) := by
      intro hin
      have := lookup_of_key _ _ hin
      rw [hfree] at this
      exact absurd this (by decide)
    intro t ht
    have ht' := Option.some.inj ht
    subst ht'
    have hk : registry_keys (g_hash_table_insert (registry_table spapr) (found_lpid K spapr)
        { pvr_logical := spapr.nested.pvr_base, vcpus := 0, vcpu := [] }) =
        found_lpid K spapr :: registry_keys (registry_table spapr) := by
      simp only [g_hash_table_insert, filter_absent_key _ _ hfree, registry_keys,
        List.map_cons]
    rw [hk]
    refine ⟨hinit_max, ?_, List.nodup_cons.mpr ⟨hnotin, hnodup⟩⟩
    intro k hkm
    rcases List.mem_cons.mp hkm with h | h
    · rw [h]
      exact ⟨s1, by rw [← hmax]; exact hlt⟩
    · exact hkeys k h
  rw [h_guest_create_eq]
  split_ifs
  all_goals first
    | exact hb
    | exact hinit
    | (apply hins <;> assumption)

/-- Every reachable machine state has a bounded registry. -/
theorem reachable_registry_bounded (K : Consts) (spapr : SpaprMachineState)
    (h : Reachable K spapr) : registry_bounded K spapr := by
  induction h with
  | init s hs =>
    intro t ht
    rw [hs] at ht
    exact absurd ht (by simp)
  | set_capabilities cpu s opcode args _ ih =>
    intro t ht
    have hsame : (h_guest_set_capabilities K cpu s opcode args).spapr.nested.guests
        = s.nested.guests ∧
        (h_guest_set_capabilities K cpu s opcode args).spapr.nested.lpid_max
        = s.nested.lpid_max := by
      simp only [h_guest_set_capabilities]
      split_ifs <;> exact ⟨rfl, rfl⟩
    rw [hsame.1] at ht
    rw [hsame.2]
    exact ih t ht
  | create cpu s opcode args alloc_ok _ ih =>
    exact registry_bounded_create K cpu s opcode args alloc_ok ih
  | create_vcpu cpu s opcode args alloc_ok r _ hr ih =>
    rcases h_guest_create_vcpu_shape K cpu s opcode args alloc_ok r hr with h | ⟨g, h⟩
    · rw [h]; exact ih
    · rw [h]; exact registry_bounded_with_guest K s (args 1) g ih

/-- A call of `h_guest_create` that passes the argument and capability checks
returns `H_NO_MEM` when the size check or the id scan rejects it. -/
theorem h_guest_create_no_mem (K : Consts) (cpu : PowerPCCPU) (spapr : SpaprMachineState)
    (opcode : Nat) (args : Nat → Nat) (alloc_ok : Bool)
    (h0 : args 0 = 0) (h1 : args 1 = WORD - 1) (hcap : spapr.cap_nested_papr ≠ 0)
    (hset : spapr.nested.capabilities_set = true)
    (hfull : g_hash_table_size (registry_table spapr) = registry_max K spapr ∨
      found_lpid K spapr = registry_max K spapr) :
    (h_guest_create K cpu spapr opcode args alloc_ok).ret = K.H_NO_MEM := by
  rw [h_guest_create_eq, if_neg (not_not.mpr h0), if_neg (not_not.mpr h1), if_neg hcap,
    if_neg (not_not.mpr hset)]
  by_cases h4 : g_hash_table_size (registry_table spapr) = registry_max K spapr
  · rw [if_pos h4]
  · rw [if_neg h4]
    rcases hfull with h | h
    · exact absurd h h4
    · rw [if_pos h]

/-- A call of `h_guest_create` that passes the argument and capability checks
and the size check, and whose allocation succeeds, returns `H_NO_MEM` only
when the id scan has reached `lpid_max`. -/
theorem h_guest_create_no_mem_scan (K : Consts) (cpu : PowerPCCPU)
    (spapr : SpaprMachineState) (opcode : Nat) (args : Nat → Nat)
    (hcodes : K.H_SUCCESS ≠ K.H_NO_MEM)
    (h0 : args 0 = 0) (h1 : args 1 = WORD - 1) (hcap : spapr.cap_nested_papr ≠ 0)
    (hset : spapr.nested.capabilities_set = true)
    (hsize : g_hash_table_size (registry_table spapr) ≠ registry_max K spapr)
    (hret : (h_guest_create K cpu spapr opcode args true).ret = K.H_NO_MEM) :
    found_lpid K spapr = registry_max K spapr := by
  rw [h_guest_create_eq, if_neg (not_not.mpr h0), if_neg (not_not.mpr h1), if_neg hcap,
    if_neg (not_not.mpr hset), if_neg hsize] at hret
  by_cases h5 : found_lpid K spapr = registry_max K spapr
  · exact h5
  · rw [if_neg h5, if_neg (by simp)] at hret
    exact absurd hret hcodes

/-- The id scan of `h_guest_create` reaches `lpid_max` on a bounded registry
that holds `NESTED_GUEST_MAX - 1` guests, when `NESTED_GUEST_MAX >= 1`. -/
theorem registry_bounded_exhausted (K : Consts) (spapr : SpaprMachineState)
    (hb : registry_bounded K spapr) (hpos : 1 ≤ K.NESTED_GUEST_MAX)
    (hlen : g_hash_table_size (registry_table spapr) = K.NESTED_GUEST_MAX - 1) :
    found_lpid K spapr = registry_max K spapr := by
  obtain ⟨hmax, hkeys, hnodup⟩ := registry_bounded_table K spapr hb
  have hlen' : (registry_keys (registry_table spapr)).length = K.NESTED_GUEST_MAX - 1 := by
    simpa [registry_keys, g_hash_table_size] using hlen
  have hall := ids_full _ K.NESTED_GUEST_MAX hnodup hkeys hlen'
  simp only [found_lpid]
  apply lookup_lpid_exhausted _ _ _ _ (by rw [hmax]; exact hpos) (by omega)
  intro k hk1 hk2
  exact lookup_of_key _ _ (hall k hk1 (by rw [← hmax]; exact hk2))

/-- C21: registry capacity of `h_guest_create`. In every machine state
reachable from a machine without registry (through `h_guest_create` calls,
and also through `h_guest_set_capabilities` and returning
`h_guest_create_vcpu` calls, with any callers, arguments and allocator
outcomes) the `lpid_max` that `h_guest_create` works with is
`NESTED_GUEST_MAX`, every id under which a guest is found lies in
`[1, lpid_max - 1]`, and the registry holds at most `lpid_max - 1` guests.
With `NESTED_GUEST_MAX >= 1` the size check `nguests == lpid_max` is false in
every such state, so it never rejects a call: a call that passes the argument
and capability checks, whose allocation succeeds and that returns `H_NO_MEM`
(taken to differ from `H_SUCCESS`) was rejected by the id scan reaching
`lpid_max`. When `lpid_max - 1` guests exist, a call that passes the argument
and capability checks returns `H_NO_MEM`, and with `NESTED_GUEST_MAX >= 1`
the id scan of that call reaches `lpid_max`. -/
theorem h_guest_create_capacity (K : Consts) (spapr : SpaprMachineState)
    (hreach : Reachable K spapr) :
    registry_max K spapr = K.NESTED_GUEST_MAX ∧
    (∀ lpid g, spapr_get_nested_guest spapr lpid = some g →
      1 ≤ lpid ∧ lpid ≤ registry_max K spapr - 1) ∧
    g_hash_table_size (registry_table spapr) ≤ registry_max K spapr - 1 ∧
    (1 ≤ K.NESTED_GUEST_MAX →
      g_hash_table_size (registry_table spapr) ≠ registry_max K spapr) ∧
    (1 ≤ K.NESTED_GUEST_MAX → K.H_SUCCESS ≠ K.H_NO_MEM →
      ∀ (cpu : PowerPCCPU) (opcode : Nat) (args : Nat → Nat),
        args 0 = 0 → args 1 = WORD - 1 → spapr.cap_nested_papr ≠ 0 →
        spapr.nested.capabilities_set = true →
        (h_guest_create K cpu spapr opcode args true).ret = K.H_NO_MEM →
        found_lpid K spapr = registry_max K spapr) ∧
    (g_hash_table_size (registry_table spapr) = registry_max K spapr - 1 →
      (1 ≤ K.NESTED_GUEST_MAX → found_lpid K spapr = registry_max K spapr) ∧
      ∀ (cpu : PowerPCCPU) (opcode : Nat) (args : Nat → Nat) (alloc_ok : Bool),
        args 0 = 0 → args 1 = WORD - 1 → spapr.cap_nested_papr ≠ 0 →
        spapr.nested.capabilities_set = true →
        (h_guest_create K cpu spapr opcode args alloc_ok).ret = K.H_NO_MEM) := by
  have hb := reachable_registry_bounded K spapr hreach
  obtain ⟨hmax, hkeys, -⟩ := registry_bounded_table K spapr hb
  have hsize := registry_bounded_size K spapr hb
  have hne : 1 ≤ K.NESTED_GUEST_MAX →
      g_hash_table_size (registry_table spapr) ≠ registry_max K spapr := by
    intro hpos
    rw [hmax]
    omega
  refine ⟨hmax, ?_, by rw [hmax]; exact hsize, hne, ?_, ?_⟩
  · intro lpid g hg
    have hin : lpid ∈ registry_keys (registry_table spapr) := by
      cases hgs : spapr.nested.guests with
      | none =>
        simp only [spapr_get_nested_guest, hgs] at hg
        exact absurd hg (by simp)
      | some t =>
        simp only [spapr_get_nested_guest, hgs] at hg
        simp only [registry_table, hgs, Option.getD_some]
        exact key_of_lookup t lpid g hg
    have := hkeys lpid hin
    rw [hmax]
    omega
  · intro hpos hcodes cpu opcode args h0 h1 hcap hset hret
    exact h_guest_create_no_mem_scan K cpu spapr opcode args hcodes h0 h1 hcap hset
      (hne hpos) hret
  · intro hlen
    have hfound : 1 ≤ K.NESTED_GUEST_MAX → found_lpid K spapr = registry_max K spapr :=
      fun hpos => registry_bounded_exhausted K spapr hb hpos (by rw [← hmax]; exact hlen)
    refine ⟨hfound, ?_⟩
    intro cpu opcode args alloc_ok h0 h1 hcap hset
    apply h_guest_create_no_mem K cpu spapr opcode args alloc_ok h0 h1 hcap hset
    by_cases hpos : 1 ≤ K.NESTED_GUEST_MAX
    · exact Or.inr (hfound hpos)
    · left
      rw [hlen]
      omega

/-- Witness for C21 with `NESTED_GUEST_MAX = 3`: the machine after two plain
`h_guest_create` calls on a fresh machine is reachable and holds 2 guests,
which is `lpid_max - 1`; the id scan of the next call ends at 3 and the call
returns `H_NO_MEM`, whatever the allocator would have answered. -/
theorem h_guest_create_capacity_witness :
    Reachable small_consts (after_creates small_consts power9_cpu fresh_spapr 2).2 ∧
    g_hash_table_size
      (registry_table (after_creates small_consts power9_cpu fresh_spapr 2).2) = 2 ∧
    found_lpid small_consts (after_creates small_consts power9_cpu fresh_spapr 2).2 = 3 ∧
    (h_guest_create small_consts power9_cpu
      (after_creates small_consts power9_cpu fresh_spapr 2).2 0 create_args false).ret
      = small_consts.H_NO_MEM := by
  have hreach : Reachable small_consts
      (after_creates small_consts power9_cpu fresh_spapr 2).2 :=
    Reachable.create _ _ 0 create_args true
      (Reachable.create power9_cpu fresh_spapr 0 create_args true
        (Reachable.init fresh_spapr rfl))
  have h := (h_guest_create_capacity small_consts
    (after_creates small_consts power9_cpu fresh_spapr 2).2 hreach).2.2.2.2.2 rfl
  exact ⟨hreach, rfl, (h.1 (by decide)).trans rfl,
    h.2 power9_cpu 0 create_args false rfl rfl (by decide) rfl⟩

end SpaprNested
